import Mathlib

/-!
# AI Data Agent: the question-to-report pipeline of `backend/index.js`

A shallow embedding of the three pure stages of the `/api/query` handler:

* `classifyQuestion` : question text to intent (an ordered chain of regular-expression tests),
* `generateSQL`      : intent and schema to SQL text and chart kind,
* `generateResponse` : intent and result rows to narrative and visualization payload.

## Conventions of the embedding

* JavaScript strings are Lean strings. The regular expressions of the source contain only ASCII
  letters, blanks, alternation and `.*`, so matching on code points and matching on UTF-16 code
  units agree (both halves of a surrogate pair are matched by `.`).
* Intents are strings, as in the source; `generateSQL` and `generateResponse` send every string
  that is not one of the seven named intents to their `default` branch.
* A function that can throw returns `Except JSError`; the only exception the embedded code can
  raise is a `TypeError` (a method call on a value that lacks the method).
* Column values are JavaScript primitives. A finite Number is held as the rational it denotes;
  `+`, `-`, `*`, `/` and the conversions from text round their exact result to the nearest
  binary64 value (ties to even) and overflow to an infinity. The sign of zero is not modelled.
* What the host supplies is a parameter `Env`: the month label that `toLocaleString` gives a
  date, and the text of Numbers that are not integers of magnitude up to `2^53`.
* The result set `data` is an array of row objects, as `sequelize.query` returns it.
-/

namespace DataAgent

/-! ## Regular expressions (the fragment used by `classifyQuestion`) -/

/-- Line terminators of ECMAScript (LF, CR, LS, PS): the characters that `.` refuses. -/
def isLineTerminator (c : Char) : Bool :=
  c == Char.ofNat 0x0A || c == Char.ofNat 0x0D || c == Char.ofNat 0x2028 || c == Char.ofNat 0x2029

/-- Canonicalize of the `i` flag, as far as it matters against an ASCII pattern character:
ASCII letters are upper-cased; a character outside ASCII never canonicalizes to an ASCII
character (ECMAScript keeps `ch` when its upper case would fall below 128), so it is left
in place. -/
def canonicalize (c : Char) : Char := c.toUpper

/-- Regular expressions built from literal text, `a|b`, concatenation and `.*`. -/
inductive RegExp where
  | lit (s : String)
  | alt (a b : RegExp)
  | seq (a b : RegExp)
  | dotStar
  deriving Repr

/-- Strip the literal `p` from the front of `cs`, comparing characters under the `i` flag. -/
def stripLiteral : List Char → List Char → Option (List Char)
  | [], cs => some cs
  | _ :: _, [] => none
  | p :: ps, c :: cs => if canonicalize p = canonicalize c then stripLiteral ps cs else none

/-- Backtracking for `.*`: the greedy alternative first, then the empty one. -/
def dotStarK (k : List Char → Bool) : List Char → Bool
  | [] => k []
  | c :: cs => (!isLineTerminator c && dotStarK k cs) || k (c :: cs)

/-- Backtracking matcher in continuation style: `matchK re cs k` holds when `re` matches a
front part of `cs` whose remainder is accepted by the continuation `k`. -/
def RegExp.matchK : RegExp → List Char → (List Char → Bool) → Bool
  | .lit s, cs, k =>
    match stripLiteral s.data cs with
    | some rest => k rest
    | none => false
  | .alt a b, cs, k => a.matchK cs k || b.matchK cs k
  | .seq a b, cs, k => a.matchK cs (fun rest => b.matchK rest k)
  | .dotStar, cs, k => dotStarK k cs

/-- The `re.test(s)` of JavaScript for a pattern with the `i` flag and no anchors: a match may
start at any index of `s`. -/
def RegExp.test (re : RegExp) (s : String) : Bool :=
  s.data.tails.any (fun t => re.matchK t (fun _ => true))

/-- Pattern `/(compare|difference).*(sales|revenue|amount).*(electronics|furniture)/i`. -/
def reCategoryComparison : RegExp :=
  .seq (.alt (.lit "compare") (.lit "difference"))
    (.seq .dotStar
      (.seq (.alt (.lit "sales") (.alt (.lit "revenue") (.lit "amount")))
        (.seq .dotStar (.alt (.lit "electronics") (.lit "furniture")))))

/-- Pattern `/revenue.*(trend|over time)/i`. -/
def reRevenueTrend : RegExp :=
  .seq (.lit "revenue") (.seq .dotStar (.alt (.lit "trend") (.lit "over time")))

/-- Pattern `/top.*customer.*spend/i`. -/
def reCustomerSpending : RegExp :=
  .seq (.lit "top") (.seq .dotStar (.seq (.lit "customer") (.seq .dotStar (.lit "spend"))))

/-- Pattern `/(most|top).*(popular|selling).*product/i`. -/
def reProductPopularity : RegExp :=
  .seq (.alt (.lit "most") (.lit "top"))
    (.seq .dotStar
      (.seq (.alt (.lit "popular") (.lit "selling")) (.seq .dotStar (.lit "product"))))

/-- Pattern `/order.*status/i`. -/
def reOrderStatus : RegExp :=
  .seq (.lit "order") (.seq .dotStar (.lit "status"))

/-- Pattern `/(data quality|dirty data|invalid)/i`. -/
def reDataQuality : RegExp :=
  .alt (.lit "data quality") (.alt (.lit "dirty data") (.lit "invalid"))

/-- Pattern `/(customer base|customer growth|customer acquisition).*(over time|trend)/i`. -/
def reCustomerGrowth : RegExp :=
  .seq (.alt (.lit "customer base") (.alt (.lit "customer growth") (.lit "customer acquisition")))
    (.seq .dotStar (.alt (.lit "over time") (.lit "trend")))

/-- Pattern `/how has our customer base grown/i`. -/
def reCustomerBaseGrown : RegExp :=
  .lit "how has our customer base grown"

/-- The source's `classifyQuestion(question)`. (Its local `lowerQuestion` is never read.) -/
def classifyQuestion (question : String) : String :=
  if reCategoryComparison.test question then "category_comparison"
  else if reRevenueTrend.test question then "revenue_trend"
  else if reCustomerSpending.test question then "customer_spending"
  else if reProductPopularity.test question then "product_popularity"
  else if reOrderStatus.test question then "order_status"
  else if reDataQuality.test question then "data_quality"
  else if reCustomerGrowth.test question || reCustomerBaseGrown.test question then
    "customer_growth"
  else "general"

/-! ### The classifier as the specification words it: an ordered rule list -/

/-- The seven rules in their priority order, each a predicate on the question with its intent. -/
def intentRules : List ((String → Bool) × String) :=
  [ (reCategoryComparison.test, "category_comparison"),
    (reRevenueTrend.test, "revenue_trend"),
    (reCustomerSpending.test, "customer_spending"),
    (reProductPopularity.test, "product_popularity"),
    (reOrderStatus.test, "order_status"),
    (reDataQuality.test, "data_quality"),
    (fun q => reCustomerGrowth.test q || reCustomerBaseGrown.test q, "customer_growth") ]

/-- First-match-wins over `intentRules`, with `general` as the catch-all. -/
def firstMatchingIntent (question : String) : String :=
  match intentRules.find? (fun r => r.1 question) with
  | some r => r.2
  | none => "general"

/-- The closed taxonomy of eight intents. -/
def intents : List String :=
  [ "category_comparison", "revenue_trend", "customer_spending", "product_popularity",
    "order_status", "data_quality", "customer_growth", "general" ]

/-- The question mentions the word `w`, case-insensitively: `/w/i.test(question)`. -/
def mentions (question w : String) : Bool := (RegExp.lit w).test question

/-- Denotation of a regular expression: the texts it matches exactly. -/
def RegExp.Matches : RegExp → List Char → Prop
  | .lit s, w => w.map canonicalize = s.data.map canonicalize
  | .alt a b, w => a.Matches w ∨ b.Matches w
  | .seq a b, w => ∃ u v, w = u ++ v ∧ a.Matches u ∧ b.Matches v
  | .dotStar, w => ∀ c ∈ w, isLineTerminator c = false

/-! ## JavaScript values

Column values are JavaScript primitives. A finite Number is held as the rational it denotes,
next to `NaN` and the two infinities. The arithmetic operators and the conversions from text
round their exact result to the nearest binary64 value, the one with the even significand on a
tie, and overflow to an infinity (`round64`). The sign of zero is not modelled: there is one
zero, and it counts as positive. -/

/-- JavaScript Number: `NaN`, an infinity, or a finite value. -/
inductive JSNum where
  | nan
  | posInf
  | negInf
  | fin (q : ℚ)
  deriving DecidableEq

/-- JavaScript primitive values. -/
inductive JSVal where
  | undefined
  | null
  | bool (b : Bool)
  | num (n : JSNum)
  | str (s : String)
  deriving DecidableEq

/-- Exceptions thrown by the embedded code: calling a method on `undefined`/`null`, or calling
a property that is not a function (`"12".toFixed`), is a `TypeError`. -/
inductive JSError where
  | typeError
  deriving DecidableEq, Repr

/-- What the host environment supplies and the embedding leaves open. -/
structure Env where
  /-- The text of `new Date(v).toLocaleString('default', { month: 'short', year: 'numeric' })`:
  it depends on the locale and the time zone of the process. -/
  monthLabel : JSVal → String
  /-- Number::toString on a finite value that is not an integer of magnitude up to `2^53`
  (shortest round-trip digits of the binary64 value, possibly in exponent form). -/
  numberToString : ℚ → String

namespace JSNum

/-- The search of `log2Floor`, with fuel. -/
def log2Aux : ℕ → ℕ → ℕ
  | 0, _ => 0
  | fuel + 1, n => if n < 2 then 0 else log2Aux fuel (n / 2) + 1

/-- The position of the highest set bit of `n`: the floor of its binary logarithm. -/
def log2Floor (n : ℕ) : ℕ := log2Aux n n

/-- The power of two `2^k`, for an integer exponent. -/
def pow2 (k : ℤ) : ℚ :=
  if 0 ≤ k then ((2 ^ k.toNat : ℕ) : ℚ) else 1 / ((2 ^ (-k).toNat : ℕ) : ℚ)

/-- The binary exponent of a positive rational `a`: the `e` with `2^e ≤ a < 2^(e+1)`. -/
def exponent (a : ℚ) : ℤ :=
  let e : ℤ := (log2Floor a.num.natAbs : ℤ) - (log2Floor a.den : ℤ)
  if pow2 e ≤ a then e else e - 1

/-- The integer nearest to `t`, the even one on a tie. -/
def roundTiesEven (t : ℚ) : ℤ :=
  let fl := ⌊t⌋
  let r := t - fl
  if r < 1 / 2 then fl else if 1 / 2 < r then fl + 1 else if fl % 2 = 0 then fl else fl + 1

/-- The Number that an exact result `q` becomes: the nearest binary64 value, the one with the
even significand on a tie. The significand has 53 bits down to the exponent `-1022` and fewer
bits below (subnormal values are the multiples of `2^-1074`); a rounded magnitude of `2^1024`
(the long literal) or more is an infinity. -/
def round64 (q : ℚ) : JSNum :=
  if q = 0 then fin 0
  else
    let k := max (exponent |q|) (-1022) - 52
    let v : ℚ := (roundTiesEven (|q| / pow2 k) : ℚ) * pow2 k
    if (179769313486231590772930519078902473361797697894230657273430081157732675805500963132708477322407536021120113879871393357658789768814416622492847430639474124377767893424865485276302219601246094119453082952085005768838150682342462881473913110540827237163350510684586298239947245938479716304835356329624224137216 : ℚ) ≤ v
    then (if q < 0 then negInf else posInf)
    else fin (if q < 0 then -v else v)

/-- Unary minus. -/
def neg : JSNum → JSNum
  | nan => nan
  | posInf => negInf
  | negInf => posInf
  | fin q => fin (-q)

/-- Number addition `a + b`. -/
def add : JSNum → JSNum → JSNum
  | nan, _ => nan
  | _, nan => nan
  | posInf, negInf => nan
  | negInf, posInf => nan
  | posInf, _ => posInf
  | _, posInf => posInf
  | negInf, _ => negInf
  | _, negInf => negInf
  | fin a, fin b => round64 (a + b)

/-- Number subtraction `a - b`. -/
def sub (a b : JSNum) : JSNum := add a (neg b)

/-- Sign bit of a Number that is not `NaN` (zero counts as positive). -/
def isNeg : JSNum → Bool
  | negInf => true
  | fin q => decide (q < 0)
  | _ => false

/-- Number multiplication `a * b`. -/
def mul : JSNum → JSNum → JSNum
  | nan, _ => nan
  | _, nan => nan
  | fin a, fin b => round64 (a * b)
  | a, b =>
    if a = fin 0 ∨ b = fin 0 then nan
    else if a.isNeg != b.isNeg then negInf else posInf

/-- Number division `a / b` (a zero divisor is the positive zero). -/
def div : JSNum → JSNum → JSNum
  | nan, _ => nan
  | _, nan => nan
  | fin a, fin b =>
    if b = 0 then (if a = 0 then nan else if a < 0 then negInf else posInf)
    else round64 (a / b)
  | fin _, _ => fin 0
  | a, fin b => if a.isNeg != decide (b < 0) then negInf else posInf
  | _, _ => nan

/-- Comparison `a > b` of two Numbers. -/
def gt : JSNum → JSNum → Bool
  | nan, _ => false
  | _, nan => false
  | fin a, fin b => decide (b < a)
  | posInf, posInf => false
  | posInf, _ => true
  | _, posInf => false
  | negInf, _ => false
  | _, negInf => true

/-- The function `Math.abs`. -/
def abs : JSNum → JSNum
  | nan => nan
  | posInf => posInf
  | negInf => posInf
  | fin q => fin |q|

/-- ToBoolean on a Number: `NaN` and zero are falsy. -/
def truthy : JSNum → Bool
  | nan => false
  | fin q => decide (q ≠ 0)
  | _ => true

/-- Number::toString: an integer of magnitude up to `2^53` prints its digits (they are the
shortest that denote it); the text of any other finite value is the host's. -/
def toStr (env : Env) : JSNum → String
  | nan => "NaN"
  | posInf => "Infinity"
  | negInf => "-Infinity"
  | fin q =>
    if q.den = 1 ∧ q.num.natAbs ≤ 2 ^ 53 then toString q.num else env.numberToString q

/-- Pad `s` on the left with zeros up to length `n`. -/
def padZeros (n : Nat) (s : String) : String :=
  String.mk (List.replicate (n - s.length) '0') ++ s

/-- Number.prototype.toFixed with `f` fraction digits (steps of ECMA-262, 21.1.3.3): a value
that is not finite prints as by ToString; the sign is split off; a magnitude of `10^21` or more
prints as by ToString; otherwise `n` is the integer nearest to `x * 10^f` (the larger one on a
tie), printed with a point before its last `f` digits. -/
def toFixed (env : Env) (f : Nat) : JSNum → String
  | fin q =>
    let s := if q < 0 then "-" else ""
    let x := |q|
    if 10 ^ 21 ≤ x then s ++ toStr env (fin x)
    else
      let n := (2 * x.num.natAbs * 10 ^ f + x.den) / (2 * x.den)
      let m := toString n
      if f = 0 then s ++ m
      else
        let m := padZeros (f + 1) m
        s ++ String.mk (m.data.take (m.length - f)) ++ "." ++ String.mk (m.data.drop (m.length - f))
  | x => toStr env x

end JSNum

/-- The rational is a binary64 value: rounding leaves it as it is. -/
def IsBinary64 (q : ℚ) : Prop := JSNum.round64 q = .fin q

instance (q : ℚ) : Decidable (IsBinary64 q) := by
  unfold IsBinary64
  infer_instance

/-! ### Strings to numbers -/

/-- StrWhiteSpaceChar: the white space and line terminators that numeric parsing skips. -/
def isStrWhiteSpaceChar (c : Char) : Bool :=
  let n := c.toNat
  n == 0x09 || n == 0x0A || n == 0x0B || n == 0x0C || n == 0x0D || n == 0x20 || n == 0xA0 ||
    n == 0x1680 || (0x2000 ≤ n && n ≤ 0x200A) || n == 0x2028 || n == 0x2029 || n == 0x202F ||
    n == 0x205F || n == 0x3000 || n == 0xFEFF

/-- Value of a digit in a radix up to 16, when the character is such a digit. -/
def digitValue? (radix : Nat) (c : Char) : Option Nat :=
  let v :=
    if '0' ≤ c ∧ c ≤ '9' then c.toNat - '0'.toNat
    else if 'a' ≤ c ∧ c ≤ 'f' then c.toNat - 'a'.toNat + 10
    else if 'A' ≤ c ∧ c ≤ 'F' then c.toNat - 'A'.toNat + 10
    else 16
  if v < radix then some v else none

/-- The character is a digit of the radix. -/
def isRadixDigit (radix : Nat) (c : Char) : Bool := (digitValue? radix c).isSome

/-- The number a run of digits denotes in the radix. -/
def digitsToNat (radix : Nat) (ds : List Char) : Nat :=
  ds.foldl (fun n c => radix * n + (digitValue? radix c).getD 0) 0

/-- ExponentPart at the front of the text: `e` or `E`, an optional sign, at least one digit. -/
def parseExponent : List Char → Option (Int × List Char)
  | c :: rest =>
    if c = 'e' ∨ c = 'E' then
      let (sign, r) : Int × List Char :=
        match rest with
        | '+' :: r => (1, r)
        | '-' :: r => (-1, r)
        | _ => (1, rest)
      let ds := r.takeWhile (isRadixDigit 10)
      if ds = [] then none else some (sign * digitsToNat 10 ds, r.dropWhile (isRadixDigit 10))
    else none
  | [] => none

/-- The longest front part of the text that is a StrUnsignedDecimalLiteral (`Infinity`,
`d+.d*`, `.d+`, `d+`, the last three with an optional exponent), with the rest. -/
def parseUnsignedDecimal (cs : List Char) : Option (JSNum × List Char) :=
  if "Infinity".data.isPrefixOf cs then some (.posInf, cs.drop 8)
  else
    let ip := cs.takeWhile (isRadixDigit 10)
    let r₁ := cs.dropWhile (isRadixDigit 10)
    let frac : Option (List Char × List Char) :=
      match r₁ with
      | '.' :: r =>
        let fp := r.takeWhile (isRadixDigit 10)
        if ip = [] ∧ fp = [] then none else some (fp, r.dropWhile (isRadixDigit 10))
      | _ => if ip = [] then none else some ([], r₁)
    match frac with
    | none => none
    | some (fp, r₂) =>
      let mant : ℚ := (digitsToNat 10 ip : ℚ) + (digitsToNat 10 fp : ℚ) / 10 ^ fp.length
      match parseExponent r₂ with
      | some (e, r₃) => some (.round64 (mant * 10 ^ e), r₃)
      | none => some (.round64 mant, r₂)

/-- The longest front part of the text that is a StrDecimalLiteral (optional sign). -/
def parseDecimal : List Char → Option (JSNum × List Char)
  | '+' :: r => parseUnsignedDecimal r
  | '-' :: r => (parseUnsignedDecimal r).map (fun p => (p.1.neg, p.2))
  | cs => parseUnsignedDecimal cs

/-- The global `parseFloat` on a string. -/
def parseFloatString (s : String) : JSNum :=
  match parseDecimal (s.data.dropWhile isStrWhiteSpaceChar) with
  | some (n, _) => n
  | none => .nan

/-- The global `parseInt` on a string, without a radix argument. -/
def parseIntString (s : String) : JSNum :=
  let t := s.data.dropWhile isStrWhiteSpaceChar
  let (sign, t) : Int × List Char :=
    match t with
    | '-' :: r => (-1, r)
    | '+' :: r => (1, r)
    | _ => (1, t)
  let (radix, t) : Nat × List Char :=
    match t with
    | '0' :: 'x' :: r => (16, r)
    | '0' :: 'X' :: r => (16, r)
    | _ => (10, t)
  let ds := t.takeWhile (isRadixDigit radix)
  if ds = [] then .nan else .round64 (sign * (digitsToNat radix ds : ℚ))

/-- All of the text is digits of the radix, and there is at least one. -/
def parseRadixLiteral (radix : Nat) (ds : List Char) : JSNum :=
  if ds ≠ [] ∧ ds.all (isRadixDigit radix) then .round64 (digitsToNat radix ds) else .nan

/-- StringToNumber, the conversion behind `Number(s)` and `isNaN(s)`. -/
def stringToNumber (s : String) : JSNum :=
  let t := ((s.data.dropWhile isStrWhiteSpaceChar).reverse.dropWhile isStrWhiteSpaceChar).reverse
  match t with
  | [] => .fin 0
  | '0' :: 'x' :: r => parseRadixLiteral 16 r
  | '0' :: 'X' :: r => parseRadixLiteral 16 r
  | '0' :: 'o' :: r => parseRadixLiteral 8 r
  | '0' :: 'O' :: r => parseRadixLiteral 8 r
  | '0' :: 'b' :: r => parseRadixLiteral 2 r
  | '0' :: 'B' :: r => parseRadixLiteral 2 r
  | _ =>
    match parseDecimal t with
    | some (n, []) => n
    | _ => .nan

namespace JSVal

/-- ToBoolean. -/
def truthy : JSVal → Bool
  | undefined => false
  | null => false
  | bool b => b
  | num n => n.truthy
  | str s => s != ""

/-- ToNumber. -/
def toNumber : JSVal → JSNum
  | undefined => .nan
  | null => .fin 0
  | bool b => .fin (if b then 1 else 0)
  | num n => n
  | str s => stringToNumber s

/-- ToString, as a template literal or a string concatenation applies it. -/
def toStr (env : Env) : JSVal → String
  | undefined => "undefined"
  | null => "null"
  | bool b => if b then "true" else "false"
  | num n => n.toStr env
  | str s => s

/-- The operator `a || b`. -/
def or (a b : JSVal) : JSVal := if a.truthy then a else b

/-- The operator `a + b` on primitives: concatenation when either side is a string, Number
addition otherwise. -/
def add (env : Env) (a b : JSVal) : JSVal :=
  match a, b with
  | str s, _ => str (s ++ b.toStr env)
  | _, str t => str (a.toStr env ++ t)
  | _, _ => num (a.toNumber.add b.toNumber)

/-- The operator `a - b`. -/
def sub (a b : JSVal) : JSNum := a.toNumber.sub b.toNumber

/-- The operator `a / b`. -/
def div (a b : JSVal) : JSNum := a.toNumber.div b.toNumber

/-- The operator `a === b` on primitives (`NaN` differs from itself). -/
def strictEquals (a b : JSVal) : Bool :=
  match a, b with
  | num .nan, _ => false
  | _, _ => a == b

/-- The global `isNaN`. -/
def isNaN (v : JSVal) : Bool := v.toNumber == .nan

/-- The global `parseFloat`: ToString, then the longest decimal literal at the front. -/
def parseFloat (env : Env) (v : JSVal) : JSNum := parseFloatString (v.toStr env)

/-- The global `parseInt` without radix: ToString, then the longest integer at the front. -/
def parseInt (env : Env) (v : JSVal) : JSNum := parseIntString (v.toStr env)

/-- The method call `v.toFixed(f)`: only a Number has the method. -/
def toFixed (env : Env) (f : Nat) : JSVal → Except JSError String
  | num n => .ok (n.toFixed env f)
  | _ => .error .typeError

end JSVal

/-! ## Schema and query planning (`generateSQL`) -/

/-- One column of a table as `analyzeDatabaseSchema` reports it. -/
structure Column where
  column_name : String
  data_type : String
  sampleValues : List JSVal

/-- The schema object: table name to columns, listed in the order `Object.keys` yields. -/
abbrev Schema := List (String × List Column)

/-- The function `Object.keys`. -/
def objectKeys (schema : Schema) : List String := schema.map Prod.fst

/-- Lower-case form of one character under `String.prototype.toLowerCase`, as far as an ASCII
keyword can see it: ASCII capitals, plus the two characters outside ASCII whose lower-case
form contains an ASCII letter (U+0130 gives `i` and U+0307, the Kelvin sign U+212A gives `k`).
Every other character outside ASCII has a lower-case form outside ASCII and is kept. -/
def lowerChars (c : Char) : List Char :=
  if c = Char.ofNat 0x130 then ['i', Char.ofNat 0x307]
  else if c = Char.ofNat 0x212A then ['k']
  else [c.toLower]

/-- The method `s.toLowerCase()`. -/
def toLowerCase (s : String) : String := String.mk (s.data.map lowerChars).flatten

/-- The method `s.includes(sub)`. -/
def includes (s sub : String) : Bool := s.data.tails.any (fun t => sub.data.isPrefixOf t)

/-- The lookup `Object.keys(schema).find(t => t.toLowerCase().includes(keyword))`. -/
def findTable (schema : Schema) (keyword : String) : Option String :=
  (objectKeys schema).find? (fun t => includes (toLowerCase t) keyword)

/-- Interpolation `${table}` of a lookup result into a template literal: `undefined` prints
as the word "undefined". -/
def tableRef : Option String → String
  | some t => t
  | none => "undefined"

deriving instance DecidableEq for Except

/-- The result of `generateSQL`. -/
structure QueryPlan where
  sql : String
  visualization : String
  deriving DecidableEq, Repr

/-- The source's `generateSQL(questionType, schema)`. The function has no `throw` and calls
nothing that throws on a schema object, so every branch returns. -/
def generateSQL (questionType : String) (schema : Schema) : Except JSError QueryPlan :=
  let ordersTable := findTable schema "ordr"
  let productsTable := findTable schema "prdct"
  let customersTable := findTable schema "cust"
  let metricsTable := findTable schema "metric"
  match questionType with
  | "category_comparison" =>
    .ok
      { sql :=
          "SELECT \n" ++
          "                p.p_category AS category,\n" ++
          "                COUNT(DISTINCT o.order_id) AS order_count,\n" ++
          "                SUM(o.amount)::float AS total_sales,\n" ++
          "                AVG(o.amount)::float AS avg_order_value\n" ++
          "              FROM " ++
          tableRef ordersTable ++
          " o\n" ++
          "              JOIN " ++
          tableRef productsTable ++
          " p ON p.p_id = ANY(o.product_ids)\n" ++
          "              WHERE p.p_category IN ('Electronics', 'Furniture')\n" ++
          "                AND o.status = 'completed'\n" ++
          "              GROUP BY p.p_category\n" ++
          "              ORDER BY total_sales DESC"
        visualization := "bar" }
  | "revenue_trend" =>
    .ok
      { sql :=
          "SELECT \n" ++
          "                metric_date AS date,\n" ++
          "                metric_value AS revenue\n" ++
          "              FROM " ++
          tableRef metricsTable ++
          "\n" ++
          "              WHERE metric_type = 'revenue'\n" ++
          "                AND metric_value IS NOT NULL\n" ++
          "                AND metric_date IS NOT NULL\n" ++
          "              ORDER BY metric_date"
        visualization := "line" }
  | "customer_spending" =>
    .ok
      { sql :=
          "SELECT \n" ++
          "                c.col1 AS customer_name,\n" ++
          "                SUM(o.amount)::float AS total_spent,\n" ++
          "                COUNT(o.order_id) AS order_count\n" ++
          "              FROM " ++
          tableRef customersTable ++
          " c\n" ++
          "              JOIN " ++
          tableRef ordersTable ++
          " o ON c.id = o.cust_id\n" ++
          "              WHERE o.status = 'completed'\n" ++
          "              GROUP BY c.col1\n" ++
          "              ORDER BY total_spent DESC\n" ++
          "              LIMIT 10"
        visualization := "bar" }
  | "product_popularity" =>
    .ok
      { sql :=
          "SELECT \n" ++
          "                p.p_name AS product,\n" ++
          "                p.p_category AS category,\n" ++
          "                COUNT(o.order_id) AS times_ordered,\n" ++
          "                SUM(o.amount)::float AS revenue_generated\n" ++
          "              FROM " ++
          tableRef productsTable ++
          " p\n" ++
          "              JOIN " ++
          tableRef ordersTable ++
          " o ON p.p_id = ANY(o.product_ids)\n" ++
          "              WHERE o.status = 'completed'\n" ++
          "              GROUP BY p.p_name, p.p_category\n" ++
          "              ORDER BY times_ordered DESC\n" ++
          "              LIMIT 5"
        visualization := "pie" }
  | "order_status" =>
    .ok
      { sql :=
          "SELECT \n" ++
          "                status,\n" ++
          "                COUNT(order_id) AS count,\n" ++
          "                SUM(amount)::float AS total_amount\n" ++
          "              FROM " ++
          tableRef ordersTable ++
          "\n" ++
          "              GROUP BY status"
        visualization := "pie" }
  | "data_quality" =>
    .ok
      { sql :=
          "SELECT \n" ++
          "                'cust_info' AS table_name,\n" ++
          "                SUM(CASE WHEN col1 IS NULL OR col1 = '' THEN 1 ELSE 0 END) AS missing_names,\n" ++
          "                SUM(CASE WHEN col2 NOT LIKE '%@%.%' THEN 1 ELSE 0 END) AS invalid_emails,\n" ++
          "                SUM(CASE WHEN col3 ~ '^[0-9]\x7b4\x7d-[0-9]\x7b2\x7d-[0-9]\x7b2\x7d$' THEN 0 ELSE 1 END) AS invalid_dates\n" ++
          "              FROM " ++
          tableRef customersTable ++
          "\n" ++
          "              \n" ++
          "              UNION ALL\n" ++
          "              \n" ++
          "              SELECT \n" ++
          "                'ordrs' AS table_name,\n" ++
          "                SUM(CASE WHEN cust_id IS NULL THEN 1 ELSE 0 END) AS missing_customer_ids,\n" ++
          "                SUM(CASE WHEN amount <= 0 THEN 1 ELSE 0 END) AS invalid_amounts,\n" ++
          "                SUM(CASE WHEN status NOT IN ('completed', 'pending', 'cancelled') THEN 1 ELSE 0 END) AS invalid_statuses\n" ++
          "              FROM " ++
          tableRef ordersTable
        visualization := "table" }
  | "customer_growth" =>
    .ok
      { sql :=
          "SELECT \n" ++
          "                metric_date AS date,\n" ++
          "                metric_value AS new_customers\n" ++
          "              FROM " ++
          tableRef metricsTable ++
          "\n" ++
          "              WHERE metric_type = 'new_customers'\n" ++
          "                AND metric_date IS NOT NULL\n" ++
          "              ORDER BY metric_date"
        visualization := "line" }
  | _ =>
    .ok
      { sql :=
          "SELECT * FROM " ++
          tableRef customersTable ++
          " LIMIT 10"
        visualization := "table" }

/-- The semantic table roles. -/
inductive Role where
  | orders
  | products
  | customers
  | metrics
  deriving DecidableEq, Repr

/-- The keyword a role is looked up by. -/
def Role.keyword : Role → String
  | .orders => "ordr"
  | .products => "prdct"
  | .customers => "cust"
  | .metrics => "metric"

/-- The roles whose table identifier the template of an intent interpolates. -/
def requiredRoles (questionType : String) : List Role :=
  match questionType with
  | "category_comparison" => [.orders, .products]
  | "revenue_trend" => [.metrics]
  | "customer_spending" => [.customers, .orders]
  | "product_popularity" => [.products, .orders]
  | "order_status" => [.orders]
  | "data_quality" => [.customers, .orders]
  | "customer_growth" => [.metrics]
  | _ => [.customers]

/-- The SQL text carries the word "undefined" where a table identifier belongs. -/
def HasUndefinedTable (sql : String) : Prop :=
  ∃ pre post, sql = pre ++ "FROM undefined" ++ post ∨ sql = pre ++ "JOIN undefined" ++ post

/-- Step 2 of the `/api/query` handler: classify the question, then plan the query. -/
def planQuery (question : String) (schema : Schema) : Except JSError QueryPlan :=
  generateSQL (classifyQuestion question) schema

/-! ## Result rows and the report (`generateResponse`) -/

/-- A result row: column name and value, in property order (column names are distinct). -/
abbrev Row := List (String × JSVal)

/-- Property read `row.k`: `undefined` when the row has no such column. -/
def getProp (row : Row) (k : String) : JSVal := (row.lookup k).getD .undefined

/-- Optional chaining `row?.k` on a row that may be `undefined`. -/
def getPropOpt (row : Option Row) (k : String) : JSVal :=
  match row with
  | some r => getProp r k
  | none => .undefined

/-- Optional chaining `row?.k.toFixed(f)`: `undefined` without a row, the method call on
`row.k` otherwise. -/
def toFixedOpt (env : Env) (row : Option Row) (k : String) (f : Nat) : Except JSError JSVal :=
  match row with
  | some r => (getProp r k).toFixed env f |>.map JSVal.str
  | none => .ok .undefined

/-- The payload `visualizationData`: `null`, a chart with its points, or a table. The constant
`options` object of a chart (axis titles, tooltip callbacks) carries no data of the request
and is left out. -/
inductive Visualization where
  | null
  | chart (type : String) (data : List Row)
  | table (columns : List String) (data : List (List JSVal))
  deriving DecidableEq

/-- The result of `generateResponse`. -/
structure Response where
  response : String
  visualizationData : Visualization
  deriving DecidableEq

/-- The method `lines.join('\n')`. -/
def joinLines (lines : List String) : String := "\n".intercalate lines

/-! ### Monthly buckets

The accumulator of the two `reduce` calls that bucket rows by month is a plain object from
month label to Number. Its own properties are enumerated as ECMAScript orders them: keys
that are array indices first, ascending, then all other keys in order of creation. Labels
are taken not to name a member of `Object.prototype`. -/

/-- A point `{ x, y }` of a monthly series. -/
structure Point where
  x : String
  y : JSNum
  deriving DecidableEq

/-- The key is an array index: a canonical decimal numeral below `2^32 - 1`. -/
def arrayIndex? (k : String) : Option Nat :=
  if k.data ≠ [] ∧ k.data.all (isRadixDigit 10) ∧ (k.data.head? ≠ some '0' ∨ k.data.length = 1) ∧
      digitsToNat 10 k.data < 2 ^ 32 - 1 then
    some (digitsToNat 10 k.data)
  else none

/-- Create the array-index property `k` (of index `i`) at its place among the index keys. -/
def insertIndexKey (i : Nat) (k : String) (v : JSNum) :
    List (String × JSNum) → List (String × JSNum)
  | [] => [(k, v)]
  | e :: rest =>
    match arrayIndex? e.1 with
    | some j => if j < i then e :: insertIndexKey i k v rest else (k, v) :: e :: rest
    | none => (k, v) :: e :: rest

/-- The assignment `acc[k] = v`, keeping the entries in enumeration order. -/
def setProp (acc : List (String × JSNum)) (k : String) (v : JSNum) : List (String × JSNum) :=
  if acc.any (fun e => e.1 == k) then acc.map (fun e => if e.1 == k then (k, v) else e)
  else
    match arrayIndex? k with
    | some i => insertIndexKey i k v acc
    | none => acc ++ [(k, v)]

/-- The expression `(acc[month] || 0)`. -/
def bucketOrZero (acc : List (String × JSNum)) (month : String) : JSNum :=
  match acc.lookup month with
  | some n => if n.truthy then n else .fin 0
  | none => .fin 0

/-- The series `Object.entries(acc).map(([month, value]) => ({ x: month, y: value }))`. -/
def entriesToPoints (acc : List (String × JSNum)) : List Point :=
  acc.map (fun e => { x := e.1, y := e.2 })

/-- A point `{ x, y }` as an object of the payload. -/
def Point.toRow (p : Point) : Row := [("x", .str p.x), ("y", .num p.y)]

/-- The reducer `(max, item) => item.y > max.y ? item : max`, started at the first point. -/
def peakPoint (first : Point) (points : List Point) : Point :=
  points.foldl (fun max item => if item.y.gt max.y then item else max) first

/-- The reducer `(sum, item) => sum + item.y`, started at `0`. -/
def sumPoints (points : List Point) : JSNum :=
  points.foldl (fun sum item => sum.add item.y) (.fin 0)

/-! ### Revenue trend -/

/-- The filter `data.filter(item => item.revenue && !isNaN(item.revenue))`. -/
def validRevenueData (data : List Row) : List Row :=
  data.filter (fun item => (getProp item "revenue").truthy && !(getProp item "revenue").isNaN)

/-- The object `revenueByMonth`. -/
def revenueByMonth (env : Env) (validRevenueData : List Row) : List (String × JSNum) :=
  validRevenueData.foldl
    (fun acc item =>
      let month := env.monthLabel (getProp item "date")
      setProp acc month ((bucketOrZero acc month).add ((getProp item "revenue").parseFloat env)))
    []

/-- The series `monthlyTrend` of the revenue-trend report. -/
def monthlyTrend (env : Env) (data : List Row) : List Point :=
  entriesToPoints (revenueByMonth env (validRevenueData data))

/-- The text after "Growth Trend: ". -/
def growthTrend (first : Point) (monthlyTrend : List Point) : String :=
  if monthlyTrend.length > 1 then
    (if ((monthlyTrend.getLast?).getD first).y.gt first.y then "Upward" else "Downward")
  else "Not enough data"

/-- The revenue-trend report computed from the series `monthlyTrend`. An empty series would
make `monthlyTrend[0]` undefined and the read of its `x` throw. -/
def revenueTrendReport (env : Env) (monthlyTrend : List Point) : Except JSError Response :=
  match monthlyTrend with
  | [] => .error .typeError
  | first :: _ =>
    let totalRevenueAmount := sumPoints monthlyTrend
    let avgMonthlyRevenue := totalRevenueAmount.div (.fin monthlyTrend.length)
    let peakRevenueMonth := peakPoint first monthlyTrend
    .ok
      { response :=
          "Revenue Trend Analysis:\n" ++
          "• Total Revenue: $" ++ totalRevenueAmount.toFixed env 2 ++ "\n" ++
          "• Average Monthly Revenue: $" ++ avgMonthlyRevenue.toFixed env 2 ++ "\n" ++
          "• Peak Month: " ++ peakRevenueMonth.x ++ " ($" ++ peakRevenueMonth.y.toFixed env 2 ++
            ")\n" ++
          "• Growth Trend: " ++ growthTrend first monthlyTrend
        visualizationData := .chart "line" (monthlyTrend.map Point.toRow) }

/-! ### Customer growth -/

/-- The object `monthlyGrowth`. -/
def monthlyGrowth (env : Env) (data : List Row) : List (String × JSNum) :=
  data.foldl
    (fun acc item =>
      let month := env.monthLabel (getProp item "date")
      setProp acc month ((bucketOrZero acc month).add ((getProp item "new_customers").parseInt env)))
    []

/-- The series `growthData` of the customer-growth report. -/
def growthData (env : Env) (data : List Row) : List Point :=
  entriesToPoints (monthlyGrowth env data)

/-- The value `growthRate` as the template prints it: the `toFixed(1)` text of
`(last - first) / first * 100` with more than one bucket, the Number `0` otherwise. -/
def growthRate (env : Env) (first : Point) (growthData : List Point) : String :=
  if growthData.length > 1 then
    (((((growthData.getLast?).getD first).y.sub first.y).div first.y).mul (.fin 100)).toFixed env 1
  else (JSNum.fin 0).toStr env

/-- The customer-growth report computed from the series `growthData`. -/
def customerGrowthReport (env : Env) (growthData : List Point) : Except JSError Response :=
  match growthData with
  | [] => .error .typeError
  | first :: _ =>
    let totalNewCustomers := sumPoints growthData
    let peakGrowthMonth := peakPoint first growthData
    .ok
      { response :=
          "Customer Growth Analysis:\n" ++
          "• Total New Customers: " ++ totalNewCustomers.toStr env ++ "\n" ++
          "• Peak Acquisition Month: " ++ peakGrowthMonth.x ++ " (" ++
            peakGrowthMonth.y.toStr env ++ " customers)\n" ++
          "• Growth Rate: " ++ growthRate env first growthData ++ "% over period\n" ++
          "Monthly Breakdown:\n" ++
          joinLines (growthData.map (fun m => "• " ++ m.x ++ ": " ++ m.y.toStr env ++ " customers"))
        visualizationData := .chart "line" (growthData.map Point.toRow) }

/-! ### Category comparison -/

/-- The text `comparisonText`: empty unless both category rows were found. -/
def comparisonText (env : Env) (electronics furniture : Option Row) : String :=
  match electronics, furniture with
  | some e, some f =>
    let difference := (getProp e "total_sales").sub (getProp f "total_sales")
    let percentageDiff :=
      ((difference.abs.div (getProp f "total_sales").toNumber).mul (.fin 100)).toFixed env 1
    "Electronics sales are $" ++ (if difference.gt (.fin 0) then "higher" else "lower") ++
      " by $" ++ difference.abs.toFixed env 2 ++ " (" ++ percentageDiff ++
      "%) compared to Furniture."
  | _, _ => ""

/-- One bullet line of the category comparison, for the row found for `name`, if any. -/
def categoryLine (env : Env) (name : String) (row : Option Row) : Except JSError String := do
  let total ← toFixedOpt env row "total_sales" 2
  let avg ← toFixedOpt env row "avg_order_value" 2
  pure ("• " ++ name ++ ": $" ++ (total.or (.str "0.00")).toStr env ++ " from " ++
    ((getPropOpt row "order_count").or (.num (.fin 0))).toStr env ++ " orders (avg $" ++
    (avg.or (.str "0.00")).toStr env ++ ")\n")

/-! ### The report -/

/-- The reducer `data.reduce((sum, item) => sum + item[field], 0)`. -/
def sumField (env : Env) (field : String) (data : List Row) : JSVal :=
  data.foldl (fun (sum : JSVal) item => sum.add env (getProp item field)) (.num (.fin 0))

/-- The sum of Numbers as a `reduce` from `0` adds them: left to right, each addition rounded
to binary64. -/
def numberSum (xs : List JSNum) : JSNum := xs.foldl JSNum.add (.fin 0)

/-- The source's `generateResponse(questionType, data)`, for an array `data` of rows. -/
def generateResponse (env : Env) (questionType : String) (data : List Row) :
    Except JSError Response :=
  match questionType with
  | "category_comparison" =>
    if data.length = 0 then
      .ok
        { response := "No sales data found for the specified categories."
          visualizationData := .null }
    else do
      let electronics :=
        data.find? (fun d => (getProp d "category").strictEquals (.str "Electronics"))
      let furniture :=
        data.find? (fun d => (getProp d "category").strictEquals (.str "Furniture"))
      let electronicsLine ← categoryLine env "Electronics" electronics
      let furnitureLine ← categoryLine env "Furniture" furniture
      pure
        { response :=
            "Category comparison analysis:\n" ++ electronicsLine ++ furnitureLine ++
              comparisonText env electronics furniture
          visualizationData :=
            .chart "bar"
              (data.map (fun item =>
                [ ("x", getProp item "category"), ("y", getProp item "total_sales"),
                  ("orderCount", getProp item "order_count"),
                  ("avgValue", getProp item "avg_order_value") ])) }
  | "revenue_trend" =>
    if (validRevenueData data).length = 0 then
      .ok
        { response := "No valid revenue data available for analysis."
          visualizationData := .null }
    else revenueTrendReport env (monthlyTrend env data)
  | "customer_spending" =>
    if data.length = 0 then
      .ok { response := "No customer spending data available.", visualizationData := .null }
    else do
      let topSpenders := data.take 5
      let totalCustomerSpending := sumField env "total_spent" data
      let avgSpend := totalCustomerSpending.toNumber.div (.fin data.length)
      let total ← totalCustomerSpending.toFixed env 2
      let lines ← topSpenders.mapM (fun c => do
        let spent ← (getProp c "total_spent").toFixed env 2
        pure ("• " ++ (getProp c "customer_name").toStr env ++ ": $" ++ spent ++ " (" ++
          (getProp c "order_count").toStr env ++ " orders)"))
      pure
        { response :=
            "Customer Spending Analysis:\n" ++
            "• Total across all customers: $" ++ total ++ "\n" ++
            "• Average customer spend: $" ++ avgSpend.toFixed env 2 ++ "\n" ++
            "Top 5 Customers:\n" ++
            joinLines lines
          visualizationData :=
            .chart "bar"
              (topSpenders.map (fun item =>
                [ ("x", getProp item "customer_name"), ("y", getProp item "total_spent"),
                  ("orders", getProp item "order_count") ])) }
  | "product_popularity" =>
    if data.length = 0 then
      .ok { response := "No product popularity data available.", visualizationData := .null }
    else do
      let topProducts := data.take 5
      let totalProductsRevenue := sumField env "revenue_generated" data
      let marketShare := topProducts.map (fun p =>
        ( (getProp p "product").toStr env ++ " (" ++ (getProp p "category").toStr env ++ ")",
          (((getProp p "revenue_generated").div totalProductsRevenue).mul (.fin 100)).toFixed
            env 1 ))
      let total ← totalProductsRevenue.toFixed env 2
      pure
        { response :=
            "Product Popularity Analysis:\n" ++
            "• Total Revenue: $" ++ total ++ "\n" ++
            "Top Products by Market Share:\n" ++
            joinLines (marketShare.map (fun p => "• " ++ p.1 ++ ": " ++ p.2 ++ "%"))
          visualizationData :=
            .chart "pie"
              (topProducts.map (fun item =>
                [ ("x", .str ((getProp item "product").toStr env ++ " (" ++
                    (getProp item "category").toStr env ++ ")")),
                  ("y", getProp item "times_ordered"),
                  ("revenue", getProp item "revenue_generated") ])) }
  | "order_status" =>
    if data.length = 0 then
      .ok { response := "No order status data available.", visualizationData := .null }
    else do
      let totalOrders := sumField env "count" data
      let percentage := fun (item : Row) =>
        (((getProp item "count").div totalOrders).mul (.fin 100)).toFixed env 1
      let lines ← data.mapM (fun s => do
        let amount ← (getProp s "total_amount").toFixed env 2
        pure ("• " ++ (getProp s "status").toStr env ++ ": " ++ (getProp s "count").toStr env ++
          " (" ++ percentage s ++ "%) - $" ++ amount))
      pure
        { response :=
            "Order Status Analysis:\n" ++
            "• Total Orders: " ++ totalOrders.toStr env ++ "\n" ++
            joinLines lines
          visualizationData :=
            .chart "pie"
              (data.map (fun item =>
                [ ("x", .str ((getProp item "status").toStr env ++ " (" ++ percentage item ++
                    "%)")),
                  ("y", getProp item "count"),
                  ("amount", getProp item "total_amount") ])) }
  | "data_quality" =>
    match data with
    | [] => .ok { response := "No data quality metrics available.", visualizationData := .null }
    | first :: _ =>
      let second := data.get? 1
      let totalIssues : JSVal :=
        data.foldl
          (fun (sum : JSVal) item =>
            (((((sum.add env (getProp item "missing_names")).add env
              (getProp item "invalid_emails")).add env
              (getProp item "invalid_dates")).add env
              ((getProp item "missing_customer_ids").or (.num (.fin 0)))).add env
              ((getProp item "invalid_amounts").or (.num (.fin 0)))).add env
              ((getProp item "invalid_statuses").or (.num (.fin 0))))
          (.num (.fin 0))
      .ok
        { response :=
            "Data Quality Report:\n" ++
            "• Total Issues Found: " ++ totalIssues.toStr env ++ "\n" ++
            joinLines (data.map (fun t =>
              "• " ++ (getProp t "table_name").toStr env ++ ":\n" ++
              "  - Missing Names: " ++ (getProp t "missing_names").toStr env ++ "\n" ++
              "  - Invalid Emails: " ++ (getProp t "invalid_emails").toStr env ++ "\n" ++
              "  - Invalid Dates: " ++ (getProp t "invalid_dates").toStr env ++
              (if (getProp t "missing_customer_ids").truthy then
                "\n  - Missing Customer IDs: " ++ (getProp t "missing_customer_ids").toStr env
              else "") ++
              (if (getProp t "invalid_amounts").truthy then
                "\n  - Invalid Amounts: " ++ (getProp t "invalid_amounts").toStr env
              else "") ++
              (if (getProp t "invalid_statuses").truthy then
                "\n  - Invalid Statuses: " ++ (getProp t "invalid_statuses").toStr env
              else "")))
          visualizationData :=
            .table ["Metric", "Customers", "Orders"]
              [ [ .str "Missing Data", getProp first "missing_names",
                  (getPropOpt second "missing_customer_ids").or (.str "N/A") ],
                [ .str "Invalid Data",
                  (getProp first "invalid_emails").add env (getProp first "invalid_dates"),
                  ((getPropOpt second "invalid_amounts").or (.num (.fin 0))).add env
                    ((getPropOpt second "invalid_statuses").or (.num (.fin 0))) ] ] }
  | "customer_growth" =>
    if data.length = 0 then
      .ok { response := "No customer growth data available.", visualizationData := .null }
    else customerGrowthReport env (growthData env data)
  | _ =>
    .ok
      { response :=
          "Here are the first " ++ (JSNum.fin data.length).toStr env ++
            " records from the database."
        visualizationData :=
          .table
            (match data with
              | first :: _ => first.map Prod.fst
              | [] => [])
            (data.map (fun item => item.map Prod.snd)) }

/-! ### Buckets by month (a device of the proofs) -/

/-- The step `acc[k] = (acc[k] || 0) + v` on an accumulator that holds no `NaN` and whose keys
are not array indices: the bucket of `k` grows by `v`, a new bucket goes to the end. -/
def addToBucket (bs : List (String × JSNum)) (k : String) (v : JSNum) : List (String × JSNum) :=
  if k ∈ bs.map Prod.fst then
    bs.map (fun b => if b.1 = k then (k, ((bs.lookup k).getD (.fin 0)).add v) else b)
  else bs ++ [(k, (JSNum.fin 0).add v)]

/-- The step on the list of keys: a new key goes to the end. -/
def addKey (ks : List String) (k : String) : List String := if k ∈ ks then ks else ks ++ [k]

/-! ### An example environment -/

/-- English month abbreviations. -/
def monthNames : List String :=
  ["Jan", "Feb", "Mar", "Apr", "May", "Jun", "Jul", "Aug", "Sep", "Oct", "Nov", "Dec"]

/-- An example environment: an `en-US` process that receives its dates as ISO text
`YYYY-MM-DD`, so that `2024-01-15` is labelled `Jan 2024`; anything else is an invalid date.
Fractional Numbers print in plain decimal notation, cut after twenty fraction digits. -/
def exampleEnv : Env where
  monthLabel := fun v =>
    match v with
    | .str s =>
      let year := s.data.take 4
      let month := (s.data.drop 5).take 2
      if s.data.length = 10 ∧ year.all (isRadixDigit 10) ∧ month.all (isRadixDigit 10) ∧
          1 ≤ digitsToNat 10 month ∧ digitsToNat 10 month ≤ 12 then
        monthNames.getD (digitsToNat 10 month - 1) "" ++ " " ++ String.mk year
      else "Invalid Date"
    | _ => "Invalid Date"
  numberToString := fun q =>
    let scaled := q.num.natAbs * 10 ^ 20 / q.den
    let fraction :=
      ((JSNum.padZeros 20 (toString (scaled % 10 ^ 20))).data.reverse.dropWhile
        (fun c => c == '0')).reverse
    (if q < 0 then "-" else "") ++ toString (scaled / 10 ^ 20) ++
      (if fraction = [] then "" else "." ++ String.mk fraction)


/-- The calendar month (counted from year 0) that a label of the example environment, such as
`Jan 2024`, denotes. -/
def exampleMonthIndex (label : String) : Nat :=
  12 * digitsToNat 10 (label.data.drop 4) + monthNames.indexOf (String.mk (label.data.take 3))

/-- The SQL text names the table `t` right after `FROM` or `JOIN`, spelled as `t` is. -/
def ReadsTable (sql t : String) : Prop :=
  ∃ pre post, sql = pre ++ "FROM " ++ t ++ post ∨ sql = pre ++ "JOIN " ++ t ++ post

/-! ### Example result sets -/

/-- The Number a row holds in a field, `NaN` when the field holds anything else. -/
def numberField (field : String) (r : Row) : JSNum :=
  match getProp r field with
  | .num n => n
  | _ => .nan

/-- Six customers with their spending, highest first. -/
def exampleSpenders : List Row :=
  [ [("customer_name", .str "Ada"), ("total_spent", .num (.fin 600)), ("order_count", .str "6")],
    [("customer_name", .str "Bob"), ("total_spent", .num (.fin 500)), ("order_count", .str "5")],
    [("customer_name", .str "Cy"), ("total_spent", .num (.fin 400)), ("order_count", .str "4")],
    [("customer_name", .str "Di"), ("total_spent", .num (.fin 300)), ("order_count", .str "3")],
    [("customer_name", .str "Ed"), ("total_spent", .num (.fin 200)), ("order_count", .str "2")],
    [("customer_name", .str "Flo"), ("total_spent", .num (.fin (201 / 2))),
      ("order_count", .str "1")] ]

/-- Two products with the revenue their orders generated. -/
def exampleProducts : List Row :=
  [ [ ("product", .str "Laptop"), ("category", .str "Electronics"),
      ("times_ordered", .str "3"), ("revenue_generated", .num (.fin 57)) ],
    [ ("product", .str "Desk"), ("category", .str "Furniture"),
      ("times_ordered", .str "1"), ("revenue_generated", .num (.fin 23)) ] ]

/-- Two products whose shares of the revenue are not binary fractions. -/
def exampleShares : List Row :=
  [ [ ("product", .str "Lamp"), ("category", .str "Furniture"),
      ("times_ordered", .num (.fin 4)), ("revenue_generated", .num (.fin 2)) ],
    [ ("product", .str "Phone"), ("category", .str "Electronics"),
      ("times_ordered", .num (.fin 3)), ("revenue_generated", .num (.fin 9)) ] ]

/-! ### Narratives as tagged pieces

A narrative cut into plain text, dollar figures and percentage figures. A dollar figure is a
Number printed as `$` followed by its `toFixed(2)` text; a percentage figure is a Number
printed as its `toFixed(1)` text followed by `%`. -/

/-- A piece of a narrative. -/
inductive Piece where
  | text (s : String)
  | dollars (n : JSNum)
  | percent (n : JSNum)
  deriving DecidableEq

/-- The text of a piece. -/
def Piece.render (env : Env) : Piece → String
  | .text s => s
  | .dollars n => "$" ++ n.toFixed env 2
  | .percent n => n.toFixed env 1 ++ "%"

/-- The text of a list of pieces. -/
def renderPieces (env : Env) (ps : List Piece) : String :=
  ps.foldr (fun p s => p.render env ++ s) ""

/-- Lines of pieces joined by line breaks, as `join('\n')` joins lines of text. -/
def joinPieces : List (List Piece) → List Piece
  | [] => []
  | [l] => l
  | l :: ls => l ++ .text "\n" :: joinPieces ls

/-- The receiver of a `toFixed` call: a Number, or else the call throws. -/
def JSVal.asNumber : JSVal → Except JSError JSNum
  | .num n => .ok n
  | _ => .error .typeError

/-- The figure behind `row?.k.toFixed(2) || '0.00'`: the Number in the field, `0` without a
row. -/
def figureOpt (row : Option Row) (k : String) : Except JSError JSNum :=
  match row with
  | some r => (getProp r k).asNumber
  | none => .ok (.fin 0)

/-- The pieces of one bullet line of the category comparison. -/
def categoryLinePieces (env : Env) (name : String) (row : Option Row) :
    Except JSError (List Piece) := do
  let total ← figureOpt row "total_sales"
  let avg ← figureOpt row "avg_order_value"
  pure
    [ .text ("• " ++ name ++ ": "), .dollars total,
      .text (" from " ++ ((getPropOpt row "order_count").or (.num (.fin 0))).toStr env ++
        " orders (avg "),
      .dollars avg, .text ")\n" ]

/-- The pieces of the comparison sentence. -/
def comparisonPieces (electronics furniture : Option Row) : List Piece :=
  match electronics, furniture with
  | some e, some f =>
    let difference := (getProp e "total_sales").sub (getProp f "total_sales")
    [ .text ("Electronics sales are $" ++ (if difference.gt (.fin 0) then "higher" else "lower") ++
        " by "),
      .dollars difference.abs, .text " (",
      .percent ((difference.abs.div (getProp f "total_sales").toNumber).mul (.fin 100)),
      .text ") compared to Furniture." ]
  | _, _ => []

/-- The pieces of the revenue-trend narrative. -/
def revenueTrendPieces (monthlyTrend : List Point) : Except JSError (List Piece) :=
  match monthlyTrend with
  | [] => .error .typeError
  | first :: _ =>
    .ok
      [ .text ("Revenue Trend Analysis:\n" ++ "• Total Revenue: "),
        .dollars (sumPoints monthlyTrend),
        .text ("\n" ++ "• Average Monthly Revenue: "),
        .dollars ((sumPoints monthlyTrend).div (.fin monthlyTrend.length)),
        .text ("\n" ++ "• Peak Month: " ++ (peakPoint first monthlyTrend).x ++ " ("),
        .dollars (peakPoint first monthlyTrend).y,
        .text (")\n" ++ "• Growth Trend: " ++ growthTrend first monthlyTrend) ]

/-- The pieces of the customer-growth narrative. With a single bucket the growth rate is the
Number `0`, printed as plain text; with more it is a percentage figure. -/
def customerGrowthPieces (env : Env) (growthData : List Point) : Except JSError (List Piece) :=
  match growthData with
  | [] => .error .typeError
  | first :: _ =>
    .ok
      ([ .text ("Customer Growth Analysis:\n" ++ "• Total New Customers: " ++
          (sumPoints growthData).toStr env ++ "\n" ++ "• Peak Acquisition Month: " ++
          (peakPoint first growthData).x ++ " (" ++ (peakPoint first growthData).y.toStr env ++
          " customers)\n" ++ "• Growth Rate: ") ] ++
        (if growthData.length > 1 then
          [ Piece.percent
              (((((growthData.getLast?).getD first).y.sub first.y).div first.y).mul (.fin 100)) ]
        else [ .text "0%" ]) ++
        [ .text (" over period\n" ++ "Monthly Breakdown:\n" ++
          joinLines (growthData.map (fun m =>
            "• " ++ m.x ++ ": " ++ m.y.toStr env ++ " customers"))) ])

/-- The pieces of one line of the customer-spending list. -/
def spenderLinePieces (env : Env) (c : Row) : Except JSError (List Piece) := do
  let spent ← (getProp c "total_spent").asNumber
  pure
    [ .text ("• " ++ (getProp c "customer_name").toStr env ++ ": "), .dollars spent,
      .text (" (" ++ (getProp c "order_count").toStr env ++ " orders)") ]

/-- The pieces of one line of the order-status list, given the total `totalOrders`. -/
def statusLinePieces (env : Env) (totalOrders : JSVal) (s : Row) :
    Except JSError (List Piece) := do
  let amount ← (getProp s "total_amount").asNumber
  pure
    [ .text ("• " ++ (getProp s "status").toStr env ++ ": " ++ (getProp s "count").toStr env ++
        " ("),
      .percent (((getProp s "count").div totalOrders).mul (.fin 100)),
      .text ") - ", .dollars amount ]

/-- The narrative of `generateResponse` as tagged pieces. -/
def narrativePieces (env : Env) (questionType : String) (data : List Row) :
    Except JSError (List Piece) :=
  match questionType with
  | "category_comparison" =>
    if data.length = 0 then .ok [.text "No sales data found for the specified categories."]
    else do
      let electronics :=
        data.find? (fun d => (getProp d "category").strictEquals (.str "Electronics"))
      let furniture :=
        data.find? (fun d => (getProp d "category").strictEquals (.str "Furniture"))
      let electronicsLine ← categoryLinePieces env "Electronics" electronics
      let furnitureLine ← categoryLinePieces env "Furniture" furniture
      pure (.text "Category comparison analysis:\n" :: electronicsLine ++ furnitureLine ++
        comparisonPieces electronics furniture)
  | "revenue_trend" =>
    if (validRevenueData data).length = 0 then
      .ok [.text "No valid revenue data available for analysis."]
    else revenueTrendPieces (monthlyTrend env data)
  | "customer_spending" =>
    if data.length = 0 then .ok [.text "No customer spending data available."]
    else do
      let total ← (sumField env "total_spent" data).asNumber
      let lines ← (data.take 5).mapM (spenderLinePieces env)
      pure
        ([ .text ("Customer Spending Analysis:\n" ++ "• Total across all customers: "),
          .dollars total,
          .text ("\n" ++ "• Average customer spend: "),
          .dollars ((sumField env "total_spent" data).toNumber.div (.fin data.length)),
          .text ("\n" ++ "Top 5 Customers:\n") ] ++ joinPieces lines)
  | "product_popularity" =>
    if data.length = 0 then .ok [.text "No product popularity data available."]
    else do
      let total ← (sumField env "revenue_generated" data).asNumber
      pure
        ([ .text ("Product Popularity Analysis:\n" ++ "• Total Revenue: "), .dollars total,
          .text ("\n" ++ "Top Products by Market Share:\n") ] ++
          joinPieces ((data.take 5).map (fun p =>
            [ Piece.text ("• " ++ ((getProp p "product").toStr env ++ " (" ++
                (getProp p "category").toStr env ++ ")") ++ ": "),
              .percent (((getProp p "revenue_generated").div
                (sumField env "revenue_generated" data)).mul (.fin 100)) ])))
  | "order_status" =>
    if data.length = 0 then .ok [.text "No order status data available."]
    else do
      let lines ← data.mapM (statusLinePieces env (sumField env "count" data))
      pure
        (.text ("Order Status Analysis:\n" ++ "• Total Orders: " ++
          (sumField env "count" data).toStr env ++ "\n") :: joinPieces lines)
  | "customer_growth" =>
    if data.length = 0 then .ok [.text "No customer growth data available."]
    else customerGrowthPieces env (growthData env data)
  | _ => (generateResponse env questionType data).map (fun r => [.text r.response])

/-- The text shows exactly `f` digits after a decimal point: an optional minus sign, at least
one digit, the point, `f` digits. -/
def FixedDigits (f : Nat) (s : String) : Prop :=
  ∃ (sign : String) (int frac : List Char),
    s = sign ++ String.mk int ++ "." ++ String.mk frac ∧ (sign = "" ∨ sign = "-") ∧
      int ≠ [] ∧ (∀ c ∈ int, c.isDigit = true) ∧ frac.length = f ∧
      (∀ c ∈ frac, c.isDigit = true)

/-! ## Theorems: regular expressions -/

theorem stripLiteral_eq_some (p cs rest : List Char) :
    stripLiteral p cs = some rest ↔
      ∃ u, cs = u ++ rest ∧ u.map canonicalize = p.map canonicalize := by
  induction p generalizing cs with
  | nil =>
    simp only [stripLiteral, Option.some.injEq, List.map_nil, List.map_eq_nil_iff]
    constructor
    · intro h; exact ⟨[], by simp [h], rfl⟩
    · rintro ⟨u, h, rfl⟩; simpa using h
  | cons a ps ih =>
    cases cs with
    | nil =>
      simp only [stripLiteral, List.map_cons]
      constructor
      · intro h; exact absurd h (by simp)
      · rintro ⟨u, hu, hm⟩
        cases u with
        | nil => simp at hm
        | cons _ _ => simp at hu
    | cons c cs =>
      simp only [stripLiteral, List.map_cons]
      split_ifs with h
      · rw [ih]
        constructor
        · rintro ⟨u, rfl, hu⟩
          exact ⟨c :: u, by simp, by simp [hu, h]⟩
        · rintro ⟨u, hu, hm⟩
          cases u with
          | nil => simp at hm
          | cons d u =>
            simp only [List.cons_append, List.cons.injEq] at hu
            simp only [List.map_cons, List.cons.injEq] at hm
            exact ⟨u, hu.2, hm.2⟩
      · simp only [false_iff, not_exists, not_and]
        intro u hu hm
        cases u with
        | nil => simp at hm
        | cons d u =>
          simp only [List.cons_append, List.cons.injEq] at hu
          simp only [List.map_cons, List.cons.injEq] at hm
          exact h (by rw [hu.1, hm.1])

theorem dotStarK_eq_true (k : List Char → Bool) (cs : List Char) :
    dotStarK k cs = true ↔
      ∃ u v, cs = u ++ v ∧ (∀ c ∈ u, isLineTerminator c = false) ∧ k v = true := by
  induction cs with
  | nil =>
    simp only [dotStarK]
    constructor
    · intro h; exact ⟨[], [], rfl, by simp, h⟩
    · rintro ⟨u, v, h, -, hk⟩
      have hv : v = [] := by
        have := congrArg List.length h
        simp at this
        exact List.length_eq_zero.mp (by omega)
      rwa [hv] at hk
  | cons c cs ih =>
    simp only [dotStarK, Bool.or_eq_true, Bool.and_eq_true, Bool.not_eq_true', ih]
    constructor
    · rintro (⟨hc, u, v, rfl, hu, hk⟩ | hk)
      · refine ⟨c :: u, v, rfl, ?_, hk⟩
        intro d hd
        rcases List.mem_cons.mp hd with rfl | hd
        · exact hc
        · exact hu d hd
      · exact ⟨[], c :: cs, rfl, by simp, hk⟩
    · rintro ⟨u, v, h, hu, hk⟩
      cases u with
      | nil =>
        right
        simp only [List.nil_append] at h
        rwa [h]
      | cons d u =>
        left
        simp only [List.cons_append, List.cons.injEq] at h
        obtain ⟨rfl, rfl⟩ := h
        exact ⟨hu c (List.mem_cons_self _ _), u, v, rfl,
          fun e he => hu e (List.mem_cons_of_mem _ he), hk⟩

/-- Soundness and completeness of the backtracking matcher against the denotation. -/
theorem RegExp.matchK_eq_true (re : RegExp) (cs : List Char) (k : List Char → Bool) :
    re.matchK cs k = true ↔ ∃ u v, cs = u ++ v ∧ re.Matches u ∧ k v = true := by
  induction re generalizing cs k with
  | lit s =>
    simp only [RegExp.matchK, RegExp.Matches]
    constructor
    · intro h
      split at h
      · next rest hs =>
        obtain ⟨u, hu, hm⟩ := (stripLiteral_eq_some _ _ _).mp hs
        exact ⟨u, rest, hu, hm, h⟩
      · exact absurd h (by simp)
    · rintro ⟨u, v, hu, hm, hk⟩
      have hs : stripLiteral s.data cs = some v := (stripLiteral_eq_some _ _ _).mpr ⟨u, hu, hm⟩
      rw [hs]
      exact hk
  | alt a b iha ihb =>
    simp only [RegExp.matchK, RegExp.Matches, Bool.or_eq_true, iha, ihb]
    constructor
    · rintro (⟨u, v, h, hm, hk⟩ | ⟨u, v, h, hm, hk⟩)
      · exact ⟨u, v, h, Or.inl hm, hk⟩
      · exact ⟨u, v, h, Or.inr hm, hk⟩
    · rintro ⟨u, v, h, hm | hm, hk⟩
      · exact Or.inl ⟨u, v, h, hm, hk⟩
      · exact Or.inr ⟨u, v, h, hm, hk⟩
  | seq a b iha ihb =>
    simp only [RegExp.matchK, RegExp.Matches, iha, ihb]
    constructor
    · rintro ⟨u, v, rfl, hu, w, x, rfl, hw, hk⟩
      exact ⟨u ++ w, x, by simp, ⟨u, w, rfl, hu, hw⟩, hk⟩
    · rintro ⟨_, x, rfl, ⟨u, w, rfl, hu, hw⟩, hk⟩
      exact ⟨u, w ++ x, by simp, hu, w, x, rfl, hw, hk⟩
  | dotStar =>
    simp only [RegExp.matchK, RegExp.Matches]
    exact dotStarK_eq_true k cs

/-- The test `re.test(s)` succeeds exactly when some infix of `s` is matched by `re`. -/
theorem RegExp.test_eq_true (re : RegExp) (s : String) :
    re.test s = true ↔ ∃ pre w post, s.data = pre ++ w ++ post ∧ re.Matches w := by
  simp only [RegExp.test, List.any_eq_true, List.mem_tails, RegExp.matchK_eq_true]
  constructor
  · rintro ⟨t, ⟨pre, hpre⟩, u, v, rfl, hm, -⟩
    exact ⟨pre, u, v, by simp [← hpre], hm⟩
  · rintro ⟨pre, w, post, h, hm⟩
    exact ⟨w ++ post, ⟨pre, by simp [h]⟩, w, post, rfl, hm, trivial⟩

/-! ## Theorems: `classifyQuestion` -/

theorem classifyQuestion_eq_firstMatchingIntent (q : String) :
    classifyQuestion q = firstMatchingIntent q := by
  unfold classifyQuestion firstMatchingIntent intentRules
  simp only [List.find?]
  cases reCategoryComparison.test q <;> cases reRevenueTrend.test q <;>
    cases reCustomerSpending.test q <;> cases reProductPopularity.test q <;>
    cases reOrderStatus.test q <;> cases reDataQuality.test q <;>
    cases (reCustomerGrowth.test q || reCustomerBaseGrown.test q) <;> rfl

theorem classifyQuestion_eq_category_comparison (q : String) :
    classifyQuestion q = "category_comparison" ↔ reCategoryComparison.test q = true := by
  unfold classifyQuestion
  constructor
  · intro h
    by_contra hc
    rw [if_neg hc] at h
    split_ifs at h <;> exact absurd h (by decide)
  · intro h
    rw [if_pos h]

theorem mentions_of_occurrence (q w : String) (pre u post : List Char)
    (h : q.data = pre ++ u ++ post) (hu : u.map canonicalize = w.data.map canonicalize) :
    mentions q w = true :=
  (RegExp.test_eq_true (.lit w) q).mpr ⟨pre, u, post, h, hu⟩

/-- What a successful test of the category-comparison pattern decomposes the question into. -/
theorem reCategoryComparison_test (q : String) :
    reCategoryComparison.test q = true ↔
      ∃ pre a m₁ b m₂ c post, q.data = pre ++ a ++ m₁ ++ b ++ m₂ ++ c ++ post ∧
        ((RegExp.lit "compare").Matches a ∨ (RegExp.lit "difference").Matches a) ∧
        (∀ x ∈ m₁, isLineTerminator x = false) ∧
        ((RegExp.lit "sales").Matches b ∨ (RegExp.lit "revenue").Matches b ∨
          (RegExp.lit "amount").Matches b) ∧
        (∀ x ∈ m₂, isLineTerminator x = false) ∧
        ((RegExp.lit "electronics").Matches c ∨ (RegExp.lit "furniture").Matches c) := by
  rw [RegExp.test_eq_true]
  simp only [reCategoryComparison, RegExp.Matches]
  constructor
  · rintro ⟨pre, w, post, hq, a, r₁, rfl, ha, m₁, r₂, rfl, hm₁, b, r₃, rfl, hb, m₂, c, rfl, hm₂, hc⟩
    exact ⟨pre, a, m₁, b, m₂, c, post, by simp [hq], ha, hm₁, hb, hm₂, hc⟩
  · rintro ⟨pre, a, m₁, b, m₂, c, post, hq, ha, hm₁, hb, hm₂, hc⟩
    exact ⟨pre, a ++ (m₁ ++ (b ++ (m₂ ++ c))), post, by simp [hq],
      a, _, rfl, ha, m₁, _, rfl, hm₁, b, _, rfl, hb, m₂, c, rfl, hm₂, hc⟩

/-- What a successful test of the revenue-trend pattern decomposes the question into. -/
theorem reRevenueTrend_test (q : String) :
    reRevenueTrend.test q = true ↔
      ∃ pre r mid t post, q.data = pre ++ r ++ mid ++ t ++ post ∧
        (RegExp.lit "revenue").Matches r ∧
        (∀ x ∈ mid, isLineTerminator x = false) ∧
        ((RegExp.lit "trend").Matches t ∨ (RegExp.lit "over time").Matches t) := by
  rw [RegExp.test_eq_true]
  simp only [reRevenueTrend, RegExp.Matches]
  constructor
  · rintro ⟨pre, w, post, hq, r, r₁, rfl, hr, mid, t, rfl, hmid, ht⟩
    exact ⟨pre, r, mid, t, post, by simp [hq], hr, hmid, ht⟩
  · rintro ⟨pre, r, mid, t, post, hq, hr, hmid, ht⟩
    exact ⟨pre, r ++ (mid ++ t), post, by simp [hq], r, _, rfl, hr, mid, t, rfl, hmid, ht⟩

/-- The element found by `find?` is the one at the first index where the predicate holds. -/
theorem find?_eq_get_of_first {α : Type} (p : α → Bool) :
    ∀ (l : List α) (i : Fin l.length), p (l.get i) = true →
      (∀ j : Fin l.length, j < i → p (l.get j) = false) → l.find? p = some (l.get i)
  | [], i, _, _ => i.elim0
  | a :: l, ⟨0, _⟩, hi, _ => by
    simp only [List.get_eq_getElem, List.getElem_cons_zero] at hi
    simp [List.find?, hi]
  | a :: l, ⟨n + 1, hn⟩, hi, hlt => by
    have h0 := hlt ⟨0, Nat.succ_pos _⟩ (by simp [Fin.lt_def])
    simp only [List.get_eq_getElem, List.getElem_cons_zero] at h0
    simp only [List.find?, h0, List.get_eq_getElem, List.getElem_cons_succ]
    have hn' : n < l.length := Nat.lt_of_succ_lt_succ hn
    refine find?_eq_get_of_first p l ⟨n, hn'⟩ (by simpa using hi) ?_
    intro j hj
    have := hlt ⟨j.1 + 1, Nat.succ_lt_succ j.2⟩ (by simpa [Fin.lt_def] using hj)
    simpa using this

/-- C1: for every question `classifyQuestion` returns exactly one of the eight intents, namely
the intent of the earliest rule of the fixed order that matches (first-match-wins over the
ordered rule list, stated both through `find?` and rule index by rule index), and `general`
exactly when no rule matches. In particular a question that matches both the revenue-trend and
the order-status pattern is never classified `order_status`: it gets `revenue_trend` unless
the still earlier category-comparison rule matches as well. -/
theorem classifyQuestion_earliest_rule (q : String) :
    classifyQuestion q = firstMatchingIntent q ∧
    (classifyQuestion q ∈ intents ∧ intents.Nodup ∧ intents.length = 8) ∧
    (∀ i : Fin intentRules.length, (intentRules.get i).1 q = true →
      (∀ j : Fin intentRules.length, j < i → (intentRules.get j).1 q = false) →
      classifyQuestion q = (intentRules.get i).2) ∧
    (classifyQuestion q = "general" ↔ ∀ r ∈ intentRules, r.1 q = false) ∧
    (reRevenueTrend.test q = true → reOrderStatus.test q = true →
      classifyQuestion q ≠ "order_status" ∧
      (reCategoryComparison.test q = false → classifyQuestion q = "revenue_trend")) := by
  refine ⟨classifyQuestion_eq_firstMatchingIntent q, ⟨?_, by decide, rfl⟩, ?_, ?_, ?_⟩
  · unfold classifyQuestion intents
    split_ifs <;> decide
  · intro i hi hlt
    rw [classifyQuestion_eq_firstMatchingIntent, firstMatchingIntent,
      find?_eq_get_of_first (fun r => r.1 q) intentRules i hi hlt]
  · unfold classifyQuestion intentRules
    simp only [List.mem_cons, List.mem_singleton, List.not_mem_nil, or_false, forall_eq_or_imp,
      forall_eq]
    constructor
    · intro h
      split_ifs at h with h1 h2 h3 h4 h5 h6 h7 <;> first | exact absurd h (by decide) | skip
      simp_all
    · rintro ⟨h1, h2, h3, h4, h5, h6, h7⟩
      simp [h1, h2, h3, h4, h5, h6, h7]
  · intro h2 h5
    unfold classifyQuestion
    constructor
    · split_ifs <;> decide
    · intro h1
      simp [h1, h2]

/-- C2 (as stated, refuted): a question that mentions only one of the two categories is
classified `category_comparison`. -/
theorem category_comparison_single_category :
    classifyQuestion "compare sales of electronics" = "category_comparison" ∧
    mentions "compare sales of electronics" "furniture" = false := by
  decide

/-- C2 (amended): `classifyQuestion` returns `category_comparison` only if the question mentions
a compare/difference word, a sales/revenue/amount word, and at least one of "electronics" and
"furniture", case-insensitively. -/
theorem category_comparison_only_if (q : String)
    (h : classifyQuestion q = "category_comparison") :
    (mentions q "compare" = true ∨ mentions q "difference" = true) ∧
    (mentions q "sales" = true ∨ mentions q "revenue" = true ∨ mentions q "amount" = true) ∧
    (mentions q "electronics" = true ∨ mentions q "furniture" = true) := by
  obtain ⟨pre, a, m₁, b, m₂, c, post, hq, ha, -, hb, -, hc⟩ :=
    (reCategoryComparison_test q).mp ((classifyQuestion_eq_category_comparison q).mp h)
  refine ⟨?_, ?_, ?_⟩
  · have hq' : q.data = pre ++ a ++ (m₁ ++ b ++ m₂ ++ c ++ post) := by simp [hq]
    exact ha.imp (mentions_of_occurrence q _ _ _ _ hq') (mentions_of_occurrence q _ _ _ _ hq')
  · have hq' : q.data = (pre ++ a ++ m₁) ++ b ++ (m₂ ++ c ++ post) := by simp [hq]
    exact hb.imp (mentions_of_occurrence q _ _ _ _ hq')
      (Or.imp (mentions_of_occurrence q _ _ _ _ hq') (mentions_of_occurrence q _ _ _ _ hq'))
  · exact hc.imp (mentions_of_occurrence q _ _ _ _ hq) (mentions_of_occurrence q _ _ _ _ hq)

theorem category_comparison_only_if_witness :
    classifyQuestion "Compare sales of Electronics and Furniture" = "category_comparison" ∧
    (mentions "Compare sales of Electronics and Furniture" "compare" = true ∨
      mentions "Compare sales of Electronics and Furniture" "difference" = true) ∧
    (mentions "Compare sales of Electronics and Furniture" "sales" = true ∨
      mentions "Compare sales of Electronics and Furniture" "revenue" = true ∨
      mentions "Compare sales of Electronics and Furniture" "amount" = true) ∧
    (mentions "Compare sales of Electronics and Furniture" "electronics" = true ∨
      mentions "Compare sales of Electronics and Furniture" "furniture" = true) :=
  ⟨by decide,
    category_comparison_only_if "Compare sales of Electronics and Furniture" (by decide)⟩

/-- C3 (as stated, refuted): "revenue" and "trend" both occur, category comparison does not
match, yet the question is not classified `revenue_trend`, because the pattern wants "revenue"
first. -/
theorem revenue_trend_wrong_order :
    reCategoryComparison.test "trend of revenue" = false ∧
    mentions "trend of revenue" "revenue" = true ∧
    mentions "trend of revenue" "trend" = true ∧
    classifyQuestion "trend of revenue" = "general" := by
  decide

/-- C3 (amended): every question that does not match the category-comparison rule and in which
"revenue" is followed, later on the same line, by "trend" or "over time" (case-insensitively)
is classified `revenue_trend`. -/
theorem revenue_trend_if (q : String) (pre r mid t post : List Char)
    (h₁ : reCategoryComparison.test q = false)
    (hq : q.data = pre ++ r ++ mid ++ t ++ post)
    (hr : r.map canonicalize = "revenue".data.map canonicalize)
    (hmid : ∀ x ∈ mid, isLineTerminator x = false)
    (ht : t.map canonicalize = "trend".data.map canonicalize ∨
      t.map canonicalize = "over time".data.map canonicalize) :
    classifyQuestion q = "revenue_trend" := by
  have h₂ : reRevenueTrend.test q = true :=
    (reRevenueTrend_test q).mpr ⟨pre, r, mid, t, post, hq, hr, hmid, ht⟩
  unfold classifyQuestion
  simp [h₁, h₂]

theorem revenue_trend_if_witness :
    classifyQuestion "Revenue by month, over Time" = "revenue_trend" :=
  revenue_trend_if "Revenue by month, over Time" [] "Revenue".data " by month, ".data
    "over Time".data [] (by decide) (by decide) (by decide) (by decide) (Or.inr (by decide))

/-! ## Theorems: `generateSQL` -/

theorem HasUndefinedTable.append_right {s : String} (t : String) (h : HasUndefinedTable s) :
    HasUndefinedTable (s ++ t) := by
  obtain ⟨pre, post, h | h⟩ := h
  · exact ⟨pre, post ++ t, Or.inl (by rw [h]; simp only [String.append_assoc])⟩
  · exact ⟨pre, post ++ t, Or.inr (by rw [h]; simp only [String.append_assoc])⟩

theorem hasUndefinedTable_from (x : String) :
    HasUndefinedTable (x ++ "              FROM " ++ "undefined") :=
  ⟨x ++ "              ", "", Or.inl (by simp only [String.append_assoc]; rfl)⟩

theorem hasUndefinedTable_join (x : String) :
    HasUndefinedTable (x ++ "              JOIN " ++ "undefined") :=
  ⟨x ++ "              ", "", Or.inr (by simp only [String.append_assoc]; rfl)⟩

theorem hasUndefinedTable_select : HasUndefinedTable ("SELECT * FROM " ++ "undefined") :=
  ⟨"SELECT * ", "", Or.inl (by decide)⟩

/-- C4 (as stated, refuted): with no table whose name contains "ordr", planning the
`order_status` intent does not fail; it returns SQL that reads `FROM undefined`. -/
theorem generateSQL_order_status_unresolved :
    findTable [("cust_info", [])] "ordr" = none ∧
    generateSQL "order_status" [("cust_info", [])] =
      .ok
        { sql :=
            "SELECT \n" ++
            "                status,\n" ++
            "                COUNT(order_id) AS count,\n" ++
            "                SUM(amount)::float AS total_amount\n" ++
            "              FROM undefined\n" ++
            "              GROUP BY status"
          visualization := "pie" } := by
  decide!

/-- C4 (amended): for every intent and every schema `generateSQL` returns a query plan and
never fails; when a table role that the intent requires is unresolved, the returned SQL text
carries the word "undefined" in the place of the table identifier (after `FROM` or `JOIN`). -/
theorem generateSQL_unresolved_role (questionType : String) (schema : Schema) :
    ∃ plan, generateSQL questionType schema = .ok plan ∧
      ∀ role ∈ requiredRoles questionType, findTable schema role.keyword = none →
        HasUndefinedTable plan.sql := by
  unfold generateSQL requiredRoles
  split <;> refine ⟨_, rfl, ?_⟩ <;> intro role hrole hnone <;>
    simp only [List.mem_cons, List.mem_singleton, List.not_mem_nil, or_false] at hrole <;>
    rcases hrole with rfl | rfl <;>
    simp only [Role.keyword] at hnone <;>
    simp only [hnone, tableRef] <;>
    repeat (first
      | with_reducible exact hasUndefinedTable_from _
      | with_reducible exact hasUndefinedTable_join _
      | with_reducible exact hasUndefinedTable_select
      | with_reducible apply HasUndefinedTable.append_right)

theorem generateSQL_congr_keys (questionType : String) (s₁ s₂ : Schema)
    (h : objectKeys s₁ = objectKeys s₂) :
    generateSQL questionType s₁ = generateSQL questionType s₂ := by
  unfold generateSQL findTable
  rw [h]

/-- C5: the SQL text and the chart kind are a function of the intent and of the table names
of the schema only: two questions with the same classification, planned against schemas with
the same table names (in particular against one schema), get the same query plan, byte for
byte; no text of the question reaches the query string. -/
theorem planQuery_depends_on_intent_and_table_names (q₁ q₂ : String) (s₁ s₂ : Schema)
    (hq : classifyQuestion q₁ = classifyQuestion q₂) (hs : objectKeys s₁ = objectKeys s₂) :
    planQuery q₁ s₁ = planQuery q₂ s₂ ∧
    (∀ plan₁ plan₂, planQuery q₁ s₁ = .ok plan₁ → planQuery q₂ s₂ = .ok plan₂ →
      plan₁.sql = plan₂.sql ∧ plan₁.visualization = plan₂.visualization) := by
  have h : planQuery q₁ s₁ = planQuery q₂ s₂ := by
    unfold planQuery
    rw [hq, generateSQL_congr_keys _ s₁ s₂ hs]
  refine ⟨h, ?_⟩
  intro plan₁ plan₂ h₁ h₂
  rw [h, h₂] at h₁
  cases h₁
  exact ⟨rfl, rfl⟩

theorem planQuery_depends_on_intent_and_table_names_witness :
    planQuery "Show me the order status; DROP TABLE ordrs" [("ordrs", [])] =
      planQuery "ORDER counts by STATUS please"
        [("ordrs", [⟨"order_id", "integer", [.num (.fin 1)]⟩])] ∧
    (∀ plan₁ plan₂,
      planQuery "Show me the order status; DROP TABLE ordrs" [("ordrs", [])] = .ok plan₁ →
      planQuery "ORDER counts by STATUS please"
        [("ordrs", [⟨"order_id", "integer", [.num (.fin 1)]⟩])] = .ok plan₂ →
      plan₁.sql = plan₂.sql ∧ plan₁.visualization = plan₂.visualization) :=
  planQuery_depends_on_intent_and_table_names _ _ _ _ (by decide) (by decide)

/-! ## Theorems: rounding to binary64 -/

namespace JSNum

theorem log2Aux_spec (fuel n : ℕ) (h : n ≤ fuel) (hn : n ≠ 0) :
    2 ^ log2Aux fuel n ≤ n ∧ n < 2 ^ (log2Aux fuel n + 1) := by
  induction fuel generalizing n with
  | zero => omega
  | succ fuel ih =>
    unfold log2Aux
    by_cases h2 : n < 2
    · rw [if_pos h2]
      constructor <;> simp <;> omega
    · rw [if_neg h2]
      obtain ⟨h₁, h₂⟩ := ih (n / 2) (by omega) (by omega)
      rw [pow_succ, pow_succ]
      constructor <;> omega

theorem log2Floor_spec (n : ℕ) (hn : n ≠ 0) :
    2 ^ log2Floor n ≤ n ∧ n < 2 ^ (log2Floor n + 1) :=
  log2Aux_spec n n le_rfl hn

theorem pow2_eq (k : ℤ) : pow2 k = (2 : ℚ) ^ k := by
  unfold pow2
  split_ifs with h
  · obtain ⟨n, rfl⟩ := Int.eq_ofNat_of_zero_le h
    simp
  · obtain ⟨n, hn⟩ := Int.eq_ofNat_of_zero_le (show 0 ≤ -k by omega)
    have hk : k = -(n : ℤ) := by omega
    subst hk
    simp

theorem pow2_pos (k : ℤ) : 0 < pow2 k := by
  rw [pow2_eq]
  positivity

theorem exponent_spec (a : ℚ) (ha : 0 < a) :
    (2 : ℚ) ^ exponent a ≤ a ∧ a < (2 : ℚ) ^ (exponent a + 1) := by
  have hnum : 0 < a.num := Rat.num_pos.mpr ha
  have hn0 : a.num.natAbs ≠ 0 := by omega
  have hd0 : a.den ≠ 0 := a.den_nz
  obtain ⟨hn₁, hn₂⟩ := log2Floor_spec _ hn0
  obtain ⟨hd₁, hd₂⟩ := log2Floor_spec _ hd0
  have hdpos : (0 : ℚ) < a.den := by exact_mod_cast Nat.pos_of_ne_zero hd0
  have ha_eq : a = (a.num.natAbs : ℚ) / a.den := by
    have h := (Rat.num_div_den a).symm
    have hc : ((a.num.natAbs : ℤ) : ℚ) = (a.num : ℚ) := by
      rw [Int.natAbs_of_nonneg hnum.le]
    rw [← hc, Int.cast_natCast] at h
    exact h
  set n := a.num.natAbs
  set d := a.den
  set ln := log2Floor n
  set ld := log2Floor d
  have hn₁' : (2 : ℚ) ^ ln ≤ n := by exact_mod_cast hn₁
  have hn₂' : (n : ℚ) < 2 ^ (ln + 1) := by exact_mod_cast hn₂
  have hd₁' : (2 : ℚ) ^ ld ≤ d := by exact_mod_cast hd₁
  have hd₂' : (d : ℚ) < 2 ^ (ld + 1) := by exact_mod_cast hd₂
  have hlow : (2 : ℚ) ^ ((ln : ℤ) - ld - 1) ≤ a := by
    have : (2 : ℚ) ^ ((ln : ℤ) - ld - 1) = 2 ^ ln / 2 ^ (ld + 1) := by
      rw [show (ln : ℤ) - ld - 1 = (ln : ℤ) - ((ld + 1 : ℕ) : ℤ) by push_cast; ring,
        zpow_sub₀ (by norm_num), zpow_natCast, zpow_natCast]
    rw [this, ha_eq, div_le_div_iff₀ (by positivity) hdpos]
    calc (2 : ℚ) ^ ln * d ≤ n * d := by gcongr
      _ ≤ n * 2 ^ (ld + 1) := by gcongr
  have hhigh : a < (2 : ℚ) ^ ((ln : ℤ) - ld + 1) := by
    have : (2 : ℚ) ^ ((ln : ℤ) - ld + 1) = 2 ^ (ln + 1) / 2 ^ ld := by
      rw [show (ln : ℤ) - ld + 1 = ((ln + 1 : ℕ) : ℤ) - (ld : ℤ) by push_cast; ring,
        zpow_sub₀ (by norm_num), zpow_natCast, zpow_natCast]
    rw [this, ha_eq, div_lt_div_iff₀ hdpos (by positivity)]
    calc (n : ℚ) * 2 ^ ld < 2 ^ (ln + 1) * 2 ^ ld := by gcongr
      _ ≤ 2 ^ (ln + 1) * d := by gcongr
  unfold exponent
  simp only []
  split_ifs with hc
  · rw [pow2_eq] at hc
    exact ⟨hc, hhigh⟩
  · rw [pow2_eq, not_le] at hc
    refine ⟨hlow, ?_⟩
    rw [show (ln : ℤ) - ld - 1 + 1 = (ln : ℤ) - ld by ring]
    exact hc

theorem roundTiesEven_intCast (z : ℤ) : roundTiesEven z = z := by
  simp [roundTiesEven]

theorem roundTiesEven_le (t : ℚ) (N : ℤ) (h : t ≤ N) : roundTiesEven t ≤ N := by
  have hfl : ⌊t⌋ ≤ N := by
    have : (⌊t⌋ : ℚ) ≤ N := (Int.floor_le t).trans h
    exact_mod_cast this
  have hstep : (1 : ℚ) / 2 ≤ t - ⌊t⌋ → ⌊t⌋ + 1 ≤ N := by
    intro hr
    have hlt : (⌊t⌋ : ℚ) < N := by linarith [Int.floor_le t]
    have : ⌊t⌋ < N := by exact_mod_cast hlt
    omega
  unfold roundTiesEven
  simp only []
  split_ifs with h₁ h₂ h₃
  · exact hfl
  · exact hstep (by linarith)
  · exact hfl
  · exact hstep (by linarith)

theorem le_roundTiesEven (t : ℚ) (N : ℤ) (h : (N : ℚ) ≤ t) : N ≤ roundTiesEven t := by
  have hfl : N ≤ ⌊t⌋ := Int.le_floor.mpr h
  unfold roundTiesEven
  simp only []
  split_ifs <;> omega

end JSNum

namespace JSNum

theorem maxBound_eq :
    (179769313486231590772930519078902473361797697894230657273430081157732675805500963132708477322407536021120113879871393357658789768814416622492847430639474124377767893424865485276302219601246094119453082952085005768838150682342462881473913110540827237163350510684586298239947245938479716304835356329624224137216 : ℚ) =
      2 ^ (1024 : ℤ) := by
  norm_num

/-- Unfolding of `round64` away from zero. -/
theorem round64_of_ne_zero (q : ℚ) (hq : q ≠ 0) :
    round64 q =
      if (2 : ℚ) ^ (1024 : ℤ) ≤
          (roundTiesEven (|q| / 2 ^ (max (exponent |q|) (-1022) - 52)) : ℚ) *
            2 ^ (max (exponent |q|) (-1022) - 52) then
        (if q < 0 then negInf else posInf)
      else
        fin (if q < 0 then
            -((roundTiesEven (|q| / 2 ^ (max (exponent |q|) (-1022) - 52)) : ℚ) *
              2 ^ (max (exponent |q|) (-1022) - 52))
          else
            (roundTiesEven (|q| / 2 ^ (max (exponent |q|) (-1022) - 52)) : ℚ) *
              2 ^ (max (exponent |q|) (-1022) - 52)) := by
  unfold round64
  rw [if_neg hq]
  simp only [pow2_eq, maxBound_eq]

/-- A value whose magnitude is an integer multiple of its own quantum rounds to itself. -/
theorem round64_of_multiple (q : ℚ) (hq : q ≠ 0) (z : ℤ) (K : ℤ)
    (hK : K = max (exponent |q|) (-1022) - 52) (hz : |q| = z * 2 ^ K)
    (hlt : |q| < 2 ^ (1024 : ℤ)) : round64 q = fin q := by
  have hp : (0 : ℚ) < 2 ^ K := by positivity
  have ht : |q| / 2 ^ K = z := by
    rw [div_eq_iff hp.ne']
    exact hz
  rw [round64_of_ne_zero q hq, ← hK, ht, roundTiesEven_intCast, ← hz, if_neg (not_le.mpr hlt)]
  congr 1
  split_ifs with hneg
  · rw [abs_of_neg hneg, neg_neg]
  · rw [abs_of_nonneg (not_lt.mp hneg)]

/-- A magnitude `m * 2^k` with `m < 2^53` and `k ≥ -1074`, below `2^1024`, is a binary64
value: rounding leaves it as it is, with either sign. -/
theorem round64_dyadic (m : ℕ) (k : ℤ) (hm : m < 2 ^ 53) (hk : -1074 ≤ k)
    (hv : (m : ℚ) * 2 ^ k < 2 ^ (1024 : ℤ)) (q : ℚ) (hq : |q| = m * 2 ^ k) :
    round64 q = fin q := by
  by_cases hq0 : q = 0
  · subst hq0
    simp [round64]
  have habs : 0 < |q| := abs_pos.mpr hq0
  obtain ⟨he₁, -⟩ := exponent_spec |q| habs
  have hlt : (2 : ℚ) ^ exponent |q| < 2 ^ ((53 : ℤ) + k) := by
    calc (2 : ℚ) ^ exponent |q| ≤ |q| := he₁
      _ = m * 2 ^ k := hq
      _ < 2 ^ (53 : ℕ) * 2 ^ k := by
        have : (m : ℚ) < 2 ^ (53 : ℕ) := by exact_mod_cast hm
        gcongr
      _ = 2 ^ ((53 : ℤ) + k) := by
        rw [zpow_add₀ (by norm_num)]
        norm_num
  have he : exponent |q| < 53 + k := (zpow_lt_zpow_iff_right₀ (by norm_num)).mp hlt
  obtain ⟨K, hKdef⟩ : ∃ K, K = max (exponent |q|) (-1022) - 52 := ⟨_, rfl⟩
  have hK : K ≤ k := by
    rcases max_cases (exponent |q|) (-1022) with ⟨h, -⟩ | ⟨h, -⟩ <;> omega
  obtain ⟨j, hj⟩ := Int.eq_ofNat_of_zero_le (sub_nonneg.mpr hK)
  refine round64_of_multiple q hq0 ((m * 2 ^ j : ℕ) : ℤ) K hKdef ?_ (hq ▸ hv)
  rw [hq]
  have hk' : k = K + j := by omega
  rw [hk', zpow_add₀ (by norm_num : (2 : ℚ) ≠ 0), zpow_natCast]
  push_cast
  ring

end JSNum

namespace JSNum

/-- What `round64` returns: an infinity of the sign of `q`, or a finite value of the sign of
`q` whose magnitude is `M * 2^K` with `M ≤ 2^53` and `K ≥ -1074`, below `2^1024`; the value is
not zero when `q` is at least `2^-1074` in magnitude. -/
theorem round64_cases (q : ℚ) :
    (round64 q = posInf ∧ 0 < q) ∨ (round64 q = negInf ∧ q < 0) ∨
      ∃ (M : ℕ) (K : ℤ) (y : ℚ), round64 q = fin y ∧ |y| = M * 2 ^ K ∧ M ≤ 2 ^ 53 ∧ -1074 ≤ K ∧
        |y| < 2 ^ (1024 : ℤ) ∧ (q < 0 → y ≤ 0) ∧ (0 ≤ q → 0 ≤ y) ∧
        ((2 : ℚ) ^ (-1074 : ℤ) ≤ |q| → y ≠ 0) := by
  by_cases hq0 : q = 0
  · subst hq0
    refine Or.inr (Or.inr ⟨0, 0, 0, by simp [round64], by simp, by norm_num, by norm_num,
      by simp; positivity, by simp, by simp, ?_⟩)
    intro h
    exfalso
    have : (0 : ℚ) < 2 ^ (-1074 : ℤ) := by positivity
    simp only [abs_zero] at h
    linarith
  have habs : 0 < |q| := abs_pos.mpr hq0
  obtain ⟨he₁, he₂⟩ := exponent_spec |q| habs
  obtain ⟨K, hKdef⟩ : ∃ K, K = max (exponent |q|) (-1022) - 52 := ⟨_, rfl⟩
  have hK₁ : exponent |q| - 52 ≤ K := by
    rcases max_cases (exponent |q|) (-1022) with ⟨h, -⟩ | ⟨h, -⟩ <;> omega
  have hK₂ : -1074 ≤ K := by
    rcases max_cases (exponent |q|) (-1022) with ⟨h, -⟩ | ⟨h, -⟩ <;> omega
  have hp : (0 : ℚ) < 2 ^ K := by positivity
  have ht₀ : 0 ≤ |q| / 2 ^ K := by positivity
  have ht₁ : |q| / 2 ^ K ≤ ((2 ^ 53 : ℕ) : ℤ) := by
    rw [div_le_iff₀ hp]
    have h53 : (((2 ^ 53 : ℕ) : ℤ) : ℚ) = 2 ^ (53 : ℤ) := by norm_num
    rw [h53, ← zpow_add₀ (by norm_num : (2 : ℚ) ≠ 0)]
    refine he₂.le.trans ?_
    exact zpow_le_zpow_right₀ (by norm_num) (by omega)
  have hM₀ : 0 ≤ roundTiesEven (|q| / 2 ^ K) := le_roundTiesEven _ 0 (by simpa using ht₀)
  have hM₁ : roundTiesEven (|q| / 2 ^ K) ≤ ((2 ^ 53 : ℕ) : ℤ) := roundTiesEven_le _ _ ht₁
  obtain ⟨M, hM⟩ := Int.eq_ofNat_of_zero_le hM₀
  have hM53 : M ≤ 2 ^ 53 := by
    rw [hM] at hM₁
    exact_mod_cast hM₁
  have hv₀ : (0 : ℚ) ≤ (M : ℚ) * 2 ^ K := by positivity
  rw [round64_of_ne_zero q hq0, ← hKdef, hM, Int.cast_natCast]
  by_cases hov : (2 : ℚ) ^ (1024 : ℤ) ≤ (M : ℚ) * 2 ^ K
  · rw [if_pos hov]
    by_cases hneg : q < 0
    · rw [if_pos hneg]
      exact Or.inr (Or.inl ⟨rfl, hneg⟩)
    · rw [if_neg hneg]
      exact Or.inl ⟨rfl, lt_of_le_of_ne (not_lt.mp hneg) (Ne.symm hq0)⟩
  · rw [if_neg hov]
    refine Or.inr (Or.inr ⟨M, K, _, rfl, ?_, hM53, hK₂, ?_, ?_, ?_, ?_⟩)
    · split_ifs
      · rw [abs_neg, abs_of_nonneg hv₀]
      · rw [abs_of_nonneg hv₀]
    · have : |if q < 0 then -((M : ℚ) * 2 ^ K) else (M : ℚ) * 2 ^ K| = (M : ℚ) * 2 ^ K := by
        split_ifs
        · rw [abs_neg, abs_of_nonneg hv₀]
        · rw [abs_of_nonneg hv₀]
      rw [this]
      exact not_le.mp hov
    · intro hneg
      rw [if_pos hneg]
      linarith
    · intro hnn
      rw [if_neg (not_lt.mpr hnn)]
      exact hv₀
    · intro hbig
      have hle : (2 : ℚ) ^ K ≤ |q| := by
        rcases max_cases (exponent |q|) (-1022) with ⟨h, -⟩ | ⟨h, -⟩
        · have : (2 : ℚ) ^ K ≤ 2 ^ exponent |q| :=
            zpow_le_zpow_right₀ (by norm_num) (by omega)
          exact this.trans he₁
        · have : K = -1074 := by omega
          rw [this]
          exact hbig
      have h1 : ((1 : ℤ) : ℚ) ≤ |q| / 2 ^ K := by
        rw [le_div_iff₀ hp]
        simpa using hle
      have hM1 : 1 ≤ roundTiesEven (|q| / 2 ^ K) := le_roundTiesEven _ 1 h1
      have hMpos : (0 : ℚ) < M := by
        have : (1 : ℤ) ≤ (M : ℤ) := hM ▸ hM1
        exact_mod_cast this
      have hvpos : (0 : ℚ) < (M : ℚ) * 2 ^ K := by positivity
      split_ifs
      · linarith
      · exact hvpos.ne'

/-- A value that `round64` returns is a binary64 value: rounding leaves it as it is. -/
theorem round64_idem (q y : ℚ) (h : round64 q = fin y) : round64 y = fin y := by
  rcases round64_cases q with ⟨h', -⟩ | ⟨h', -⟩ | ⟨M, K, y', hy, habs, hM, hK, hlt, -, -, -⟩
  · rw [h] at h'; cases h'
  · rw [h] at h'; cases h'
  · rw [h] at hy
    cases hy
    rcases Nat.lt_or_ge M (2 ^ 53) with hlt53 | hge
    · exact round64_dyadic M K hlt53 hK (habs ▸ hlt) y habs
    · have hMeq : M = 2 ^ 53 := le_antisymm hM hge
      have habs' : |y| = ((2 ^ 52 : ℕ) : ℚ) * 2 ^ (K + 1) := by
        rw [habs, hMeq, zpow_add₀ (by norm_num : (2 : ℚ) ≠ 0)]
        norm_num
        ring
      exact round64_dyadic (2 ^ 52) (K + 1) (by norm_num) (by omega) (habs' ▸ hlt) y habs'

end JSNum

/-- A binary64 value is an integer multiple of `2^-1074`. -/
theorem IsBinary64.multiple {q : ℚ} (h : IsBinary64 q) : ∃ z : ℤ, q = z * 2 ^ (-1074 : ℤ) := by
  rcases JSNum.round64_cases q with ⟨h', -⟩ | ⟨h', -⟩ | ⟨M, K, y', hy, habs, -, hK, -, -, -, -⟩
  · rw [h] at h'; cases h'
  · rw [h] at h'; cases h'
  · rw [h] at hy
    cases hy
    obtain ⟨j, hj⟩ := Int.eq_ofNat_of_zero_le (show 0 ≤ K + 1074 by omega)
    have hK' : K = (j : ℤ) + (-1074) := by omega
    have hmag : |q| = ((M * 2 ^ j : ℕ) : ℤ) * 2 ^ (-1074 : ℤ) := by
      rw [habs, hK', zpow_add₀ (by norm_num : (2 : ℚ) ≠ 0), zpow_natCast]
      push_cast
      ring
    rcases abs_cases q with ⟨hq, -⟩ | ⟨hq, -⟩
    · exact ⟨_, hq ▸ hmag⟩
    · refine ⟨-((M * 2 ^ j : ℕ) : ℤ), ?_⟩
      have : q = -|q| := by rw [hq, neg_neg]
      rw [this, hmag]
      push_cast
      ring

namespace JSNum

/-- Subtraction of binary64 values keeps the order: for `f < e` the difference `e - f` is
greater than zero (there is no underflow to zero), possibly `Infinity`. -/
theorem sub_gt_zero {e f : ℚ} (he : IsBinary64 e) (hf : IsBinary64 f) (h : f < e) :
    ((fin e).sub (fin f)).gt (fin 0) = true := by
  obtain ⟨ze, hze⟩ := he.multiple
  obtain ⟨zf, hzf⟩ := hf.multiple
  have hp : (0 : ℚ) < 2 ^ (-1074 : ℤ) := by positivity
  have hdiff : e + -f = ((ze - zf : ℤ) : ℚ) * 2 ^ (-1074 : ℤ) := by
    rw [hze, hzf]
    push_cast
    ring
  have hpos : 0 < e + -f := by linarith
  have hz : 1 ≤ ze - zf := by
    have : (0 : ℚ) < ((ze - zf : ℤ) : ℚ) := by
      rw [hdiff] at hpos
      exact (mul_pos_iff_of_pos_right hp).mp hpos
    have : 0 < ze - zf := by exact_mod_cast this
    omega
  have hbig : (2 : ℚ) ^ (-1074 : ℤ) ≤ |e + -f| := by
    rw [abs_of_pos hpos, hdiff]
    have : ((1 : ℤ) : ℚ) ≤ ((ze - zf : ℤ) : ℚ) := by exact_mod_cast hz
    calc (2 : ℚ) ^ (-1074 : ℤ) = ((1 : ℤ) : ℚ) * 2 ^ (-1074 : ℤ) := by simp
      _ ≤ ((ze - zf : ℤ) : ℚ) * 2 ^ (-1074 : ℤ) := by gcongr
  show (round64 (e + -f)).gt (fin 0) = true
  rcases round64_cases (e + -f) with ⟨h', -⟩ | ⟨-, h'⟩ | ⟨M, K, y, hy, -, -, -, -, -, hnn, hne⟩
  · rw [h']; rfl
  · linarith
  · rw [hy]
    have : 0 < y := lt_of_le_of_ne (hnn hpos.le) (Ne.symm (hne hbig))
    simpa [gt] using this

/-- For `e ≤ f` the difference `e - f` is not greater than zero. -/
theorem sub_not_gt_zero {e f : ℚ} (h : e ≤ f) : ((fin e).sub (fin f)).gt (fin 0) = false := by
  show (round64 (e + -f)).gt (fin 0) = false
  rcases round64_cases (e + -f) with ⟨-, h'⟩ | ⟨h', -⟩ | ⟨M, K, y, hy, -, -, -, -, hneg, hnn, -⟩
  · linarith
  · rw [h']; rfl
  · rw [hy]
    rcases eq_or_lt_of_le h with heq | hlt
    · subst heq
      have : round64 (e + -e) = fin 0 := by simp [round64]
      rw [this] at hy
      cases hy
      simp [gt]
    · have : y ≤ 0 := hneg (by linarith)
      simpa [gt] using this

end JSNum

theorem JSNum.round64_zero : JSNum.round64 0 = .fin 0 := by
  simp [JSNum.round64]

/-- Adding zero to a sum leaves it as it is: a sum is a binary64 value already. -/
theorem JSNum.zero_add_add (a b : JSNum) : (JSNum.fin 0).add (a.add b) = a.add b := by
  cases a <;> cases b <;> try rfl
  rename_i x y
  show (JSNum.fin 0).add (JSNum.round64 (x + y)) = JSNum.round64 (x + y)
  cases h : JSNum.round64 (x + y) with
  | nan => rfl
  | posInf => rfl
  | negInf => rfl
  | fin z =>
    show JSNum.round64 (0 + z) = JSNum.fin z
    rw [zero_add]
    exact JSNum.round64_idem _ _ h

/-! ## Theorems: `generateResponse` -/

/-- C6: on an empty result set every intent other than `general` yields a null visualization
and a fixed narrative that depends on the intent alone (not on the environment either);
`general` yields a narrative reporting 0 records and a table payload whose columns and rows
are both empty. -/
theorem generateResponse_empty (env : Env) :
    generateResponse env "category_comparison" [] =
      .ok ⟨"No sales data found for the specified categories.", .null⟩ ∧
    generateResponse env "revenue_trend" [] =
      .ok ⟨"No valid revenue data available for analysis.", .null⟩ ∧
    generateResponse env "customer_spending" [] =
      .ok ⟨"No customer spending data available.", .null⟩ ∧
    generateResponse env "product_popularity" [] =
      .ok ⟨"No product popularity data available.", .null⟩ ∧
    generateResponse env "order_status" [] =
      .ok ⟨"No order status data available.", .null⟩ ∧
    generateResponse env "data_quality" [] =
      .ok ⟨"No data quality metrics available.", .null⟩ ∧
    generateResponse env "customer_growth" [] =
      .ok ⟨"No customer growth data available.", .null⟩ ∧
    generateResponse env "general" [] =
      .ok ⟨"Here are the first 0 records from the database.", .table [] []⟩ :=
  ⟨rfl, rfl, rfl, rfl, rfl, rfl, rfl, rfl⟩

theorem generateResponse_category_comparison (env : Env) (data : List Row) (h : data ≠ []) :
    generateResponse env "category_comparison" data = (do
      let electronics :=
        data.find? (fun d => (getProp d "category").strictEquals (.str "Electronics"))
      let furniture :=
        data.find? (fun d => (getProp d "category").strictEquals (.str "Furniture"))
      let electronicsLine ← categoryLine env "Electronics" electronics
      let furnitureLine ← categoryLine env "Furniture" furniture
      pure
        { response :=
            "Category comparison analysis:\n" ++ electronicsLine ++ furnitureLine ++
              comparisonText env electronics furniture
          visualizationData :=
            .chart "bar"
              (data.map (fun item =>
                [ ("x", getProp item "category"), ("y", getProp item "total_sales"),
                  ("orderCount", getProp item "order_count"),
                  ("avgValue", getProp item "avg_order_value") ])) }) := by
  have : data.length ≠ 0 := by simpa using h
  simp only [generateResponse]
  rw [if_neg this]

theorem comparisonText_of_totals (env : Env) (er fr : Row) (e f : ℚ)
    (hes : getProp er "total_sales" = .num (.fin e))
    (hfs : getProp fr "total_sales" = .num (.fin f)) (he : IsBinary64 e) (hf : IsBinary64 f) :
    comparisonText env (some er) (some fr) =
      "Electronics sales are $" ++ (if f < e then "higher" else "lower") ++ " by $" ++
        JSNum.toFixed env 2 ((JSNum.fin e).sub (.fin f)).abs ++ " (" ++
        JSNum.toFixed env 1 ((((JSNum.fin e).sub (.fin f)).abs.div (.fin f)).mul (.fin 100)) ++
        "%) compared to Furniture." := by
  have hgt : ((JSNum.fin e).sub (.fin f)).gt (.fin 0) = decide (f < e) := by
    by_cases h : f < e
    · rw [JSNum.sub_gt_zero he hf h, decide_eq_true h]
    · rw [JSNum.sub_not_gt_zero (not_lt.mp h), decide_eq_false h]
  simp only [comparisonText, hes, hfs, JSVal.sub, JSVal.toNumber, hgt, decide_eq_true_eq]

theorem categoryLine_some (env : Env) (name : String) (r : Row) (t a : JSNum)
    (ht : getProp r "total_sales" = .num t) (ha : getProp r "avg_order_value" = .num a) :
    ∃ line, categoryLine env name (some r) = .ok line := by
  simp only [categoryLine, toFixedOpt, ht, ha, JSVal.toFixed, Except.map, bind, Except.bind,
    pure, Except.pure]
  exact ⟨_, rfl⟩

/-- C7: when the result set has an Electronics row with total `e` and a Furniture row with
total `f > 0` (the first row of each category, all four figures being Numbers, the totals
finite binary64 values), the narrative ends with the sentence that Electronics is `higher`
(when `e > f`) or `lower` (otherwise) by `|e - f|` printed with two decimals and by
`|e - f| / f * 100` printed with one decimal, the difference, the quotient and the product
being those of Number arithmetic (each rounded to binary64). For the rows Electronics 150 and
Furniture 100 the narrative reads "higher by $50.00 (50.0%)". -/
theorem category_comparison_narrative (env : Env) :
    (∀ (data : List Row) (er fr : Row) (e f : ℚ) (a₁ a₂ : JSNum),
      data.find? (fun d => (getProp d "category").strictEquals (.str "Electronics")) = some er →
      data.find? (fun d => (getProp d "category").strictEquals (.str "Furniture")) = some fr →
      getProp er "total_sales" = .num (.fin e) →
      getProp fr "total_sales" = .num (.fin f) →
      getProp er "avg_order_value" = .num a₁ →
      getProp fr "avg_order_value" = .num a₂ →
      IsBinary64 e → IsBinary64 f → 0 < f →
      ∃ l₁ l₂, categoryLine env "Electronics" (some er) = .ok l₁ ∧
        categoryLine env "Furniture" (some fr) = .ok l₂ ∧
        generateResponse env "category_comparison" data =
          .ok
            { response :=
                "Category comparison analysis:\n" ++ l₁ ++ l₂ ++
                  ("Electronics sales are $" ++ (if f < e then "higher" else "lower") ++
                    " by $" ++ JSNum.toFixed env 2 ((JSNum.fin e).sub (.fin f)).abs ++ " (" ++
                    JSNum.toFixed env 1
                      ((((JSNum.fin e).sub (.fin f)).abs.div (.fin f)).mul (.fin 100)) ++
                    "%) compared to Furniture.")
              visualizationData :=
                .chart "bar"
                  (data.map (fun item =>
                    [ ("x", getProp item "category"), ("y", getProp item "total_sales"),
                      ("orderCount", getProp item "order_count"),
                      ("avgValue", getProp item "avg_order_value") ])) }) ∧
    generateResponse env "category_comparison"
        [ [ ("category", .str "Electronics"), ("total_sales", .num (.fin 150)),
            ("order_count", .num (.fin 3)), ("avg_order_value", .num (.fin 50)) ],
          [ ("category", .str "Furniture"), ("total_sales", .num (.fin 100)),
            ("order_count", .num (.fin 2)), ("avg_order_value", .num (.fin 50)) ] ] =
      .ok
        { response :=
            "Category comparison analysis:\n" ++
            "• Electronics: $150.00 from 3 orders (avg $50.00)\n" ++
            "• Furniture: $100.00 from 2 orders (avg $50.00)\n" ++
            "Electronics sales are $higher by $50.00 (50.0%) compared to Furniture."
          visualizationData :=
            .chart "bar"
              [ [ ("x", .str "Electronics"), ("y", .num (.fin 150)),
                  ("orderCount", .num (.fin 3)), ("avgValue", .num (.fin 50)) ],
                [ ("x", .str "Furniture"), ("y", .num (.fin 100)),
                  ("orderCount", .num (.fin 2)), ("avgValue", .num (.fin 50)) ] ] } := by
  refine ⟨?_, by with_unfolding_all rfl⟩
  intro data er fr e f a₁ a₂ he hf hes hfs hea hfa he64 hf64 _
  have hne : data ≠ [] := by
    rintro rfl
    simp at he
  obtain ⟨l₁, h₁⟩ := categoryLine_some env "Electronics" er _ _ hes hea
  obtain ⟨l₂, h₂⟩ := categoryLine_some env "Furniture" fr _ _ hfs hfa
  refine ⟨l₁, l₂, h₁, h₂, ?_⟩
  rw [generateResponse_category_comparison env data hne]
  simp only [he, hf, h₁, h₂, bind, Except.bind, pure, Except.pure,
    comparisonText_of_totals env er fr e f hes hfs he64 hf64]

theorem category_comparison_narrative_witness :
    ∃ l₁ l₂,
      categoryLine exampleEnv "Electronics"
        (some [ ("category", .str "Electronics"), ("total_sales", .num (.fin 103)),
          ("order_count", .num (.fin 3)), ("avg_order_value", .num (.fin 30)) ]) = .ok l₁ ∧
      categoryLine exampleEnv "Furniture"
        (some [ ("category", .str "Furniture"), ("total_sales", .num (.fin 80)),
          ("order_count", .num (.fin 2)), ("avg_order_value", .num (.fin 60)) ]) = .ok l₂ ∧
      generateResponse exampleEnv "category_comparison"
          [ [ ("category", .str "Furniture"), ("total_sales", .num (.fin 80)),
              ("order_count", .num (.fin 2)), ("avg_order_value", .num (.fin 60)) ],
            [ ("category", .str "Electronics"), ("total_sales", .num (.fin 103)),
              ("order_count", .num (.fin 3)), ("avg_order_value", .num (.fin 30)) ] ] =
        .ok
          { response :=
              "Category comparison analysis:\n" ++ l₁ ++ l₂ ++
                "Electronics sales are $higher by $23.00 (28.7%) compared to Furniture."
            visualizationData :=
              .chart "bar"
                [ [ ("x", .str "Furniture"), ("y", .num (.fin 80)),
                    ("orderCount", .num (.fin 2)), ("avgValue", .num (.fin 60)) ],
                  [ ("x", .str "Electronics"), ("y", .num (.fin 103)),
                    ("orderCount", .num (.fin 3)), ("avgValue", .num (.fin 30)) ] ] } := by
  obtain ⟨l₁, l₂, h₁, h₂, h₃⟩ :=
    (category_comparison_narrative exampleEnv).1
      [ [ ("category", .str "Furniture"), ("total_sales", .num (.fin 80)),
          ("order_count", .num (.fin 2)), ("avg_order_value", .num (.fin 60)) ],
        [ ("category", .str "Electronics"), ("total_sales", .num (.fin 103)),
          ("order_count", .num (.fin 3)), ("avg_order_value", .num (.fin 30)) ] ]
      [ ("category", .str "Electronics"), ("total_sales", .num (.fin 103)),
        ("order_count", .num (.fin 3)), ("avg_order_value", .num (.fin 30)) ]
      [ ("category", .str "Furniture"), ("total_sales", .num (.fin 80)),
        ("order_count", .num (.fin 2)), ("avg_order_value", .num (.fin 60)) ]
      103 80 (.fin 30) (.fin 60)
      (by decide!) (by decide!) (by decide!) (by decide!) (by decide!) (by decide!)
      (by decide!) (by decide!) (by norm_num)
  refine ⟨l₁, l₂, h₁, h₂, h₃.trans ?_⟩
  have hfig :
      ("Electronics sales are $" ++ (if (80 : ℚ) < 103 then "higher" else "lower") ++
        " by $" ++ JSNum.toFixed exampleEnv 2 ((JSNum.fin 103).sub (.fin 80)).abs ++ " (" ++
        JSNum.toFixed exampleEnv 1
          ((((JSNum.fin 103).sub (.fin 80)).abs.div (.fin 80)).mul (.fin 100)) ++
        "%) compared to Furniture.") =
        "Electronics sales are $higher by $23.00 (28.7%) compared to Furniture." := by
    decide!
  rw [hfig]
  rfl

theorem JSNum.gt_irrefl (a : JSNum) : a.gt a = false := by
  cases a <;> simp [JSNum.gt]

theorem JSNum.gt_trans {a b c : JSNum} (h₁ : a.gt b = true) (h₂ : b.gt c = true) :
    a.gt c = true := by
  cases a <;> cases b <;> cases c <;> simp_all [JSNum.gt]
  exact lt_trans h₂ h₁

theorem JSNum.gt_of_gt_of_not_gt {a b c : JSNum} (h₁ : c.gt a = true) (h₂ : b.gt a = false)
    (hb : b ≠ .nan) : c.gt b = true := by
  cases a <;> cases b <;> cases c <;> simp_all [JSNum.gt]
  exact lt_of_le_of_lt h₂ h₁

/-- The fold of `peakPoint` returns the earliest point of maximal value. -/
theorem peakPoint_spec (acc : Point) (points : List Point)
    (hnan : ∀ p ∈ acc :: points, p.y ≠ .nan) :
    ∃ pre post, acc :: points = pre ++ peakPoint acc points :: post ∧
      (∀ p ∈ pre, (peakPoint acc points).y.gt p.y = true) ∧
      (∀ p ∈ post, p.y.gt (peakPoint acc points).y = false) := by
  induction points generalizing acc with
  | nil => exact ⟨[], [], rfl, by simp, by simp⟩
  | cons p ps ih =>
    have hp : p.y ≠ .nan := hnan p (by simp)
    by_cases hgt : p.y.gt acc.y = true
    · have hstep : peakPoint acc (p :: ps) = peakPoint p ps := by
        simp [peakPoint, hgt]
      obtain ⟨pre, post, hsplit, hpre, hpost⟩ :=
        ih p (fun q hq => hnan q (List.mem_cons_of_mem _ hq))
      rw [hstep]
      refine ⟨acc :: pre, post, by rw [hsplit]; rfl, ?_, hpost⟩
      intro q hq
      rcases List.mem_cons.mp hq with rfl | hq
      · cases pre with
        | nil =>
          simp only [List.nil_append, List.cons.injEq] at hsplit
          rw [← hsplit.1]
          exact hgt
        | cons r pre =>
          simp only [List.cons_append, List.cons.injEq] at hsplit
          have := hpre r (List.mem_cons_self _ _)
          rw [← hsplit.1] at this
          exact JSNum.gt_trans this hgt
      · exact hpre q hq
    · have hgt' : p.y.gt acc.y = false := by simpa using hgt
      have hstep : peakPoint acc (p :: ps) = peakPoint acc ps := by
        simp [peakPoint, hgt']
      obtain ⟨pre, post, hsplit, hpre, hpost⟩ :=
        ih acc (fun q hq => by
          rcases List.mem_cons.mp hq with rfl | hq
          · exact hnan _ (List.mem_cons_self _ _)
          · exact hnan q (List.mem_cons_of_mem _ (List.mem_cons_of_mem _ hq)))
      rw [hstep]
      cases pre with
      | nil =>
        simp only [List.nil_append, List.cons.injEq] at hsplit
        refine ⟨[], p :: post, by rw [← hsplit.2, ← hsplit.1]; rfl, by simp, ?_⟩
        intro q hq
        rcases List.mem_cons.mp hq with rfl | hq
        · rw [← hsplit.1]; exact hgt'
        · exact hpost q hq
      | cons r pre =>
        simp only [List.cons_append, List.cons.injEq] at hsplit
        obtain ⟨rfl, hps⟩ := hsplit
        refine ⟨acc :: p :: pre, post, ?_, ?_, hpost⟩
        · simp only [List.cons_append, List.cons.injEq, true_and]; exact hps
        intro q hq
        rcases List.mem_cons.mp hq with rfl | hq
        · exact hpre _ (List.mem_cons_self _ _)
        · rcases List.mem_cons.mp hq with rfl | hq
          · exact JSNum.gt_of_gt_of_not_gt (hpre _ (List.mem_cons_self _ _)) hgt' hp
          · exact hpre q (List.mem_cons_of_mem _ hq)

theorem JSNum.gt_asymm {a b : JSNum} (h : a.gt b = true) : b.gt a = false := by
  cases a <;> cases b <;> simp_all [JSNum.gt]
  exact le_of_lt h

theorem monthlyTrend_eq_nil_of_valid_nil (env : Env) (data : List Row)
    (h : validRevenueData data = []) : monthlyTrend env data = [] := by
  simp [monthlyTrend, h, revenueByMonth, entriesToPoints]

theorem generateResponse_revenue_trend (env : Env) (data : List Row)
    (h : monthlyTrend env data ≠ []) :
    generateResponse env "revenue_trend" data = revenueTrendReport env (monthlyTrend env data) := by
  have hv : (validRevenueData data).length ≠ 0 := by
    intro hlen
    exact h (monthlyTrend_eq_nil_of_valid_nil env data (List.length_eq_zero.mp hlen))
  simp only [generateResponse]
  rw [if_neg hv]

theorem growthTrend_cons (first : Point) (rest : List Point) :
    growthTrend first (first :: rest) =
      if rest = [] then "Not enough data"
      else if ((first :: rest).getLast (List.cons_ne_nil _ _)).y.gt first.y then "Upward"
      else "Downward" := by
  unfold growthTrend
  cases rest with
  | nil => simp
  | cons p ps =>
    have hlen : (first :: p :: ps).length > 1 := by simp
    rw [if_pos hlen, if_neg (List.cons_ne_nil _ _),
      List.getLast?_eq_getLast _ (List.cons_ne_nil _ _)]
    rfl

theorem peakPoint_cons_self (first : Point) (rest : List Point) :
    peakPoint first (first :: rest) = peakPoint first rest := by
  simp [peakPoint, JSNum.gt_irrefl]

/-- C9: for a non-empty series of monthly revenue buckets (none of them `NaN`) the peak month
of the narrative is the first bucket whose value is maximal: every bucket before it is
strictly smaller and no bucket is greater. The growth trend reads "Not enough data" for a
single bucket, "Upward" when the last bucket is strictly greater than the first, and
"Downward" otherwise, equality included. -/
theorem revenue_trend_peak_and_trend (env : Env) (data : List Row) (first : Point)
    (rest : List Point) (hmt : monthlyTrend env data = first :: rest)
    (hnan : ∀ p ∈ first :: rest, p.y ≠ .nan) :
    ∃ peak pre post,
      first :: rest = pre ++ peak :: post ∧
      (∀ p ∈ pre, peak.y.gt p.y = true) ∧
      (∀ p ∈ first :: rest, p.y.gt peak.y = false) ∧
      generateResponse env "revenue_trend" data =
        .ok
          { response :=
              "Revenue Trend Analysis:\n" ++
              "• Total Revenue: $" ++ (sumPoints (first :: rest)).toFixed env 2 ++ "\n" ++
              "• Average Monthly Revenue: $" ++
                ((sumPoints (first :: rest)).div (.fin (first :: rest).length)).toFixed env 2 ++
                "\n" ++
              "• Peak Month: " ++ peak.x ++ " ($" ++ peak.y.toFixed env 2 ++ ")\n" ++
              "• Growth Trend: " ++
                (if rest = [] then "Not enough data"
                else if ((first :: rest).getLast (List.cons_ne_nil _ _)).y.gt first.y then
                  "Upward"
                else "Downward")
            visualizationData := .chart "line" ((first :: rest).map Point.toRow) } := by
  obtain ⟨pre, post, hsplit, hpre, hpost⟩ := peakPoint_spec first rest hnan
  refine ⟨peakPoint first rest, pre, post, hsplit, hpre, ?_, ?_⟩
  · intro p hp
    rw [hsplit] at hp
    rcases List.mem_append.mp hp with hp | hp
    · exact JSNum.gt_asymm (hpre p hp)
    · rcases List.mem_cons.mp hp with rfl | hp
      · exact JSNum.gt_irrefl _
      · exact hpost p hp
  · rw [generateResponse_revenue_trend env data (by rw [hmt]; exact List.cons_ne_nil _ _), hmt]
    simp only [revenueTrendReport, growthTrend_cons, peakPoint_cons_self]

theorem revenue_trend_peak_and_trend_witness :
    ∃ peak pre post,
      [(⟨"Jan 2024", .fin 300⟩ : Point), ⟨"Feb 2024", .fin 100⟩, ⟨"Mar 2024", .fin 300⟩] =
        pre ++ peak :: post ∧
      (∀ p ∈ pre, peak.y.gt p.y = true) ∧
      (∀ p ∈ [(⟨"Jan 2024", .fin 300⟩ : Point), ⟨"Feb 2024", .fin 100⟩, ⟨"Mar 2024", .fin 300⟩],
        p.y.gt peak.y = false) ∧
      generateResponse exampleEnv "revenue_trend"
          [ [("date", .str "2024-01-05"), ("revenue", .str "100")],
            [("date", .str "2024-01-20"), ("revenue", .num (.fin 200))],
            [("date", .str "2024-02-03"), ("revenue", .str "100.00")],
            [("date", .str "2024-03-09"), ("revenue", .str "3e2")] ] =
        .ok
          { response :=
              "Revenue Trend Analysis:\n" ++
              "• Total Revenue: $" ++
                (sumPoints [⟨"Jan 2024", .fin 300⟩, ⟨"Feb 2024", .fin 100⟩,
                  ⟨"Mar 2024", .fin 300⟩]).toFixed exampleEnv 2 ++ "\n" ++
              "• Average Monthly Revenue: $" ++
                ((sumPoints [⟨"Jan 2024", .fin 300⟩, ⟨"Feb 2024", .fin 100⟩,
                  ⟨"Mar 2024", .fin 300⟩]).div
                  (.fin [(⟨"Jan 2024", .fin 300⟩ : Point), ⟨"Feb 2024", .fin 100⟩,
                    ⟨"Mar 2024", .fin 300⟩].length)).toFixed exampleEnv 2 ++
                "\n" ++
              "• Peak Month: " ++ peak.x ++ " ($" ++ peak.y.toFixed exampleEnv 2 ++ ")\n" ++
              "• Growth Trend: " ++
                (if [(⟨"Feb 2024", .fin 100⟩ : Point), ⟨"Mar 2024", .fin 300⟩] = [] then
                  "Not enough data"
                else if ([(⟨"Jan 2024", .fin 300⟩ : Point), ⟨"Feb 2024", .fin 100⟩,
                    ⟨"Mar 2024", .fin 300⟩].getLast (List.cons_ne_nil _ _)).y.gt
                      (JSNum.fin 300) then
                  "Upward"
                else "Downward")
            visualizationData :=
              .chart "line"
                ([(⟨"Jan 2024", .fin 300⟩ : Point), ⟨"Feb 2024", .fin 100⟩,
                  ⟨"Mar 2024", .fin 300⟩].map Point.toRow) } :=
  revenue_trend_peak_and_trend exampleEnv _ ⟨"Jan 2024", .fin 300⟩
    [⟨"Feb 2024", .fin 100⟩, ⟨"Mar 2024", .fin 300⟩] (by decide!) (by decide!)

theorem setProp_nil (k : String) (v : JSNum) : setProp [] k v = [(k, v)] := by
  unfold setProp
  simp only [List.any_nil, Bool.false_eq_true, if_false]
  cases arrayIndex? k <;> rfl

theorem setProp_singleton (k : String) (w v : JSNum) : setProp [(k, w)] k v = [(k, v)] := by
  simp [setProp]

theorem foldl_setProp_single (l : String) (label : Row → String)
    (value : List (String × JSNum) → Row → JSNum) (P : JSNum → Prop)
    (hP : ∀ acc item, P (value acc item)) (data : List Row) (hl : ∀ r ∈ data, label r = l) :
    ∀ w, P w → ∃ v, P v ∧
      data.foldl (fun acc item => setProp acc (label item) (value acc item)) [(l, w)] =
        [(l, v)] := by
  induction data with
  | nil => intro w hw; exact ⟨w, hw, rfl⟩
  | cons r rs ih =>
    intro w _
    simp only [List.foldl_cons, hl r (List.mem_cons_self _ _), setProp_singleton]
    exact ih (fun q hq => hl q (List.mem_cons_of_mem _ hq)) _ (hP _ _)

/-- C10: a non-empty customer-growth result set whose rows all fall in one month yields a
single bucket; `generateResponse` returns (it does not throw), and the growth rate it prints
is the literal `0` of the branch that does not divide, whatever the bucket value is. -/
theorem customer_growth_single_bucket (env : Env) (data : List Row) (l : String)
    (hne : data ≠ []) (hl : ∀ r ∈ data, env.monthLabel (getProp r "date") = l) :
    ∃ v : JSNum, growthData env data = [⟨l, v⟩] ∧
      generateResponse env "customer_growth" data =
        .ok
          { response :=
              "Customer Growth Analysis:\n" ++
              "• Total New Customers: " ++ v.toStr env ++ "\n" ++
              "• Peak Acquisition Month: " ++ l ++ " (" ++ v.toStr env ++ " customers)\n" ++
              "• Growth Rate: " ++ "0" ++ "% over period\n" ++
              "Monthly Breakdown:\n" ++
              ("• " ++ l ++ ": " ++ v.toStr env ++ " customers")
            visualizationData := .chart "line" [[("x", .str l), ("y", .num v)]] } := by
  obtain ⟨r, rs, rfl⟩ := List.exists_cons_of_ne_nil hne
  have hfold : ∃ v, (JSNum.fin 0).add v = v ∧ monthlyGrowth env (r :: rs) = [(l, v)] := by
    unfold monthlyGrowth
    simp only [List.foldl_cons, hl r (List.mem_cons_self _ _), setProp_nil]
    exact foldl_setProp_single l (fun item => env.monthLabel (getProp item "date"))
      (fun acc item => (bucketOrZero acc (env.monthLabel (getProp item "date"))).add
        ((getProp item "new_customers").parseInt env))
      (fun v => (JSNum.fin 0).add v = v) (fun _ _ => JSNum.zero_add_add _ _) rs
      (fun q hq => hl q (List.mem_cons_of_mem _ hq)) _ (JSNum.zero_add_add _ _)
  obtain ⟨v, hv0, hv⟩ := hfold
  have hgd : growthData env (r :: rs) = [⟨l, v⟩] := by
    simp [growthData, hv, entriesToPoints]
  refine ⟨v, hgd, ?_⟩
  have hlen : (r :: rs).length ≠ 0 := by simp
  simp only [generateResponse]
  rw [if_neg hlen, hgd]
  simp only [customerGrowthReport, sumPoints, peakPoint, List.foldl_cons, List.foldl_nil,
    hv0, JSNum.gt_irrefl, Bool.false_eq_true, if_false, growthRate, List.length_singleton,
    gt_iff_lt, lt_self_iff_false, List.map_cons, List.map_nil, joinLines, Point.toRow]
  rfl

theorem customer_growth_single_bucket_witness :
    ∃ v : JSNum,
      growthData exampleEnv
          [ [("date", .str "2024-01-05"), ("new_customers", .str "10")],
            [("date", .str "2024-01-20"), ("new_customers", .num (.fin 5))] ] =
        [⟨"Jan 2024", v⟩] ∧
      generateResponse exampleEnv "customer_growth"
          [ [("date", .str "2024-01-05"), ("new_customers", .str "10")],
            [("date", .str "2024-01-20"), ("new_customers", .num (.fin 5))] ] =
        .ok
          { response :=
              "Customer Growth Analysis:\n" ++
              "• Total New Customers: " ++ v.toStr exampleEnv ++ "\n" ++
              "• Peak Acquisition Month: " ++ "Jan 2024" ++ " (" ++ v.toStr exampleEnv ++
                " customers)\n" ++
              "• Growth Rate: " ++ "0" ++ "% over period\n" ++
              "Monthly Breakdown:\n" ++
              ("• " ++ "Jan 2024" ++ ": " ++ v.toStr exampleEnv ++ " customers")
            visualizationData := .chart "line" [[("x", .str "Jan 2024"), ("y", .num v)]] } :=
  customer_growth_single_bucket exampleEnv _ "Jan 2024" (by simp) (by decide!)

/-! ## Theorems: sums of whole numbers -/

/-- Whole numbers whose sum stays below `2^53` in magnitude are added without rounding. -/
theorem JSNum.add_int (a b : ℤ) (h : |a + b| < 2 ^ 53) :
    (JSNum.fin a).add (.fin b) = .fin ((a : ℚ) + b) := by
  have hm : ((a + b).natAbs : ℤ) < 2 ^ 53 := by rw [Int.natCast_natAbs]; exact h
  have hm' : (a + b).natAbs < 2 ^ 53 := by exact_mod_cast hm
  have hmq : (((a + b).natAbs : ℕ) : ℚ) < 2 ^ 53 := by exact_mod_cast hm
  have hq : |(a : ℚ) + b| = ((a + b).natAbs : ℚ) * 2 ^ (0 : ℤ) := by
    rw [zpow_zero, mul_one, ← Int.cast_add, ← Int.cast_abs, Int.abs_eq_natAbs]
    exact Int.cast_natCast _
  exact JSNum.round64_dyadic (a + b).natAbs 0 hm' (by norm_num)
    (by rw [zpow_zero, mul_one]; exact hmq.trans (by norm_num)) _ hq

theorem foldl_add_int (zs : List ℤ) (a : ℤ) (h : |a| + (zs.map (fun z => |z|)).sum < 2 ^ 53) :
    (zs.map (fun (z : ℤ) => JSNum.fin (z : ℚ))).foldl JSNum.add (.fin (a : ℚ)) =
      .fin ((a : ℚ) + ((zs.sum : ℤ) : ℚ)) := by
  induction zs generalizing a with
  | nil => simp
  | cons z zs ih =>
    simp only [List.map_cons, List.sum_cons, List.foldl_cons] at h ⊢
    have hnn : 0 ≤ (zs.map (fun z => |z|)).sum :=
      List.sum_nonneg (by intro x hx; obtain ⟨y, -, rfl⟩ := List.mem_map.mp hx; exact abs_nonneg y)
    have habs : |a + z| ≤ |a| + |z| := abs_add a z
    rw [JSNum.add_int a z (by omega), ← Int.cast_add, ih (a + z) (by omega)]
    push_cast
    rw [add_assoc]

/-- The Number sum of whole numbers whose magnitudes add up to less than `2^53` is their
sum. -/
theorem numberSum_int (zs : List ℤ) (h : (zs.map (fun z => |z|)).sum < 2 ^ 53) :
    numberSum (zs.map (fun (z : ℤ) => JSNum.fin (z : ℚ))) = .fin ((zs.sum : ℤ) : ℚ) := by
  have := foldl_add_int zs 0 (by simpa using h)
  simpa [numberSum] using this

theorem sum_map_filter_le {α : Type} (p : α → Bool) (g : α → ℤ) (l : List α)
    (hg : ∀ a ∈ l, 0 ≤ g a) : ((l.filter p).map g).sum ≤ (l.map g).sum := by
  induction l with
  | nil => simp
  | cons a l ih =>
    have ha := hg a (List.mem_cons_self _ _)
    have := ih (fun b hb => hg b (List.mem_cons_of_mem _ hb))
    rw [List.filter_cons]
    split_ifs <;> simp only [List.map_cons, List.sum_cons] <;> omega

theorem abs_sum_map_le {α : Type} (f : α → ℤ) (l : List α) :
    |(l.map f).sum| ≤ (l.map (fun a => |f a|)).sum := by
  induction l with
  | nil => simp
  | cons a l ih =>
    simp only [List.map_cons, List.sum_cons]
    exact (abs_add _ _).trans (add_le_add_left ih _)

theorem sum_map_ite_of_nodup (keys : List String) (hnd : keys.Nodup) (l : String) (x : ℤ)
    (hl : l ∈ keys) : (keys.map (fun k => if l = k then x else 0)).sum = x := by
  induction keys with
  | nil => simp at hl
  | cons k ks ih =>
    simp only [List.nodup_cons] at hnd
    simp only [List.map_cons, List.sum_cons]
    rcases List.mem_cons.mp hl with rfl | hl
    · have : (ks.map (fun k => if l = k then x else 0)) = ks.map (fun _ => 0) := by
        apply List.map_congr_left
        intro k hk
        have : l ≠ k := fun h => hnd.1 (h ▸ hk)
        simp [this]
      simp [this]
    · have : l ≠ k := fun h => hnd.1 (h ▸ hl)
      simp [this, ih hnd.2 hl]

/-- Summing month by month and then over the months gives the sum over all rows. -/
theorem sum_by_key (keys : List String) (hnd : keys.Nodup) (label : Row → String)
    (f : Row → ℤ) (rows : List Row) (hcov : ∀ r ∈ rows, label r ∈ keys) :
    (keys.map (fun k => ((rows.filter (fun r => label r = k)).map f).sum)).sum =
      (rows.map f).sum := by
  induction rows with
  | nil => simp
  | cons r rs ih =>
    have hstep : ∀ k, (((r :: rs).filter (fun r => label r = k)).map f).sum =
        (if label r = k then f r else 0) + ((rs.filter (fun r => label r = k)).map f).sum := by
      intro k
      by_cases h : label r = k
      · simp [List.filter_cons, h]
      · simp [List.filter_cons, h]
    simp only [hstep, List.map_cons, List.sum_cons]
    rw [List.sum_map_add, sum_map_ite_of_nodup keys hnd (label r) (f r)
      (hcov r (List.mem_cons_self _ _)), ih (fun q hq => hcov q (List.mem_cons_of_mem _ hq))]

/-! ## Theorems: monthly buckets -/

theorem lookup_eq_none_of_not_mem {β : Type} (bs : List (String × β)) (k : String)
    (h : k ∉ bs.map Prod.fst) : bs.lookup k = none := by
  induction bs with
  | nil => rfl
  | cons b bs ih =>
    obtain ⟨a, q⟩ := b
    simp only [List.map_cons, List.mem_cons, not_or] at h
    have hka : (k == a) = false := by simpa using h.1
    rw [List.lookup_cons, hka]
    exact ih h.2

theorem exists_lookup_of_mem {β : Type} (bs : List (String × β)) (k : String)
    (h : k ∈ bs.map Prod.fst) : ∃ q, bs.lookup k = some q := by
  induction bs with
  | nil => simp at h
  | cons b bs ih =>
    obtain ⟨a, x⟩ := b
    rw [List.lookup_cons]
    cases hka : (k == a)
    · simp only [List.map_cons, List.mem_cons] at h
      rcases h with h | h
      · rw [h] at hka
        simp at hka
      · exact ih h
    · exact ⟨x, rfl⟩

theorem mem_of_lookup_eq_some {β : Type} (bs : List (String × β)) (k : String) (v : β)
    (h : bs.lookup k = some v) : (k, v) ∈ bs := by
  induction bs with
  | nil => simp at h
  | cons b bs ih =>
    obtain ⟨a, x⟩ := b
    rw [List.lookup_cons] at h
    cases hka : (k == a)
    · rw [hka] at h
      exact List.mem_cons_of_mem _ (ih h)
    · rw [hka] at h
      have hk : k = a := by simpa using hka
      cases h
      rw [hk]
      exact List.mem_cons_self _ _

theorem JSNum.round64_ne_nan (q : ℚ) : JSNum.round64 q ≠ .nan := by
  rcases JSNum.round64_cases q with ⟨h, -⟩ | ⟨h, -⟩ | ⟨M, K, y, h, -⟩ <;> rw [h] <;> simp

theorem JSNum.add_fin_ne_nan (x : JSNum) (hx : x ≠ .nan) (q : ℚ) : x.add (.fin q) ≠ .nan := by
  cases x with
  | nan => exact absurd rfl hx
  | posInf => simp [JSNum.add]
  | negInf => simp [JSNum.add]
  | fin a => exact JSNum.round64_ne_nan _

/-- The expression `(acc[month] || 0)` reads the bucket, or `0` when there is none, as long as
no bucket holds `NaN`. -/
theorem bucketOrZero_eq (bs : List (String × JSNum)) (k : String)
    (hnan : ∀ b ∈ bs, b.2 ≠ .nan) : bucketOrZero bs k = (bs.lookup k).getD (.fin 0) := by
  unfold bucketOrZero
  cases h : bs.lookup k with
  | none => rfl
  | some n =>
    have hn : n ≠ .nan := hnan _ (mem_of_lookup_eq_some bs k n h)
    cases n with
    | nan => exact absurd rfl hn
    | posInf => rfl
    | negInf => rfl
    | fin q =>
      simp only [JSNum.truthy, Option.getD_some]
      by_cases hq : q = 0
      · simp [hq]
      · simp [hq]

theorem any_key_eq (bs : List (String × JSNum)) (k : String) :
    bs.any (fun e => e.1 == k) = true ↔ k ∈ bs.map Prod.fst := by
  simp only [List.any_eq_true, List.mem_map, beq_iff_eq]

theorem setProp_eq_addToBucket (bs : List (String × JSNum)) (k : String) (v : JSNum)
    (hk : arrayIndex? k = none) (hnan : ∀ b ∈ bs, b.2 ≠ .nan) :
    setProp bs k ((bucketOrZero bs k).add v) = addToBucket bs k v := by
  rw [bucketOrZero_eq bs k hnan]
  unfold setProp addToBucket
  by_cases h : k ∈ bs.map Prod.fst
  · rw [if_pos ((any_key_eq bs k).mpr h), if_pos h]
    apply List.map_congr_left
    intro b _
    simp only [beq_iff_eq]
  · rw [if_neg (fun hc => h ((any_key_eq bs k).mp hc)), if_neg h, hk,
      lookup_eq_none_of_not_mem bs k h]
    rfl

theorem addToBucket_ne_nan (bs : List (String × JSNum)) (k : String) (q : ℚ)
    (hnan : ∀ b ∈ bs, b.2 ≠ .nan) : ∀ b ∈ addToBucket bs k (.fin q), b.2 ≠ .nan := by
  intro b hb
  unfold addToBucket at hb
  split_ifs at hb with h
  · obtain ⟨c, hc, rfl⟩ := List.mem_map.mp hb
    split_ifs
    · obtain ⟨x, hx⟩ := exists_lookup_of_mem bs k h
      rw [hx]
      exact JSNum.add_fin_ne_nan _ (hnan _ (mem_of_lookup_eq_some bs k x hx)) q
    · exact hnan c hc
  · rcases List.mem_append.mp hb with hb | hb
    · exact hnan b hb
    · rw [List.mem_singleton] at hb
      rw [hb]
      exact JSNum.add_fin_ne_nan (.fin 0) (by simp) q

theorem foldl_setProp_eq_addToBucket (label : Row → String) (value : Row → JSNum)
    (rev : Row → ℚ) (rows : List Row)
    (hrev : ∀ r ∈ rows, value r = .fin (rev r))
    (hkey : ∀ r ∈ rows, arrayIndex? (label r) = none) (bs : List (String × JSNum))
    (hnan : ∀ b ∈ bs, b.2 ≠ .nan) :
    rows.foldl
        (fun acc item =>
          setProp acc (label item) ((bucketOrZero acc (label item)).add (value item)))
        bs =
      rows.foldl (fun bs item => addToBucket bs (label item) (.fin (rev item))) bs := by
  induction rows generalizing bs with
  | nil => rfl
  | cons r rs ih =>
    simp only [List.foldl_cons]
    rw [hrev r (List.mem_cons_self _ _),
      setProp_eq_addToBucket bs _ _ (hkey r (List.mem_cons_self _ _)) hnan]
    exact ih (fun q hq => hrev q (List.mem_cons_of_mem _ hq))
      (fun q hq => hkey q (List.mem_cons_of_mem _ hq)) _ (addToBucket_ne_nan bs _ _ hnan)

theorem keys_addToBucket (bs : List (String × JSNum)) (k : String) (v : JSNum) :
    (addToBucket bs k v).map Prod.fst = addKey (bs.map Prod.fst) k := by
  unfold addToBucket addKey
  by_cases h : k ∈ bs.map Prod.fst
  · rw [if_pos h, if_pos h, List.map_map]
    apply List.map_congr_left
    intro b _
    simp only [Function.comp_apply]
    split_ifs with hb
    · exact hb.symm
    · rfl
  · rw [if_neg h, if_neg h]
    simp

theorem keys_foldl_addToBucket (label : Row → String) (value : Row → JSNum) (rows : List Row)
    (bs : List (String × JSNum)) :
    (rows.foldl (fun bs item => addToBucket bs (label item) (value item)) bs).map Prod.fst =
      (rows.map label).foldl addKey (bs.map Prod.fst) := by
  induction rows generalizing bs with
  | nil => rfl
  | cons r rs ih =>
    simp only [List.foldl_cons, List.map_cons]
    rw [ih, keys_addToBucket]

theorem nodup_addKey (ks : List String) (k : String) (h : ks.Nodup) : (addKey ks k).Nodup := by
  unfold addKey
  split_ifs with hk
  · exact h
  · exact List.Nodup.append h (List.nodup_singleton k) (by simpa using hk)

theorem nodup_foldl_addKey (ls ks : List String) (h : ks.Nodup) :
    (ls.foldl addKey ks).Nodup := by
  induction ls generalizing ks with
  | nil => exact h
  | cons l ls ih => exact ih _ (nodup_addKey ks l h)

theorem mem_addKey (ks : List String) (k l : String) : l ∈ addKey ks k ↔ l ∈ ks ∨ l = k := by
  unfold addKey
  split_ifs with hk
  · constructor
    · exact Or.inl
    · rintro (h | rfl)
      · exact h
      · exact hk
  · simp

theorem mem_foldl_addKey (ls ks : List String) (l : String) :
    l ∈ ls.foldl addKey ks ↔ l ∈ ks ∨ l ∈ ls := by
  induction ls generalizing ks with
  | nil => simp
  | cons a ls ih =>
    simp only [List.foldl_cons, ih, mem_addKey, List.mem_cons]
    tauto

theorem lookup_append_singleton (bs : List (String × JSNum)) (k l : String) (w : JSNum)
    (h : bs.lookup k = none) :
    (bs ++ [(k, w)]).lookup l = if l = k then some w else bs.lookup l := by
  induction bs with
  | nil =>
    by_cases hl : l = k
    · simp [List.lookup_cons, hl]
    · have : (l == k) = false := by simpa using hl
      simp [List.lookup_cons, hl, this]
  | cons b bs ih =>
    obtain ⟨a, x⟩ := b
    rw [List.lookup_cons] at h
    cases hka : (k == a)
    · rw [hka] at h
      rw [List.cons_append, List.lookup_cons, List.lookup_cons]
      cases hla : (l == a)
      · exact ih h
      · have hne : l ≠ k := by
          intro hc
          rw [hc, hka] at hla
          exact absurd hla (by simp)
        simp [hne]
    · rw [hka] at h
      exact absurd h (by simp)

theorem lookup_replace (bs : List (String × JSNum)) (k l : String) (w : JSNum) :
    (bs.map (fun b => if b.1 = k then (k, w) else b)).lookup l =
      if l = k then (bs.lookup k).map (fun _ => w) else bs.lookup l := by
  induction bs with
  | nil => simp
  | cons b bs ih =>
    obtain ⟨a, x⟩ := b
    by_cases hak : a = k
    · subst hak
      by_cases hl : l = a
      · subst hl
        simp [List.lookup_cons]
      · have : (l == a) = false := by simpa using hl
        simp [List.lookup_cons, hl, this, ih]
    · have hka' : (k == a) = false := by simpa using fun h : k = a => hak h.symm
      by_cases hl : l = k
      · subst hl
        simp [List.lookup_cons, hak, hka', ih]
      · cases hla : (l == a) <;> simp [List.lookup_cons, hak, hl, hla, ih]

theorem valueAt_addToBucket (bs : List (String × JSNum)) (k l : String) (v : JSNum) :
    ((addToBucket bs k v).lookup l).getD (.fin 0) =
      if l = k then ((bs.lookup l).getD (.fin 0)).add v else (bs.lookup l).getD (.fin 0) := by
  unfold addToBucket
  by_cases h : k ∈ bs.map Prod.fst
  · rw [if_pos h]
    obtain ⟨q, hq⟩ := exists_lookup_of_mem bs k h
    rw [lookup_replace, hq]
    by_cases hl : l = k
    · subst hl
      simp [hq]
    · simp [hl]
  · rw [if_neg h, lookup_append_singleton bs k l _ (lookup_eq_none_of_not_mem bs k h)]
    by_cases hl : l = k
    · subst hl
      simp [lookup_eq_none_of_not_mem bs l h]
    · simp [hl]

/-- After the rows are bucketed, the bucket of a month holds what it held before plus the
values of the rows of that month, added one after the other in the order of the rows. -/
theorem valueAt_foldl_addToBucket (label : Row → String) (value : Row → JSNum)
    (rows : List Row) (bs : List (String × JSNum)) (l : String) :
    ((rows.foldl (fun bs item => addToBucket bs (label item) (value item)) bs).lookup l).getD
        (.fin 0) =
      ((rows.filter (fun r => label r = l)).map value).foldl JSNum.add
        ((bs.lookup l).getD (.fin 0)) := by
  induction rows generalizing bs with
  | nil => rfl
  | cons r rs ih =>
    rw [List.foldl_cons, ih, valueAt_addToBucket]
    by_cases h : label r = l
    · subst h
      simp [List.filter_cons]
    · have h' : ¬ l = label r := fun hc => h hc.symm
      simp [h, h', List.filter_cons]

theorem lookup_of_mem_of_nodup (bs : List (String × JSNum)) (b : String × JSNum)
    (hnd : (bs.map Prod.fst).Nodup) (hb : b ∈ bs) : bs.lookup b.1 = some b.2 := by
  induction bs with
  | nil => simp at hb
  | cons c bs ih =>
    obtain ⟨a, x⟩ := c
    simp only [List.map_cons, List.nodup_cons] at hnd
    rw [List.lookup_cons]
    rcases List.mem_cons.mp hb with rfl | hb
    · simp
    · have hne : b.1 ≠ a := by
        intro hc
        exact hnd.1 (hc ▸ List.mem_map_of_mem Prod.fst hb)
      have : (b.1 == a) = false := by simpa using hne
      rw [this]
      exact ih hnd.2 hb

theorem pairwise_foldl_addKey (m : String → ℕ) (ls ks done : List String)
    (hks : ∀ k ∈ ks, k ∈ done)
    (hpw : ks.Pairwise (fun a b => m a < m b))
    (hsorted : (done ++ ls).Pairwise (fun a b => m a ≤ m b))
    (hinj : ∀ a ∈ done ++ ls, ∀ b ∈ done ++ ls, m a = m b → a = b) :
    (ls.foldl addKey ks).Pairwise (fun a b => m a < m b) := by
  induction ls generalizing ks done with
  | nil => exact hpw
  | cons l ls ih =>
    have happ : (done ++ [l]) ++ ls = done ++ l :: ls := by simp
    refine ih (addKey ks l) (done ++ [l]) ?_ ?_ (by rw [happ]; exact hsorted)
      (by rw [happ]; exact hinj)
    · intro k hk
      rcases (mem_addKey ks l k).mp hk with hk | rfl
      · exact List.mem_append_left _ (hks k hk)
      · simp
    · unfold addKey
      split_ifs with hl
      · exact hpw
      · rw [List.pairwise_append]
        refine ⟨hpw, List.pairwise_singleton _ _, ?_⟩
        intro a ha b hb
        rw [List.mem_singleton] at hb
        subst hb
        have hle : m a ≤ m b :=
          (List.pairwise_append.mp hsorted).2.2 a (hks a ha) b (List.mem_cons_self _ _)
        have hne : m a ≠ m b := by
          intro hc
          have := hinj a (List.mem_append_left _ (hks a ha)) b
            (List.mem_append_right _ (List.mem_cons_self _ _)) hc
          exact hl (this ▸ ha)
        exact lt_of_le_of_ne hle hne

theorem sumPoints_eq_numberSum (points : List Point) :
    sumPoints points = numberSum (points.map (fun p => p.y)) := by
  rw [sumPoints, numberSum, List.foldl_map]

theorem revenueByMonth_eq (env : Env) (rows : List Row) (rev : Row → ℚ)
    (hrev : ∀ r ∈ rows, (getProp r "revenue").parseFloat env = .fin (rev r))
    (hkey : ∀ r ∈ rows, arrayIndex? (env.monthLabel (getProp r "date")) = none) :
    revenueByMonth env rows =
      rows.foldl
        (fun bs item =>
          addToBucket bs (env.monthLabel (getProp item "date")) (.fin (rev item)))
        [] :=
  foldl_setProp_eq_addToBucket (fun r => env.monthLabel (getProp r "date"))
    (fun r => (getProp r "revenue").parseFloat env) rev rows hrev hkey [] (by simp)

/-- C8: for a revenue-trend result set whose kept rows carry finite revenues (and whose month
labels are not array-index keys), the line series has exactly one point per distinct month
label among the kept rows, each point's `y` is the sum of the revenues of the rows of that
month, and, when the rows are ordered by date (their months never decrease, distinct months
having distinct labels), the points stand in strictly increasing order of month. The narrative
total is the sum of the points, that is of all kept revenues added up month by month, and the
average is that total divided by the number of buckets. The sums and the quotient are those of
Number arithmetic: added from `0` in the order of the rows (of the points), each addition and
the division rounded to binary64. When the revenues are whole numbers whose magnitudes add up
to less than `2^53`, no addition rounds: each `y` is the sum of its month and the total is the
sum of all kept revenues. Two rows of one month summing to 300 and a row of 100 in a later
month give exactly two buckets, total 400.00, average 200.00. -/
theorem revenue_trend_monthly_buckets :
    (∀ (env : Env) (data : List Row) (rev : Row → ℚ),
      validRevenueData data ≠ [] →
      (∀ r ∈ validRevenueData data, (getProp r "revenue").parseFloat env = .fin (rev r)) →
      (∀ r ∈ validRevenueData data,
        arrayIndex? (env.monthLabel (getProp r "date")) = none) →
      ∃ (first : Point) (rest : List Point),
        monthlyTrend env data = first :: rest ∧
        ((first :: rest).map (fun p => p.x)).Nodup ∧
        (∀ l, l ∈ (first :: rest).map (fun p => p.x) ↔
          ∃ r ∈ validRevenueData data, env.monthLabel (getProp r "date") = l) ∧
        (∀ p ∈ first :: rest, p.y =
          numberSum (((validRevenueData data).filter
            (fun r => env.monthLabel (getProp r "date") = p.x)).map
              (fun r => JSNum.fin (rev r)))) ∧
        (∀ monthOf : String → ℕ,
          (∀ r₁ ∈ validRevenueData data, ∀ r₂ ∈ validRevenueData data,
            monthOf (env.monthLabel (getProp r₁ "date")) =
              monthOf (env.monthLabel (getProp r₂ "date")) →
            env.monthLabel (getProp r₁ "date") = env.monthLabel (getProp r₂ "date")) →
          ((validRevenueData data).map
            (fun r => monthOf (env.monthLabel (getProp r "date")))).Pairwise (· ≤ ·) →
          ((first :: rest).map (fun p => monthOf p.x)).Pairwise (· < ·)) ∧
        generateResponse env "revenue_trend" data =
          .ok
            { response :=
                "Revenue Trend Analysis:\n" ++
                "• Total Revenue: $" ++
                  JSNum.toFixed env 2 (numberSum ((first :: rest).map (fun p => p.y))) ++
                  "\n" ++
                "• Average Monthly Revenue: $" ++
                  JSNum.toFixed env 2
                    ((numberSum ((first :: rest).map (fun p => p.y))).div
                      (.fin (first :: rest).length)) ++
                  "\n" ++
                "• Peak Month: " ++ (peakPoint first (first :: rest)).x ++
                  " ($" ++ (peakPoint first (first :: rest)).y.toFixed env 2 ++ ")\n" ++
                "• Growth Trend: " ++ growthTrend first (first :: rest)
              visualizationData := .chart "line" ((first :: rest).map Point.toRow) } ∧
        (∀ amount : Row → ℤ,
          (∀ r ∈ validRevenueData data, rev r = amount r) →
          ((validRevenueData data).map (fun r => |amount r|)).sum < 2 ^ 53 →
          (∀ p ∈ first :: rest, p.y =
            .fin ((((validRevenueData data).filter
              (fun r => env.monthLabel (getProp r "date") = p.x)).map amount).sum : ℤ)) ∧
          numberSum ((first :: rest).map (fun p => p.y)) =
            .fin ((((validRevenueData data).map amount).sum : ℤ) : ℚ))) ∧
    generateResponse exampleEnv "revenue_trend"
        [ [("date", .str "2024-01-05"), ("revenue", .str "120.50")],
          [("date", .str "2024-01-20"), ("revenue", .num (.fin (359 / 2)))],
          [("date", .str "2024-02-03"), ("revenue", .str "100")] ] =
      .ok
        { response :=
            "Revenue Trend Analysis:\n" ++
            "• Total Revenue: $400.00\n" ++
            "• Average Monthly Revenue: $200.00\n" ++
            "• Peak Month: Jan 2024 ($300.00)\n" ++
            "• Growth Trend: Downward"
          visualizationData :=
            .chart "line"
              [ [("x", .str "Jan 2024"), ("y", .num (.fin 300))],
                [("x", .str "Feb 2024"), ("y", .num (.fin 100))] ] } := by
  refine ⟨?_, by decide!⟩
  intro env data rev hne hrev hkey
  have hB := revenueByMonth_eq env (validRevenueData data) rev hrev hkey
  have hkeys := keys_foldl_addToBucket (fun r => env.monthLabel (getProp r "date"))
    (fun r => JSNum.fin (rev r)) (validRevenueData data) []
  have hval := valueAt_foldl_addToBucket (fun r => env.monthLabel (getProp r "date"))
    (fun r => JSNum.fin (rev r)) (validRevenueData data) []
  generalize (validRevenueData data).foldl
    (fun bs item =>
      addToBucket bs (env.monthLabel (getProp item "date")) (.fin (rev item))) [] = B
    at hB hkeys hval
  simp only [List.map_nil, List.lookup_nil, Option.getD_none] at hkeys hval
  have hmem : ∀ l, l ∈ B.map Prod.fst ↔
      ∃ r ∈ validRevenueData data, env.monthLabel (getProp r "date") = l := by
    intro l
    rw [hkeys, mem_foldl_addKey]
    simp
  have hnd : (B.map Prod.fst).Nodup := by
    rw [hkeys]
    exact nodup_foldl_addKey _ _ List.nodup_nil
  have hmt : monthlyTrend env data = entriesToPoints B := by
    rw [monthlyTrend, hB]
  have hxs : (entriesToPoints B).map (fun p => p.x) = B.map Prod.fst := by
    rw [entriesToPoints, List.map_map]
    rfl
  obtain ⟨first, rest, hfr⟩ : ∃ first rest, entriesToPoints B = first :: rest := by
    obtain ⟨r, rs, hr⟩ := List.exists_cons_of_ne_nil hne
    have : env.monthLabel (getProp r "date") ∈ B.map Prod.fst :=
      (hmem _).mpr ⟨r, by rw [hr]; exact List.mem_cons_self _ _, rfl⟩
    cases B with
    | nil => simp at this
    | cons b bs => exact ⟨_, _, rfl⟩
  rw [hfr] at hmt hxs
  have hy : ∀ p ∈ first :: rest, p.y =
      numberSum (((validRevenueData data).filter
        (fun r => env.monthLabel (getProp r "date") = p.x)).map
          (fun r => JSNum.fin (rev r))) := by
    intro p hp
    rw [← hfr] at hp
    obtain ⟨b, hb, rfl⟩ := List.mem_map.mp hp
    have := hval b.1
    rw [lookup_of_mem_of_nodup _ b hnd hb] at this
    exact this
  refine ⟨first, rest, hmt, by rw [hxs]; exact hnd, by rw [hxs]; exact hmem, hy, ?_, ?_, ?_⟩
  · intro monthOf hinj hsorted
    have hk : (B.map Prod.fst).Pairwise (fun x y => monthOf x < monthOf y) := by
      rw [hkeys]
      apply pairwise_foldl_addKey monthOf _ [] [] (by simp) List.Pairwise.nil
      · rw [List.nil_append, List.pairwise_map]
        rw [List.pairwise_map] at hsorted
        exact hsorted
      · intro x hx y hy hxy
        simp only [List.nil_append, List.mem_map] at hx hy
        obtain ⟨r₁, hr₁, rfl⟩ := hx
        obtain ⟨r₂, hr₂, rfl⟩ := hy
        exact hinj r₁ hr₁ r₂ hr₂ hxy
    rw [← hxs, List.pairwise_map] at hk
    rw [List.pairwise_map]
    exact hk
  · rw [generateResponse_revenue_trend env data (by rw [hmt]; simp), hmt]
    simp only [revenueTrendReport, sumPoints_eq_numberSum]
  · intro amount hamount hbound
    have hnn : ∀ r ∈ validRevenueData data, 0 ≤ |amount r| := fun r _ => abs_nonneg _
    have hyint : ∀ p ∈ first :: rest, p.y =
        .fin ((((validRevenueData data).filter
          (fun r => env.monthLabel (getProp r "date") = p.x)).map amount).sum : ℤ) := by
      intro p hp
      rw [hy p hp]
      have hmap : ((validRevenueData data).filter
            (fun r => env.monthLabel (getProp r "date") = p.x)).map
              (fun r => JSNum.fin (rev r)) =
          (((validRevenueData data).filter
            (fun r => env.monthLabel (getProp r "date") = p.x)).map amount).map
              (fun (z : ℤ) => JSNum.fin (z : ℚ)) := by
        rw [List.map_map]
        apply List.map_congr_left
        intro r hr
        simp only [Function.comp_apply, hamount r (List.mem_of_mem_filter hr)]
      rw [hmap]
      apply numberSum_int
      rw [List.map_map]
      exact lt_of_le_of_lt (sum_map_filter_le _ (fun r => |amount r|) _ hnn) hbound
    refine ⟨hyint, ?_⟩
    have hcov : ∀ r ∈ validRevenueData data,
        env.monthLabel (getProp r "date") ∈ (first :: rest).map (fun p => p.x) := by
      intro r hr
      rw [hxs]
      exact (hmem _).mpr ⟨r, hr, rfl⟩
    have hndx : ((first :: rest).map (fun p => p.x)).Nodup := by rw [hxs]; exact hnd
    have hys : (first :: rest).map (fun p => p.y) =
        (((first :: rest).map (fun p => p.x)).map (fun k =>
          (((validRevenueData data).filter
            (fun r => env.monthLabel (getProp r "date") = k)).map amount).sum)).map
              (fun (z : ℤ) => JSNum.fin (z : ℚ)) := by
      rw [List.map_map, List.map_map]
      apply List.map_congr_left
      intro p hp
      exact hyint p hp
    rw [hys, numberSum_int, sum_by_key _ hndx _ amount _ hcov]
    rw [List.map_map]
    refine lt_of_le_of_lt ?_ hbound
    rw [← sum_by_key _ hndx (fun r => env.monthLabel (getProp r "date"))
      (fun r => |amount r|) _ hcov]
    apply List.sum_le_sum
    intro k _
    simp only [Function.comp_apply]
    exact abs_sum_map_le _ _

/-- Three rows in two months; a tenth added to two tenths in one month, where the month holds
the binary64 sum, which is not three tenths; and a hundredth and two hundredths in two months,
where the average is the binary64 quotient, printed as 0.01. -/
theorem revenue_trend_monthly_buckets_witness :
    (∃ (first : Point) (rest : List Point),
      monthlyTrend exampleEnv
          [ [("date", .str "2024-03-05"), ("revenue", .str "12.5")],
            [("date", .str "2024-03-20"), ("revenue", .num (.fin 0))],
            [("date", .str "2024-04-03"), ("revenue", .num (.fin 7))],
            [("date", .str "2024-04-04"), ("revenue", .str "n/a")] ] =
        first :: rest ∧
      ((first :: rest).map (fun p => p.x)).Nodup ∧
      ((first :: rest).map (fun p => exampleMonthIndex p.x)).Pairwise (· < ·)) ∧
    monthlyTrend exampleEnv
        [ [("date", .str "2024-01-05"), ("revenue", .str "0.1")],
          [("date", .str "2024-01-20"), ("revenue", .str "0.2")] ] =
      [⟨"Jan 2024", .fin (1351079888211149 / 4503599627370496)⟩] ∧
    (generateResponse exampleEnv "revenue_trend"
        [ [("date", .str "2024-01-05"), ("revenue", .str "0.01")],
          [("date", .str "2024-02-05"), ("revenue", .str "0.02")] ]).map
          (fun r => r.response) =
      .ok ("Revenue Trend Analysis:\n" ++ "• Total Revenue: $0.03\n" ++
        "• Average Monthly Revenue: $0.01\n" ++ "• Peak Month: Feb 2024 ($0.02)\n" ++
        "• Growth Trend: Upward") := by
  refine ⟨?_, by decide!, by decide!⟩
  obtain ⟨first, rest, h₁, h₂, -, -, h₅, -⟩ :=
    revenue_trend_monthly_buckets.1 exampleEnv
      [ [("date", .str "2024-03-05"), ("revenue", .str "12.5")],
        [("date", .str "2024-03-20"), ("revenue", .num (.fin 0))],
        [("date", .str "2024-04-03"), ("revenue", .num (.fin 7))],
        [("date", .str "2024-04-04"), ("revenue", .str "n/a")] ]
      (fun r => match (getProp r "revenue").parseFloat exampleEnv with
        | .fin q => q
        | _ => 0)
      (by decide!) (by decide!) (by decide!)
  exact ⟨first, rest, h₁, h₂, h₅ exampleMonthIndex (by decide!) (by decide!)⟩

/-! ## Theorems: chart kinds -/

/-- C16: for every schema `generateSQL` declares the chart kind `bar` for category comparison
and customer spending, `line` for revenue trend and customer growth, `pie` for product
popularity and order status, `table` for data quality, for `general` and for every intent
string it does not recognise; the declared kind is always one of bar, line, pie, table. -/
theorem generateSQL_chart_kind (schema : Schema) :
    (∃ plan, generateSQL "category_comparison" schema = .ok plan ∧ plan.visualization = "bar") ∧
    (∃ plan, generateSQL "customer_spending" schema = .ok plan ∧ plan.visualization = "bar") ∧
    (∃ plan, generateSQL "revenue_trend" schema = .ok plan ∧ plan.visualization = "line") ∧
    (∃ plan, generateSQL "customer_growth" schema = .ok plan ∧ plan.visualization = "line") ∧
    (∃ plan, generateSQL "product_popularity" schema = .ok plan ∧ plan.visualization = "pie") ∧
    (∃ plan, generateSQL "order_status" schema = .ok plan ∧ plan.visualization = "pie") ∧
    (∃ plan, generateSQL "data_quality" schema = .ok plan ∧ plan.visualization = "table") ∧
    (∃ plan, generateSQL "general" schema = .ok plan ∧ plan.visualization = "table") ∧
    (∀ questionType, questionType ∉ intents →
      ∃ plan, generateSQL questionType schema = .ok plan ∧ plan.visualization = "table") ∧
    (∀ questionType, ∃ plan, generateSQL questionType schema = .ok plan ∧
      plan.visualization ∈ ["bar", "line", "pie", "table"]) := by
  refine ⟨⟨_, rfl, rfl⟩, ⟨_, rfl, rfl⟩, ⟨_, rfl, rfl⟩, ⟨_, rfl, rfl⟩, ⟨_, rfl, rfl⟩, ⟨_, rfl, rfl⟩,
    ⟨_, rfl, rfl⟩, ⟨_, rfl, rfl⟩, ?_, ?_⟩
  · intro questionType hq
    simp only [intents, List.mem_cons, List.mem_singleton, List.not_mem_nil, or_false,
      not_or] at hq
    obtain ⟨h1, h2, h3, h4, h5, h6, h7, -⟩ := hq
    unfold generateSQL
    split <;> first | contradiction | exact ⟨_, rfl, rfl⟩
  · intro questionType
    unfold generateSQL
    split <;> exact ⟨_, rfl, by simp⟩

/-! ## Theorems: the `general` report -/

theorem JSNum.toStr_natCast (env : Env) (n : ℕ) (h : n ≤ 2 ^ 53) :
    (JSNum.fin (n : ℚ)).toStr env = toString n := by
  have hc : ((n : ℚ)).den = 1 ∧ ((n : ℚ)).num.natAbs ≤ 2 ^ 53 := ⟨by simp, by simpa using h⟩
  simp only [JSNum.toStr]
  rw [if_pos hc]
  simp only [Rat.num_natCast]
  rfl

/-- C15: for every result set (an array, so of fewer than `2^32` rows) the `general` report
returns a narrative that states the number of rows and a table payload whose columns are the
keys of the first row (none when there are no rows) and whose `i`-th data row is the list of
the values of the `i`-th input row; the payload has exactly as many data rows as the input. -/
theorem generateResponse_general (env : Env) (data : List Row) (hlen : data.length < 2 ^ 32) :
    generateResponse env "general" data =
      .ok
        { response :=
            "Here are the first " ++ toString data.length ++ " records from the database."
          visualizationData :=
            .table ((data.head?.map (fun first => first.map Prod.fst)).getD [])
              (data.map (fun item => item.map Prod.snd)) } ∧
    (data.map (fun item => item.map Prod.snd)).length = data.length ∧
    ∀ i (h : i < data.length),
      (data.map (fun item => item.map Prod.snd))[i]? = some ((data.get ⟨i, h⟩).map Prod.snd) := by
  refine ⟨?_, by simp, ?_⟩
  · simp only [generateResponse]
    rw [JSNum.toStr_natCast env data.length (hlen.le.trans (by norm_num))]
    cases data <;> rfl
  · intro i h
    simp [h]

theorem generateResponse_general_witness :
    generateResponse exampleEnv "general"
        [ [("id", .num (.fin 1)), ("col1", .str "Ada")],
          [("id", .num (.fin 2)), ("col1", .null)] ] =
      .ok
        { response := "Here are the first 2 records from the database."
          visualizationData :=
            .table ["id", "col1"] [[.num (.fin 1), .str "Ada"], [.num (.fin 2), .null]] } :=
  (generateResponse_general exampleEnv
    [ [("id", .num (.fin 1)), ("col1", .str "Ada")],
      [("id", .num (.fin 2)), ("col1", .null)] ] (by decide)).1

/-! ## Theorems: table lookup -/

theorem readsTable_append_right {s t : String} (u : String) (h : ReadsTable s t) :
    ReadsTable (s ++ u) t := by
  obtain ⟨pre, post, h | h⟩ := h
  · exact ⟨pre, post ++ u, Or.inl (by rw [h]; simp only [String.append_assoc])⟩
  · exact ⟨pre, post ++ u, Or.inr (by rw [h]; simp only [String.append_assoc])⟩

theorem readsTable_from (x t : String) : ReadsTable (x ++ "              FROM " ++ t) t :=
  ⟨x ++ "              ", "", Or.inl (by
    simp only [String.append_assoc, String.append_empty]
    rw [← String.append_assoc "              " "FROM " t]
    rfl)⟩

theorem readsTable_join (x t : String) : ReadsTable (x ++ "              JOIN " ++ t) t :=
  ⟨x ++ "              ", "", Or.inr (by
    simp only [String.append_assoc, String.append_empty]
    rw [← String.append_assoc "              " "JOIN " t]
    rfl)⟩

theorem readsTable_select (t : String) : ReadsTable ("SELECT * FROM " ++ t) t :=
  ⟨"SELECT * ", "", Or.inl (by
    simp only [String.append_assoc, String.append_empty]
    rw [← String.append_assoc "SELECT * " "FROM " t]
    rfl)⟩

theorem findTable_eq_some_of_first (schema : Schema) (keyword : String) (pre post : List String)
    (t : String) (hkeys : objectKeys schema = pre ++ t :: post)
    (hpre : ∀ u ∈ pre, includes (toLowerCase u) keyword = false)
    (ht : includes (toLowerCase t) keyword = true) : findTable schema keyword = some t := by
  unfold findTable
  rw [hkeys]
  clear hkeys
  induction pre with
  | nil => simp [List.find?, ht]
  | cons u pre ih =>
    have hu := hpre u (List.mem_cons_self _ _)
    simp only [List.cons_append, List.find?, hu]
    exact ih (fun v hv => hpre v (List.mem_cons_of_mem _ hv))

/-- C19: the table identifier `generateSQL` uses for a role is the first table name, in the key
order of the schema, whose lower-cased form contains the keyword of the role ("ordr", "prdct",
"cust", "metric"): when `t` is that name (no earlier key matches), the lookup of the role
yields `t` and nothing else, and the SQL of every intent that requires the role reads
`FROM t` or `JOIN t` with `t` in its original spelling. -/
theorem generateSQL_table_identifier (questionType : String) (schema : Schema) (role : Role)
    (pre post : List String) (t : String)
    (hreq : role ∈ requiredRoles questionType)
    (hkeys : objectKeys schema = pre ++ t :: post)
    (hpre : ∀ u ∈ pre, includes (toLowerCase u) role.keyword = false)
    (ht : includes (toLowerCase t) role.keyword = true) :
    findTable schema role.keyword = some t ∧
    ∃ plan, generateSQL questionType schema = .ok plan ∧ ReadsTable plan.sql t := by
  have hfind := findTable_eq_some_of_first schema role.keyword pre post t hkeys hpre ht
  refine ⟨hfind, ?_⟩
  revert hreq hfind
  unfold generateSQL requiredRoles
  split <;> intro hrole hfind <;> refine ⟨_, rfl, ?_⟩ <;>
    simp only [List.mem_cons, List.mem_singleton, List.not_mem_nil, or_false] at hrole <;>
    rcases hrole with rfl | rfl <;>
    simp only [Role.keyword] at hfind <;>
    simp only [hfind, tableRef] <;>
    repeat (first
      | with_reducible exact readsTable_from _ _
      | with_reducible exact readsTable_join _ _
      | with_reducible exact readsTable_select _
      | with_reducible apply readsTable_append_right)

theorem generateSQL_table_identifier_witness :
    findTable [("Cust_Info", []), ("ORDRS_2024", []), ("ordrs", [])] Role.orders.keyword =
      some "ORDRS_2024" ∧
    ∃ plan,
      generateSQL "customer_spending" [("Cust_Info", []), ("ORDRS_2024", []), ("ordrs", [])] =
        .ok plan ∧
      ReadsTable plan.sql "ORDRS_2024" :=
  generateSQL_table_identifier "customer_spending"
    [("Cust_Info", []), ("ORDRS_2024", []), ("ordrs", [])] .orders ["Cust_Info"] ["ordrs"]
    "ORDRS_2024" (by decide) (by decide) (by decide) (by decide)

/-! ## Theorems: an absent category -/

theorem categoryLine_none (env : Env) (name : String) :
    categoryLine env name none = .ok ("• " ++ name ++ ": $0.00 from 0 orders (avg $0.00)\n") := by
  simp only [categoryLine, toFixedOpt, getPropOpt, bind, Except.bind, pure, Except.pure,
    JSVal.or, JSVal.truthy, Bool.false_eq_true, if_false, JSVal.toStr, String.append_assoc]
  rfl

theorem categoryLine_of_numbers (env : Env) (name : String) (row : Option Row)
    (h : ∀ r, row = some r →
      ∃ t a, getProp r "total_sales" = .num t ∧ getProp r "avg_order_value" = .num a) :
    ∃ line, categoryLine env name row = .ok line := by
  cases row with
  | none => exact ⟨_, categoryLine_none env name⟩
  | some r =>
    obtain ⟨t, a, ht, ha⟩ := h r rfl
    exact categoryLine_some env name r t a ht ha

theorem comparisonText_none_left (env : Env) (furniture : Option Row) :
    comparisonText env none furniture = "" := by
  cases furniture <;> rfl

theorem comparisonText_none_right (env : Env) (electronics : Option Row) :
    comparisonText env electronics none = "" := by
  cases electronics <;> rfl

/-- C20: for a non-empty category-comparison result set (whose rows carry Numbers as totals
and averages) that lacks an Electronics row, or lacks a Furniture row, `generateResponse`
returns, and the narrative line of the absent category reads
`$0.00 from 0 orders (avg $0.00)`; no comparison sentence follows. -/
theorem category_comparison_absent_row (env : Env) (data : List Row) (hne : data ≠ [])
    (hnum : ∀ r ∈ data, ∃ t a,
      getProp r "total_sales" = .num t ∧ getProp r "avg_order_value" = .num a) :
    (data.find? (fun d => (getProp d "category").strictEquals (.str "Electronics")) = none →
      ∃ furnitureLine,
        generateResponse env "category_comparison" data =
          .ok
            { response :=
                "Category comparison analysis:\n" ++
                "• Electronics: $0.00 from 0 orders (avg $0.00)\n" ++ furnitureLine
              visualizationData :=
                .chart "bar"
                  (data.map (fun item =>
                    [ ("x", getProp item "category"), ("y", getProp item "total_sales"),
                      ("orderCount", getProp item "order_count"),
                      ("avgValue", getProp item "avg_order_value") ])) }) ∧
    (data.find? (fun d => (getProp d "category").strictEquals (.str "Furniture")) = none →
      ∃ electronicsLine,
        generateResponse env "category_comparison" data =
          .ok
            { response :=
                "Category comparison analysis:\n" ++ electronicsLine ++
                "• Furniture: $0.00 from 0 orders (avg $0.00)\n"
              visualizationData :=
                .chart "bar"
                  (data.map (fun item =>
                    [ ("x", getProp item "category"), ("y", getProp item "total_sales"),
                      ("orderCount", getProp item "order_count"),
                      ("avgValue", getProp item "avg_order_value") ])) }) := by
  have hrow : ∀ (p : Row → Bool) (r : Row), data.find? p = some r →
      ∃ t a, getProp r "total_sales" = .num t ∧ getProp r "avg_order_value" = .num a :=
    fun p r h => hnum r (List.mem_of_find?_eq_some h)
  constructor
  · intro he
    obtain ⟨l₂, h₂⟩ := categoryLine_of_numbers env "Furniture"
      (data.find? (fun d => (getProp d "category").strictEquals (.str "Furniture")))
      (fun r hr => hrow _ r hr)
    refine ⟨l₂, ?_⟩
    rw [generateResponse_category_comparison env data hne]
    simp only [he, h₂, categoryLine_none, comparisonText_none_left, bind, Except.bind, pure,
      Except.pure, String.append_empty]
    rfl
  · intro hf
    obtain ⟨l₁, h₁⟩ := categoryLine_of_numbers env "Electronics"
      (data.find? (fun d => (getProp d "category").strictEquals (.str "Electronics")))
      (fun r hr => hrow _ r hr)
    refine ⟨l₁, ?_⟩
    rw [generateResponse_category_comparison env data hne]
    simp only [hf, h₁, categoryLine_none, comparisonText_none_right, bind, Except.bind, pure,
      Except.pure, String.append_empty]
    rfl

theorem category_comparison_absent_row_witness :
    (∃ furnitureLine,
      generateResponse exampleEnv "category_comparison"
          [ [ ("category", .str "Furniture"), ("total_sales", .num (.fin 100)),
              ("order_count", .num (.fin 2)), ("avg_order_value", .num (.fin 50)) ] ] =
        .ok
          { response :=
              "Category comparison analysis:\n" ++
              "• Electronics: $0.00 from 0 orders (avg $0.00)\n" ++ furnitureLine
            visualizationData :=
              .chart "bar"
                (([ [ ("category", .str "Furniture"), ("total_sales", .num (.fin 100)),
                      ("order_count", .num (.fin 2)), ("avg_order_value", .num (.fin 50)) ] ] :
                    List Row).map (fun item =>
                  [ ("x", getProp item "category"), ("y", getProp item "total_sales"),
                    ("orderCount", getProp item "order_count"),
                    ("avgValue", getProp item "avg_order_value") ])) }) ∧
    generateResponse exampleEnv "category_comparison"
        [ [ ("category", .str "Furniture"), ("total_sales", .num (.fin 100)),
            ("order_count", .num (.fin 2)), ("avg_order_value", .num (.fin 50)) ] ] =
      .ok
        { response :=
            "Category comparison analysis:\n" ++
            "• Electronics: $0.00 from 0 orders (avg $0.00)\n" ++
            "• Furniture: $100.00 from 2 orders (avg $50.00)\n"
          visualizationData :=
            .chart "bar"
              [ [ ("x", .str "Furniture"), ("y", .num (.fin 100)),
                  ("orderCount", .num (.fin 2)), ("avgValue", .num (.fin 50)) ] ] } :=
  ⟨(category_comparison_absent_row exampleEnv
      [ [ ("category", .str "Furniture"), ("total_sales", .num (.fin 100)),
          ("order_count", .num (.fin 2)), ("avg_order_value", .num (.fin 50)) ] ]
      (by simp)
      (by
        intro r hr
        rw [List.mem_singleton] at hr
        subst hr
        exact ⟨.fin 100, .fin 50, by decide!, by decide!⟩)).1 (by decide!),
    by decide!⟩

/-! ## Theorems: customer spending -/

theorem foldl_add_field_of_numbers (env : Env) (field : String) (value : Row → JSNum)
    (data : List Row) (h : ∀ r ∈ data, getProp r field = .num (value r)) (q : JSNum) :
    data.foldl (fun (sum : JSVal) item => sum.add env (getProp item field)) (.num q) =
      .num ((data.map value).foldl JSNum.add q) := by
  induction data generalizing q with
  | nil => rfl
  | cons r rs ih =>
    simp only [List.foldl_cons, List.map_cons, h r (List.mem_cons_self _ _)]
    rw [show (JSVal.num q).add env (.num (value r)) = .num (q.add (value r)) from rfl,
      ih (fun x hx => h x (List.mem_cons_of_mem _ hx))]

theorem sumField_of_numbers (env : Env) (field : String) (value : Row → JSNum) (data : List Row)
    (h : ∀ r ∈ data, getProp r field = .num (value r)) :
    sumField env field data = .num (numberSum (data.map value)) := by
  rw [sumField, foldl_add_field_of_numbers env field value data h, numberSum]

theorem mapM_eq_ok_map {α β : Type} (f : α → Except JSError β) (g : α → β) (l : List α)
    (h : ∀ a ∈ l, f a = .ok (g a)) : l.mapM f = .ok (l.map g) := by
  induction l with
  | nil => rfl
  | cons a l ih =>
    rw [List.mapM_cons, h a (List.mem_cons_self _ _),
      ih (fun b hb => h b (List.mem_cons_of_mem _ hb))]
    rfl

/-- C13: for a non-empty customer-spending result set of `n` rows (with Numbers as
`total_spent`) the narrative lists and the bar chart shows exactly the first `min 5 n` rows in
their input order, with points `x = customer_name`, `y = total_spent`; the total printed is
the sum of `total_spent` over all `n` rows and the average printed is that total divided by
`n`. The sum and the quotient are those of Number arithmetic: the rows are added from `0` in
their order, each addition and the division rounded to binary64. When the amounts are whole
numbers whose magnitudes add up to less than `2^53`, no addition rounds and the total is their
sum. -/
theorem customer_spending_report (env : Env) (data : List Row) (spent : Row → JSNum)
    (hne : data ≠ [])
    (hspent : ∀ r ∈ data, getProp r "total_spent" = .num (spent r)) :
    generateResponse env "customer_spending" data =
      .ok
        { response :=
            "Customer Spending Analysis:\n" ++
            "• Total across all customers: $" ++
              JSNum.toFixed env 2 (numberSum (data.map spent)) ++ "\n" ++
            "• Average customer spend: $" ++
              JSNum.toFixed env 2 ((numberSum (data.map spent)).div (.fin data.length)) ++
              "\n" ++
            "Top 5 Customers:\n" ++
            joinLines ((data.take 5).map (fun c =>
              "• " ++ (getProp c "customer_name").toStr env ++ ": $" ++
                JSNum.toFixed env 2 (spent c) ++ " (" ++
                (getProp c "order_count").toStr env ++ " orders)"))
          visualizationData :=
            .chart "bar"
              ((data.take 5).map (fun item =>
                [ ("x", getProp item "customer_name"), ("y", getProp item "total_spent"),
                  ("orders", getProp item "order_count") ])) } ∧
    (data.take 5).length = min 5 data.length ∧
    (∀ amount : Row → ℤ, (∀ r ∈ data, spent r = .fin (amount r)) →
      (data.map (fun r => |amount r|)).sum < 2 ^ 53 →
      numberSum (data.map spent) = .fin (((data.map amount).sum : ℤ) : ℚ)) := by
  refine ⟨?_, by simp, ?_⟩
  swap
  · intro amount hamount hbound
    have hmap : data.map spent = (data.map amount).map (fun (z : ℤ) => JSNum.fin (z : ℚ)) := by
      rw [List.map_map]
      apply List.map_congr_left
      intro r hr
      simp only [Function.comp_apply, hamount r hr]
    rw [hmap]
    apply numberSum_int
    rw [List.map_map]
    exact hbound
  have hlen : data.length ≠ 0 := by simpa using hne
  have hlines : (data.take 5).mapM (fun c => do
        let spent ← (getProp c "total_spent").toFixed env 2
        pure ("• " ++ (getProp c "customer_name").toStr env ++ ": $" ++ spent ++ " (" ++
          (getProp c "order_count").toStr env ++ " orders)")) =
      .ok ((data.take 5).map (fun c =>
        "• " ++ (getProp c "customer_name").toStr env ++ ": $" ++
          JSNum.toFixed env 2 (spent c) ++ " (" ++
          (getProp c "order_count").toStr env ++ " orders)")) := by
    apply mapM_eq_ok_map
    intro c hc
    rw [hspent c (List.mem_of_mem_take hc)]
    rfl
  simp only [generateResponse]
  rw [if_neg hlen, sumField_of_numbers env "total_spent" spent data hspent, hlines]
  simp only [JSVal.toFixed, JSVal.toNumber, bind, Except.bind, pure, Except.pure]

theorem customer_spending_report_witness :
    generateResponse exampleEnv "customer_spending" exampleSpenders =
      .ok
        { response :=
            "Customer Spending Analysis:\n" ++
            "• Total across all customers: $2100.50\n" ++
            "• Average customer spend: $350.08\n" ++
            "Top 5 Customers:\n" ++
            "• Ada: $600.00 (6 orders)\n" ++
            "• Bob: $500.00 (5 orders)\n" ++
            "• Cy: $400.00 (4 orders)\n" ++
            "• Di: $300.00 (3 orders)\n" ++
            "• Ed: $200.00 (2 orders)"
          visualizationData :=
            .chart "bar"
              [ [("x", .str "Ada"), ("y", .num (.fin 600)), ("orders", .str "6")],
                [("x", .str "Bob"), ("y", .num (.fin 500)), ("orders", .str "5")],
                [("x", .str "Cy"), ("y", .num (.fin 400)), ("orders", .str "4")],
                [("x", .str "Di"), ("y", .num (.fin 300)), ("orders", .str "3")],
                [("x", .str "Ed"), ("y", .num (.fin 200)), ("orders", .str "2")] ] } ∧
    (generateResponse exampleEnv "customer_spending"
        [ [ ("customer_name", .str "Ada"), ("total_spent", .num (.fin 9007199254740992)),
            ("order_count", .num (.fin 2)) ],
          [ ("customer_name", .str "Bob"), ("total_spent", .num (.fin 1)),
            ("order_count", .num (.fin 1)) ] ]).map (fun r => r.response) =
      .ok ("Customer Spending Analysis:\n" ++
        "• Total across all customers: $9007199254740992.00\n" ++
        "• Average customer spend: $4503599627370496.00\n" ++
        "Top 5 Customers:\n" ++
        "• Ada: $9007199254740992.00 (2 orders)\n" ++
        "• Bob: $1.00 (1 orders)") :=
  ⟨(customer_spending_report exampleEnv exampleSpenders (numberField "total_spent")
    (by decide) (by decide!)).1.trans (by decide!), by decide!⟩

/-! ## Theorems: product popularity -/

/-- C14 (as stated, refuted): for two products of revenue 2 and 9 the shares printed are 18.2%
and 81.8%; the unrounded shares, the Numbers `2 / 11 * 100` and `9 / 11 * 100`, add up to more
than 100, as rationals and as a Number sum, although the total is positive, no revenue is
negative and there are fewer than five rows. -/
theorem product_popularity_shares_exceed :
    (generateResponse exampleEnv "product_popularity" exampleShares).map (fun r => r.response) =
        .ok ("Product Popularity Analysis:\n" ++ "• Total Revenue: $11.00\n" ++
          "Top Products by Market Share:\n" ++ "• Lamp (Furniture): 18.2%\n" ++
          "• Phone (Electronics): 81.8%") ∧
      (∃ s₁ s₂ : ℚ, ((JSNum.fin 2).div (.fin 11)).mul (.fin 100) = .fin s₁ ∧
        ((JSNum.fin 9).div (.fin 11)).mul (.fin 100) = .fin s₂ ∧ 100 < s₁ + s₂ ∧
        (JSNum.fin s₁).add (.fin s₂) = .fin (7036874417766401 / 70368744177664)) := by
  refine ⟨by decide!, 5117726849284655 / 281474976710656, 5757442705445237 / 70368744177664,
    by decide!, by decide!, by norm_num, by decide!⟩

/-- C14 (amended): for a non-empty product-popularity result set (with Numbers as
`revenue_generated`) the share printed for each of the first five rows is `toFixed(1)` of that
row's revenue divided by the sum of the revenues of all rows, times 100, and the total printed
is `toFixed(2)` of that sum. The sum, the quotient and the product are those of Number
arithmetic, each operation rounded to binary64. -/
theorem product_popularity_shares (env : Env) (data : List Row) (rev : Row → JSNum)
    (hne : data ≠ [])
    (hrev : ∀ r ∈ data, getProp r "revenue_generated" = .num (rev r)) :
    generateResponse env "product_popularity" data =
      .ok
        { response :=
            "Product Popularity Analysis:\n" ++
            "• Total Revenue: $" ++ JSNum.toFixed env 2 (numberSum (data.map rev)) ++ "\n" ++
            "Top Products by Market Share:\n" ++
            joinLines ((data.take 5).map (fun p =>
              "• " ++ ((getProp p "product").toStr env ++ " (" ++
                (getProp p "category").toStr env ++ ")") ++ ": " ++
                JSNum.toFixed env 1
                  (((rev p).div (numberSum (data.map rev))).mul (.fin 100)) ++ "%"))
          visualizationData :=
            .chart "pie"
              ((data.take 5).map (fun item =>
                [ ("x", .str ((getProp item "product").toStr env ++ " (" ++
                    (getProp item "category").toStr env ++ ")")),
                  ("y", getProp item "times_ordered"),
                  ("revenue", getProp item "revenue_generated") ])) } ∧
    (data.take 5).length = min 5 data.length := by
  refine ⟨?_, by simp⟩
  have hlen : data.length ≠ 0 := by simpa using hne
  simp only [generateResponse]
  rw [if_neg hlen, sumField_of_numbers env "revenue_generated" rev data hrev]
  simp only [JSVal.toFixed, bind, Except.bind, pure, Except.pure, List.map_map]
  congr 4
  apply List.map_congr_left
  intro p hp
  simp only [Function.comp_apply, JSVal.div, JSVal.toNumber,
    hrev p (List.mem_of_mem_take hp)]

theorem product_popularity_shares_witness :
    generateResponse exampleEnv "product_popularity" exampleProducts =
      .ok
        { response :=
            "Product Popularity Analysis:\n" ++
            "• Total Revenue: $80.00\n" ++
            "Top Products by Market Share:\n" ++
            "• Laptop (Electronics): 71.3%\n" ++
            "• Desk (Furniture): 28.7%"
          visualizationData :=
            .chart "pie"
              [ [ ("x", .str "Laptop (Electronics)"), ("y", .str "3"),
                  ("revenue", .num (.fin 57)) ],
                [ ("x", .str "Desk (Furniture)"), ("y", .str "1"),
                  ("revenue", .num (.fin 23)) ] ] } :=
  (product_popularity_shares exampleEnv exampleProducts (numberField "revenue_generated")
    (by decide) (by decide!)).1.trans (by decide!)

/-! ## Theorems: where the code departs from the specification -/

set_option maxRecDepth 8000 in
/-- C11 (code evaluated at the failing input): for the two rows of the specification's example
the total printed is `NaN`, not 7, because the second row has no `missing_names` and the sum
adds `undefined`; the three order-side counts are guarded by `|| 0`, the three customer-side
counts are not. With the customer-side counts present (as 0) in the second row the total
printed is 7. -/
theorem data_quality_total_example (env : Env) :
    generateResponse env "data_quality"
        [ [ ("missing_names", .num (.fin 2)), ("invalid_emails", .num (.fin 1)),
            ("invalid_dates", .num (.fin 0)) ],
          [ ("missing_customer_ids", .num (.fin 1)), ("invalid_amounts", .num (.fin 0)),
            ("invalid_statuses", .num (.fin 3)) ] ] =
      .ok
        { response :=
            "Data Quality Report:\n" ++
            "• Total Issues Found: NaN\n" ++
            "• undefined:\n" ++
            "  - Missing Names: 2\n" ++
            "  - Invalid Emails: 1\n" ++
            "  - Invalid Dates: 0\n" ++
            "• undefined:\n" ++
            "  - Missing Names: undefined\n" ++
            "  - Invalid Emails: undefined\n" ++
            "  - Invalid Dates: undefined\n" ++
            "  - Missing Customer IDs: 1\n" ++
            "  - Invalid Statuses: 3"
          visualizationData :=
            .table ["Metric", "Customers", "Orders"]
              [ [.str "Missing Data", .num (.fin 2), .num (.fin 1)],
                [.str "Invalid Data", .num (.fin 1), .num (.fin 3)] ] } ∧
    ∃ viz,
      generateResponse env "data_quality"
          [ [ ("missing_names", .num (.fin 2)), ("invalid_emails", .num (.fin 1)),
              ("invalid_dates", .num (.fin 0)) ],
            [ ("missing_names", .num (.fin 0)), ("invalid_emails", .num (.fin 0)),
              ("invalid_dates", .num (.fin 0)), ("missing_customer_ids", .num (.fin 1)),
              ("invalid_amounts", .num (.fin 0)), ("invalid_statuses", .num (.fin 3)) ] ] =
        .ok
          { response :=
              "Data Quality Report:\n" ++
              "• Total Issues Found: 7\n" ++
              "• undefined:\n" ++
              "  - Missing Names: 2\n" ++
              "  - Invalid Emails: 1\n" ++
              "  - Invalid Dates: 0\n" ++
              "• undefined:\n" ++
              "  - Missing Names: 0\n" ++
              "  - Invalid Emails: 0\n" ++
              "  - Invalid Dates: 0\n" ++
              "  - Missing Customer IDs: 1\n" ++
              "  - Invalid Statuses: 3"
            visualizationData := viz } :=
  ⟨by with_unfolding_all rfl, ⟨_, by with_unfolding_all rfl⟩⟩

/-- C17 (code evaluated at the failing input): a row whose revenue is the Number `0` is
dropped by the filter `item.revenue && !isNaN(item.revenue)`, because `0` is falsy, while the
same revenue as the text "0" is kept: a January of revenue `0` followed by a February of 100
gives one bucket with the Number and two buckets with the text. -/
theorem revenue_trend_zero_revenue :
    validRevenueData [[("date", .str "2024-01-05"), ("revenue", .num (.fin 0))]] = [] ∧
    validRevenueData [[("date", .str "2024-01-05"), ("revenue", .str "0")]] =
      [[("date", .str "2024-01-05"), ("revenue", .str "0")]] ∧
    generateResponse exampleEnv "revenue_trend"
        [ [("date", .str "2024-01-05"), ("revenue", .num (.fin 0))],
          [("date", .str "2024-02-05"), ("revenue", .num (.fin 100))] ] =
      .ok
        { response :=
            "Revenue Trend Analysis:\n" ++
            "• Total Revenue: $100.00\n" ++
            "• Average Monthly Revenue: $100.00\n" ++
            "• Peak Month: Feb 2024 ($100.00)\n" ++
            "• Growth Trend: Not enough data"
          visualizationData :=
            .chart "line" [[("x", .str "Feb 2024"), ("y", .num (.fin 100))]] } ∧
    generateResponse exampleEnv "revenue_trend"
        [ [("date", .str "2024-01-05"), ("revenue", .str "0")],
          [("date", .str "2024-02-05"), ("revenue", .num (.fin 100))] ] =
      .ok
        { response :=
            "Revenue Trend Analysis:\n" ++
            "• Total Revenue: $100.00\n" ++
            "• Average Monthly Revenue: $50.00\n" ++
            "• Peak Month: Feb 2024 ($100.00)\n" ++
            "• Growth Trend: Upward"
          visualizationData :=
            .chart "line"
              [ [("x", .str "Jan 2024"), ("y", .num (.fin 0))],
                [("x", .str "Feb 2024"), ("y", .num (.fin 100))] ] } := by
  decide!

/-- C18 (code evaluated at the failing input): customer growth has no filter, so a row whose
`new_customers` does not parse enters the sum as `NaN`. As the last row of its month it makes
the bucket, the total and the peak `NaN`; followed by another row of the month it wipes what
the bucket held before (`NaN || 0`), so 10, "abc", 5 are reported as 5, where the result set
without that row gives 15. -/
theorem customer_growth_unparseable_row :
    generateResponse exampleEnv "customer_growth"
        [ [("date", .str "2024-01-05"), ("new_customers", .str "10")],
          [("date", .str "2024-01-20"), ("new_customers", .str "abc")] ] =
      .ok
        { response :=
            "Customer Growth Analysis:\n" ++
            "• Total New Customers: NaN\n" ++
            "• Peak Acquisition Month: Jan 2024 (NaN customers)\n" ++
            "• Growth Rate: 0% over period\n" ++
            "Monthly Breakdown:\n" ++
            "• Jan 2024: NaN customers"
          visualizationData := .chart "line" [[("x", .str "Jan 2024"), ("y", .num .nan)]] } ∧
    generateResponse exampleEnv "customer_growth"
        [ [("date", .str "2024-01-05"), ("new_customers", .str "10")],
          [("date", .str "2024-01-20"), ("new_customers", .str "abc")],
          [("date", .str "2024-01-25"), ("new_customers", .str "5")] ] =
      .ok
        { response :=
            "Customer Growth Analysis:\n" ++
            "• Total New Customers: 5\n" ++
            "• Peak Acquisition Month: Jan 2024 (5 customers)\n" ++
            "• Growth Rate: 0% over period\n" ++
            "Monthly Breakdown:\n" ++
            "• Jan 2024: 5 customers"
          visualizationData :=
            .chart "line" [[("x", .str "Jan 2024"), ("y", .num (.fin 5))]] } ∧
    generateResponse exampleEnv "customer_growth"
        [ [("date", .str "2024-01-05"), ("new_customers", .str "10")],
          [("date", .str "2024-01-25"), ("new_customers", .str "5")] ] =
      .ok
        { response :=
            "Customer Growth Analysis:\n" ++
            "• Total New Customers: 15\n" ++
            "• Peak Acquisition Month: Jan 2024 (15 customers)\n" ++
            "• Growth Rate: 0% over period\n" ++
            "Monthly Breakdown:\n" ++
            "• Jan 2024: 15 customers"
          visualizationData :=
            .chart "line" [[("x", .str "Jan 2024"), ("y", .num (.fin 15))]] } := by
  decide!

/-! ## Theorems: dollar and percentage figures of the narrative -/

theorem renderPieces_cons (env : Env) (p : Piece) (ps : List Piece) :
    renderPieces env (p :: ps) = p.render env ++ renderPieces env ps := rfl

theorem renderPieces_nil (env : Env) : renderPieces env [] = "" := rfl

theorem renderPieces_append (env : Env) (ps qs : List Piece) :
    renderPieces env (ps ++ qs) = renderPieces env ps ++ renderPieces env qs := by
  induction ps with
  | nil => simp [renderPieces_nil]
  | cons p ps ih => simp only [List.cons_append, renderPieces_cons, ih, String.append_assoc]

theorem JSVal.toFixed_eq_asNumber (env : Env) (f : Nat) (v : JSVal) :
    v.toFixed env f = v.asNumber.map (JSNum.toFixed env f) := by
  cases v <;> rfl

theorem revenueTrendReport_pieces (env : Env) (monthlyTrend : List Point) :
    (revenueTrendReport env monthlyTrend).map (fun r => r.response) =
      (revenueTrendPieces monthlyTrend).map (renderPieces env) := by
  cases monthlyTrend with
  | nil => rfl
  | cons first rest =>
    have e₁ : "• Total Revenue: $" = "• Total Revenue: " ++ "$" := rfl
    have e₂ : "• Average Monthly Revenue: $" = "• Average Monthly Revenue: " ++ "$" := rfl
    have e₃ : " ($" = " (" ++ "$" := rfl
    simp only [revenueTrendReport, revenueTrendPieces, Except.map, renderPieces_cons,
      renderPieces_nil, Piece.render, e₁, e₂, e₃, String.append_assoc, String.append_empty]

theorem intercalate_go_eq (s acc : String) (as : List String) :
    String.intercalate.go acc s as = acc ++ (as.foldr (fun a r => s ++ a ++ r) "") := by
  induction as generalizing acc with
  | nil => simp [String.intercalate.go]
  | cons a as ih =>
    simp only [String.intercalate.go, ih, List.foldr_cons, String.append_assoc]

theorem joinLines_cons_cons (a b : String) (rest : List String) :
    joinLines (a :: b :: rest) = a ++ "\n" ++ joinLines (b :: rest) := by
  simp only [joinLines, String.intercalate, intercalate_go_eq, List.foldr_cons,
    String.append_assoc]

theorem joinLines_singleton (a : String) : joinLines [a] = a := rfl

theorem joinLines_nil : joinLines [] = "" := rfl

theorem renderPieces_joinPieces (env : Env) (lines : List (List Piece)) :
    renderPieces env (joinPieces lines) = joinLines (lines.map (renderPieces env)) := by
  induction lines with
  | nil => rfl
  | cons l ls ih =>
    cases ls with
    | nil => rfl
    | cons m ms =>
      have hj : joinPieces (l :: m :: ms) = l ++ .text "\n" :: joinPieces (m :: ms) := rfl
      rw [hj, renderPieces_append, renderPieces_cons, ih]
      simp only [List.map_cons, joinLines_cons_cons, Piece.render, String.append_assoc]

theorem mapM_map_ok {α β γ : Type} (f : α → Except JSError β) (g : β → γ) (l : List α) :
    l.mapM (fun a => (f a).map g) = (l.mapM f).map (List.map g) := by
  induction l with
  | nil => rfl
  | cons a l ih =>
    rw [List.mapM_cons, List.mapM_cons, ih]
    cases f a with
    | error e => rfl
    | ok b =>
      cases l.mapM f with
      | error e => rfl
      | ok bs => rfl

theorem digitChar_isDigit : ∀ m < 10, (Nat.digitChar m).isDigit = true := by decide

theorem toDigitsCore_isDigit (fuel n : ℕ) (ds : List Char)
    (h : ∀ c ∈ ds, c.isDigit = true) : ∀ c ∈ Nat.toDigitsCore 10 fuel n ds, c.isDigit = true := by
  induction fuel generalizing n ds with
  | zero => simpa [Nat.toDigitsCore] using h
  | succ fuel ih =>
    have hd : ∀ c ∈ Nat.digitChar (n % 10) :: ds, c.isDigit = true := by
      intro c hc
      rcases List.mem_cons.mp hc with rfl | hc
      · exact digitChar_isDigit _ (Nat.mod_lt _ (by norm_num))
      · exact h c hc
    simp only [Nat.toDigitsCore]
    split_ifs
    · exact hd
    · exact ih _ _ hd

theorem toDigitsCore_ne_nil (fuel n : ℕ) (ds : List Char) (h : ds ≠ []) :
    Nat.toDigitsCore 10 fuel n ds ≠ [] := by
  induction fuel generalizing n ds with
  | zero => simpa [Nat.toDigitsCore] using h
  | succ fuel ih =>
    simp only [Nat.toDigitsCore]
    split_ifs
    · exact List.cons_ne_nil _ _
    · exact ih _ _ (List.cons_ne_nil _ _)

theorem toString_nat_isDigit (n : ℕ) : ∀ c ∈ (toString n).data, c.isDigit = true :=
  toDigitsCore_isDigit (n + 1) n [] (by simp)

theorem toString_nat_ne_nil (n : ℕ) : (toString n).data ≠ [] := by
  show Nat.toDigitsCore 10 (n + 1) n [] ≠ []
  simp only [Nat.toDigitsCore]
  split_ifs
  · exact List.cons_ne_nil _ _
  · exact toDigitsCore_ne_nil _ _ _ (List.cons_ne_nil _ _)

theorem ne_empty_of_data_ne_nil {s : String} (h : s.data ≠ []) : s ≠ "" := by
  rintro rfl
  exact h rfl

theorem append_ne_empty_right (s t : String) (h : t ≠ "") : s ++ t ≠ "" := by
  intro hc
  have hl := congrArg String.length hc
  rw [String.length_append] at hl
  have ht : t.length = 0 := by
    have : ("" : String).length = 0 := rfl
    omega
  apply h
  apply String.ext
  exact List.length_eq_zero.mp ht

theorem append_ne_empty_left (s t : String) (h : s ≠ "") : s ++ t ≠ "" := by
  intro hc
  have hl := congrArg String.length hc
  rw [String.length_append] at hl
  have ht : s.length = 0 := by
    have : ("" : String).length = 0 := rfl
    omega
  apply h
  apply String.ext
  exact List.length_eq_zero.mp ht

theorem toString_int_ne_empty (z : ℤ) : toString z ≠ "" := by
  cases z with
  | ofNat m => exact ne_empty_of_data_ne_nil (toString_nat_ne_nil m)
  | negSucc m =>
    exact append_ne_empty_right "-" _ (ne_empty_of_data_ne_nil (toString_nat_ne_nil _))

theorem JSNum.toStr_ne_empty (env : Env) (henv : ∀ q, env.numberToString q ≠ "") (n : JSNum) :
    n.toStr env ≠ "" := by
  cases n with
  | nan => exact ne_empty_of_data_ne_nil (List.cons_ne_nil _ _)
  | posInf => exact ne_empty_of_data_ne_nil (List.cons_ne_nil _ _)
  | negInf => exact ne_empty_of_data_ne_nil (List.cons_ne_nil _ _)
  | fin q =>
    simp only [JSNum.toStr]
    split_ifs
    · exact toString_int_ne_empty _
    · exact henv q

theorem JSNum.toFixed_fin (env : Env) (f : ℕ) (q : ℚ) :
    (JSNum.fin q).toFixed env f =
      if 10 ^ 21 ≤ |q| then (if q < 0 then "-" else "") ++ JSNum.toStr env (.fin |q|)
      else if f = 0 then
        (if q < 0 then "-" else "") ++
          toString ((2 * |q|.num.natAbs * 10 ^ f + |q|.den) / (2 * |q|.den))
      else
        (if q < 0 then "-" else "") ++
          String.mk ((JSNum.padZeros (f + 1)
            (toString ((2 * |q|.num.natAbs * 10 ^ f + |q|.den) / (2 * |q|.den)))).data.take
              ((JSNum.padZeros (f + 1)
                (toString ((2 * |q|.num.natAbs * 10 ^ f + |q|.den) / (2 * |q|.den)))).length - f))
          ++ "." ++
          String.mk ((JSNum.padZeros (f + 1)
            (toString ((2 * |q|.num.natAbs * 10 ^ f + |q|.den) / (2 * |q|.den)))).data.drop
              ((JSNum.padZeros (f + 1)
                (toString ((2 * |q|.num.natAbs * 10 ^ f + |q|.den) / (2 * |q|.den)))).length - f)) :=
  rfl

theorem JSNum.toFixed_ne_empty (env : Env) (henv : ∀ q, env.numberToString q ≠ "") (f : ℕ)
    (hf : f ≠ 0) (n : JSNum) : n.toFixed env f ≠ "" := by
  cases n with
  | nan => exact JSNum.toStr_ne_empty env henv .nan
  | posInf => exact JSNum.toStr_ne_empty env henv .posInf
  | negInf => exact JSNum.toStr_ne_empty env henv .negInf
  | fin q =>
    rw [JSNum.toFixed_fin, if_neg hf]
    split_ifs
    · exact append_ne_empty_right _ _ (JSNum.toStr_ne_empty env henv _)
    · exact append_ne_empty_right _ _ (JSNum.toStr_ne_empty env henv _)
    · rw [String.append_assoc]
      exact append_ne_empty_right _ _
        (append_ne_empty_left _ _ (ne_empty_of_data_ne_nil (List.cons_ne_nil _ _)))
    · rw [String.append_assoc]
      exact append_ne_empty_right _ _
        (append_ne_empty_left _ _ (ne_empty_of_data_ne_nil (List.cons_ne_nil _ _)))

theorem padZeros_data (n : ℕ) (s : String) :
    (JSNum.padZeros n s).data = List.replicate (n - s.length) '0' ++ s.data := by
  simp [JSNum.padZeros]

theorem padZeros_length (n : ℕ) (s : String) : n ≤ (JSNum.padZeros n s).length := by
  have h : (JSNum.padZeros n s).length = (n - s.length) + s.length := by
    show (JSNum.padZeros n s).data.length = (n - s.length) + s.length
    rw [padZeros_data, List.length_append, List.length_replicate]
    rfl
  omega

theorem padZeros_isDigit (n : ℕ) (s : String) (h : ∀ c ∈ s.data, c.isDigit = true) :
    ∀ c ∈ (JSNum.padZeros n s).data, c.isDigit = true := by
  intro c hc
  rw [padZeros_data] at hc
  rcases List.mem_append.mp hc with hc | hc
  · rw [(List.mem_replicate.mp hc).2]
    decide
  · exact h c hc

/-- Below `10^21` in magnitude, `toFixed(f)` with `f > 0` prints an optional minus sign, at
least one digit, a point and exactly `f` digits. -/
theorem JSNum.toFixed_fixedDigits (env : Env) (f : ℕ) (hf : f ≠ 0) (q : ℚ)
    (hq : |q| < 10 ^ 21) : FixedDigits f ((JSNum.fin q).toFixed env f) := by
  rw [JSNum.toFixed_fin, if_neg (not_le.mpr hq), if_neg hf]
  generalize hm : JSNum.padZeros (f + 1)
    (toString ((2 * |q|.num.natAbs * 10 ^ f + |q|.den) / (2 * |q|.den))) = m
  have hlen : f + 1 ≤ m.data.length := by
    rw [← hm]
    exact padZeros_length _ _
  have hdig : ∀ c ∈ m.data, c.isDigit = true := by
    rw [← hm]
    exact padZeros_isDigit _ _ (toString_nat_isDigit _)
  have hl : m.length = m.data.length := rfl
  refine ⟨if q < 0 then "-" else "", m.data.take (m.length - f), m.data.drop (m.length - f),
    rfl, ?_, ?_, ?_, ?_, ?_⟩
  · split_ifs
    · exact Or.inr rfl
    · exact Or.inl rfl
  · intro h
    have := congrArg List.length h
    rw [List.length_take, hl] at this
    simp only [List.length_nil] at this
    omega
  · intro c hc
    exact hdig c (List.mem_of_mem_take hc)
  · rw [List.length_drop, hl]
    omega
  · intro c hc
    exact hdig c (List.mem_of_mem_drop hc)

theorem JSNum.toFixed_two_zero (env : Env) : (JSNum.fin 0).toFixed env 2 = "0.00" := by
  with_unfolding_all rfl

theorem or_toFixed_text (env : Env) (henv : ∀ q, env.numberToString q ≠ "") (n : JSNum) :
    ((JSVal.str (n.toFixed env 2)).or (.str "0.00")).toStr env = n.toFixed env 2 := by
  have h : (JSVal.str (n.toFixed env 2)).truthy = true := by
    simp only [JSVal.truthy, bne_iff_ne, ne_eq]
    exact JSNum.toFixed_ne_empty env henv 2 (by decide) n
  simp only [JSVal.or, h, if_true, JSVal.toStr]

theorem toFixedOpt_figure (env : Env) (henv : ∀ q, env.numberToString q ≠ "") (row : Option Row)
    (k : String) :
    (toFixedOpt env row k 2).map (fun t => (t.or (.str "0.00")).toStr env) =
      (figureOpt row k).map (JSNum.toFixed env 2) := by
  cases row with
  | none =>
    show Except.ok "0.00" = Except.ok ((JSNum.fin 0).toFixed env 2)
    rw [JSNum.toFixed_two_zero]
  | some r =>
    simp only [toFixedOpt, figureOpt]
    cases getProp r k with
    | num n =>
      show Except.ok (((JSVal.str (n.toFixed env 2)).or (.str "0.00")).toStr env) = _
      rw [or_toFixed_text env henv]
      rfl
    | undefined => rfl
    | null => rfl
    | bool b => rfl
    | str s => rfl

theorem categoryLine_pieces (env : Env) (henv : ∀ q, env.numberToString q ≠ "") (name : String)
    (row : Option Row) :
    categoryLine env name row = (categoryLinePieces env name row).map (renderPieces env) := by
  have h₁ := toFixedOpt_figure env henv row "total_sales"
  have h₂ := toFixedOpt_figure env henv row "avg_order_value"
  have e₁ : ": $" = ": " ++ "$" := rfl
  have e₂ : " orders (avg $" = " orders (avg " ++ "$" := rfl
  unfold categoryLine categoryLinePieces
  cases ht : toFixedOpt env row "total_sales" 2 with
  | error e =>
    rw [ht] at h₁
    cases hf : figureOpt row "total_sales" with
    | error e2 =>
      rw [hf] at h₁
      cases e; cases e2; rfl
    | ok n => rw [hf] at h₁; cases h₁
  | ok t =>
    rw [ht] at h₁
    cases hf : figureOpt row "total_sales" with
    | error e2 => rw [hf] at h₁; cases h₁
    | ok n =>
      rw [hf] at h₁
      cases ha : toFixedOpt env row "avg_order_value" 2 with
      | error e =>
        rw [ha] at h₂
        cases hg : figureOpt row "avg_order_value" with
        | error e2 =>
          rw [hg] at h₂
          cases e; cases e2; rfl
        | ok n => rw [hg] at h₂; cases h₂
      | ok a =>
        rw [ha] at h₂
        cases hg : figureOpt row "avg_order_value" with
        | error e2 => rw [hg] at h₂; cases h₂
        | ok m =>
          rw [hg] at h₂
          have h₁ : (t.or (.str "0.00")).toStr env = n.toFixed env 2 := Except.ok.inj h₁
          have h₂ : (a.or (.str "0.00")).toStr env = m.toFixed env 2 := Except.ok.inj h₂
          show Except.ok _ = Except.ok _
          simp only [h₁, h₂, renderPieces_cons, renderPieces_nil, Piece.render, e₁, e₂,
            String.append_assoc, String.append_empty]

theorem comparisonText_pieces (env : Env) (electronics furniture : Option Row) :
    comparisonText env electronics furniture =
      renderPieces env (comparisonPieces electronics furniture) := by
  have e₁ : " by $" = " by " ++ "$" := rfl
  have e₂ : "%) compared to Furniture." = "%" ++ ") compared to Furniture." := rfl
  cases electronics with
  | none => rfl
  | some e =>
    cases furniture with
    | none => rfl
    | some f =>
      simp only [comparisonText, comparisonPieces, renderPieces_cons, renderPieces_nil,
        Piece.render, e₁, e₂, String.append_assoc, String.append_empty]

theorem customerGrowthReport_pieces (env : Env) (growthData : List Point) :
    (customerGrowthReport env growthData).map (fun r => r.response) =
      (customerGrowthPieces env growthData).map (renderPieces env) := by
  cases growthData with
  | nil => rfl
  | cons first rest =>
    have e₁ : "% over period\n" = "%" ++ " over period\n" := rfl
    have e₂ : (JSNum.fin 0).toStr env = "0" := by with_unfolding_all rfl
    have e₃ : "0%" = "0" ++ "%" := rfl
    simp only [customerGrowthReport, customerGrowthPieces, growthRate, Except.map]
    split_ifs
    · simp only [renderPieces_cons, renderPieces_nil, renderPieces_append, Piece.render, e₁,
        List.singleton_append, List.cons_append, List.nil_append,
        String.append_assoc, String.append_empty]
    · simp only [renderPieces_cons, renderPieces_nil, renderPieces_append, Piece.render, e₁, e₂,
        e₃, List.singleton_append, List.cons_append, List.nil_append,
        String.append_assoc, String.append_empty]

theorem customer_spending_pieces (env : Env) (data : List Row) :
    (generateResponse env "customer_spending" data).map (fun r => r.response) =
      (narrativePieces env "customer_spending" data).map (renderPieces env) := by
  have e₁ : "• Total across all customers: $" = "• Total across all customers: " ++ "$" := rfl
  have e₂ : "• Average customer spend: $" = "• Average customer spend: " ++ "$" := rfl
  have e₃ : ": $" = ": " ++ "$" := rfl
  have hfun : (fun (c : Row) => (do
        let spent ← (getProp c "total_spent").toFixed env 2
        pure ("• " ++ (getProp c "customer_name").toStr env ++ ": $" ++ spent ++ " (" ++
          (getProp c "order_count").toStr env ++ " orders)") : Except JSError String)) =
      fun c => (spenderLinePieces env c).map (renderPieces env) := by
    funext c
    rw [JSVal.toFixed_eq_asNumber]
    unfold spenderLinePieces
    cases (getProp c "total_spent").asNumber with
    | error e => rfl
    | ok n =>
      show Except.ok _ = Except.ok _
      simp only [renderPieces_cons, renderPieces_nil, Piece.render, e₃, String.append_assoc,
        String.append_empty]
  simp only [generateResponse, narrativePieces]
  split_ifs
  · rfl
  · rw [hfun, mapM_map_ok, JSVal.toFixed_eq_asNumber]
    cases (sumField env "total_spent" data).asNumber with
    | error e => rfl
    | ok n =>
      cases (data.take 5).mapM (spenderLinePieces env) with
      | error e => rfl
      | ok ls =>
        show Except.ok _ = Except.ok _
        simp only [renderPieces_cons, renderPieces_nil, renderPieces_append,
          renderPieces_joinPieces, Piece.render, e₁, e₂, List.cons_append, List.nil_append,
          String.append_assoc, String.append_empty]

theorem order_status_pieces (env : Env) (data : List Row) :
    (generateResponse env "order_status" data).map (fun r => r.response) =
      (narrativePieces env "order_status" data).map (renderPieces env) := by
  have e₁ : "%) - $" = "%" ++ (") - " ++ "$") := rfl
  have hfun : (fun (s : Row) => (do
        let amount ← (getProp s "total_amount").toFixed env 2
        pure ("• " ++ (getProp s "status").toStr env ++ ": " ++ (getProp s "count").toStr env ++
          " (" ++ (((getProp s "count").div (sumField env "count" data)).mul
            (.fin 100)).toFixed env 1 ++ "%) - $" ++ amount) : Except JSError String)) =
      fun s => (statusLinePieces env (sumField env "count" data) s).map (renderPieces env) := by
    funext s
    rw [JSVal.toFixed_eq_asNumber]
    unfold statusLinePieces
    cases (getProp s "total_amount").asNumber with
    | error e => rfl
    | ok n =>
      show Except.ok _ = Except.ok _
      simp only [renderPieces_cons, renderPieces_nil, Piece.render, e₁, String.append_assoc,
        String.append_empty]
  simp only [generateResponse, narrativePieces]
  split_ifs
  · rfl
  · rw [hfun, mapM_map_ok]
    cases data.mapM (statusLinePieces env (sumField env "count" data)) with
    | error e => rfl
    | ok ls =>
      show Except.ok _ = Except.ok _
      simp only [renderPieces_cons, renderPieces_nil, renderPieces_append,
        renderPieces_joinPieces, Piece.render, List.cons_append, List.nil_append,
        String.append_assoc, String.append_empty]

theorem product_popularity_pieces (env : Env) (data : List Row) :
    (generateResponse env "product_popularity" data).map (fun r => r.response) =
      (narrativePieces env "product_popularity" data).map (renderPieces env) := by
  have e₁ : "• Total Revenue: $" = "• Total Revenue: " ++ "$" := rfl
  simp only [generateResponse, narrativePieces]
  split_ifs
  · rfl
  · rw [JSVal.toFixed_eq_asNumber]
    cases (sumField env "revenue_generated" data).asNumber with
    | error e => rfl
    | ok n =>
      show Except.ok _ = Except.ok _
      simp only [renderPieces_cons, renderPieces_nil, renderPieces_append,
        renderPieces_joinPieces, Piece.render, e₁, List.cons_append, List.nil_append,
        List.map_map, Function.comp_def, String.append_assoc, String.append_empty]

theorem category_comparison_pieces (env : Env) (henv : ∀ q, env.numberToString q ≠ "")
    (data : List Row) :
    (generateResponse env "category_comparison" data).map (fun r => r.response) =
      (narrativePieces env "category_comparison" data).map (renderPieces env) := by
  simp only [generateResponse, narrativePieces]
  split_ifs
  · rfl
  · rw [categoryLine_pieces env henv, categoryLine_pieces env henv, comparisonText_pieces]
    cases categoryLinePieces env "Electronics"
      (data.find? (fun d => (getProp d "category").strictEquals (.str "Electronics"))) with
    | error e => rfl
    | ok l₁ =>
      cases categoryLinePieces env "Furniture"
        (data.find? (fun d => (getProp d "category").strictEquals (.str "Furniture"))) with
      | error e => rfl
      | ok l₂ =>
        show Except.ok _ = Except.ok _
        simp only [renderPieces_cons, renderPieces_append, Piece.render, String.append_assoc]

theorem revenue_trend_pieces (env : Env) (data : List Row) :
    (generateResponse env "revenue_trend" data).map (fun r => r.response) =
      (narrativePieces env "revenue_trend" data).map (renderPieces env) := by
  simp only [generateResponse, narrativePieces]
  split_ifs
  · rfl
  · exact revenueTrendReport_pieces env _

theorem customer_growth_pieces (env : Env) (data : List Row) :
    (generateResponse env "customer_growth" data).map (fun r => r.response) =
      (narrativePieces env "customer_growth" data).map (renderPieces env) := by
  simp only [generateResponse, narrativePieces]
  split_ifs
  · rfl
  · exact customerGrowthReport_pieces env _

/-- The narrative of `generateResponse` is the rendering of its pieces, for every intent. -/
theorem generateResponse_pieces (env : Env) (henv : ∀ q, env.numberToString q ≠ "")
    (questionType : String) (data : List Row) :
    (generateResponse env questionType data).map (fun r => r.response) =
      (narrativePieces env questionType data).map (renderPieces env) := by
  by_cases h₁ : questionType = "category_comparison"
  · subst h₁; exact category_comparison_pieces env henv data
  by_cases h₂ : questionType = "revenue_trend"
  · subst h₂; exact revenue_trend_pieces env data
  by_cases h₃ : questionType = "customer_spending"
  · subst h₃; exact customer_spending_pieces env data
  by_cases h₄ : questionType = "product_popularity"
  · subst h₄; exact product_popularity_pieces env data
  by_cases h₅ : questionType = "order_status"
  · subst h₅; exact order_status_pieces env data
  by_cases h₆ : questionType = "customer_growth"
  · subst h₆; exact customer_growth_pieces env data
  have hn : narrativePieces env questionType data =
      (generateResponse env questionType data).map (fun r => [.text r.response]) := by
    unfold narrativePieces
    split <;> first | contradiction | rfl
  rw [hn]
  cases generateResponse env questionType data with
  | error e => rfl
  | ok r =>
    show Except.ok _ = Except.ok _
    simp only [renderPieces_cons, renderPieces_nil, Piece.render, String.append_empty]

theorem exampleEnv_numberToString_ne_empty (q : ℚ) : exampleEnv.numberToString q ≠ "" := by
  show (if q < 0 then "-" else "") ++ toString (q.num.natAbs * 10 ^ 20 / q.den / 10 ^ 20) ++ _ ≠ ""
  exact append_ne_empty_left _ _
    (append_ne_empty_right _ _ (ne_empty_of_data_ne_nil (toString_nat_ne_nil _)))

/-- C12 (amended): for every intent and every result set, in an environment whose Number
printing never yields the empty text, the narrative of `generateResponse` is the rendering of
`narrativePieces`: plain text, dollar figures printed as `$` followed by the `toFixed(2)` text
of a Number, and percentage figures printed as the `toFixed(1)` text of a Number followed by
`%`. A dollar figure whose Number is finite and below `10^21` in magnitude shows exactly two
digits after the point, and such a percentage figure exactly one. The growth rate of a
customer-growth report with a single bucket is no such figure: it is the plain text `0%`. -/
theorem narrative_figures (env : Env) (henv : ∀ q, env.numberToString q ≠ "")
    (questionType : String) (data : List Row) :
    (generateResponse env questionType data).map (fun r => r.response) =
        (narrativePieces env questionType data).map (renderPieces env) ∧
      (∀ ps, narrativePieces env questionType data = .ok ps → ∀ p ∈ ps, ∀ q : ℚ, |q| < 10 ^ 21 →
        (p = .dollars (.fin q) → ∃ s, p.render env = "$" ++ s ∧ FixedDigits 2 s) ∧
        (p = .percent (.fin q) → ∃ s, p.render env = s ++ "%" ∧ FixedDigits 1 s)) ∧
      (∀ bucket : Point, ∃ before after,
        customerGrowthPieces env [bucket] = .ok [.text before, .text "0%", .text after]) := by
  refine ⟨generateResponse_pieces env henv questionType data, ?_, ?_⟩
  · intro ps _ p _ q hq
    constructor
    · rintro rfl
      exact ⟨_, rfl, JSNum.toFixed_fixedDigits env 2 (by decide) q hq⟩
    · rintro rfl
      exact ⟨_, rfl, JSNum.toFixed_fixedDigits env 1 (by decide) q hq⟩
  · intro bucket
    exact ⟨_, _, rfl⟩

/-- The order-status narrative of two example rows, cut into its pieces and as text. -/
theorem narrative_figures_witness :
    (∀ q, exampleEnv.numberToString q ≠ "") ∧
      narrativePieces exampleEnv "order_status"
          [ [("status", .str "shipped"), ("count", .num (.fin 3)),
              ("total_amount", .num (.fin 30))],
            [("status", .str "pending"), ("count", .num (.fin 1)),
              ("total_amount", .num (.fin (25 / 2)))] ] =
        .ok [ .text "Order Status Analysis:\n• Total Orders: 4\n",
          .text "• shipped: 3 (", .percent (.fin 75), .text ") - ", .dollars (.fin 30),
          .text "\n",
          .text "• pending: 1 (", .percent (.fin 25), .text ") - ", .dollars (.fin (25 / 2)) ] ∧
      (generateResponse exampleEnv "order_status"
          [ [("status", .str "shipped"), ("count", .num (.fin 3)),
              ("total_amount", .num (.fin 30))],
            [("status", .str "pending"), ("count", .num (.fin 1)),
              ("total_amount", .num (.fin (25 / 2)))] ]).map (fun r => r.response) =
        .ok ("Order Status Analysis:\n• Total Orders: 4\n" ++
          "• shipped: 3 (75.0%) - $30.00\n" ++ "• pending: 1 (25.0%) - $12.50") :=
  ⟨exampleEnv_numberToString_ne_empty, by decide!,
    (narrative_figures exampleEnv exampleEnv_numberToString_ne_empty "order_status" _).1.trans
      (by decide!)⟩

/-- C12 (as stated, refuted): with finite fields, the growth rate of a single month is printed as
`0%`, without a decimal, and the market share of products without revenue as `NaN%`. -/
theorem growth_rate_without_decimal :
    (generateResponse exampleEnv "customer_growth"
        [ [("date", .str "2024-01-05"), ("new_customers", .num (.fin 10))] ]).map
          (fun r => r.response) =
        .ok ("Customer Growth Analysis:\n" ++ "• Total New Customers: 10\n" ++
          "• Peak Acquisition Month: Jan 2024 (10 customers)\n" ++
          "• Growth Rate: 0% over period\n" ++ "Monthly Breakdown:\n" ++
          "• Jan 2024: 10 customers") ∧
      (generateResponse exampleEnv "product_popularity"
        [ [("product", .str "Desk"), ("category", .str "Furniture"),
            ("times_ordered", .num (.fin 2)), ("revenue_generated", .num (.fin 0))] ]).map
          (fun r => r.response) =
        .ok ("Product Popularity Analysis:\n" ++ "• Total Revenue: $0.00\n" ++
          "Top Products by Market Share:\n" ++ "• Desk (Furniture): NaN%") := by
  decide!

end DataAgent
